import Mathlib

/-!
# First-person footsteps: the footstep sound component

A shallow embedding of `UFootstepSoundComponent`
(`Source/FirstPersonFootsteps/Private/FootstepSoundComponent.cpp` and
`Public/FootstepSoundComponent.h`) and of `UFootstepSoundSet`
(`Public/FootstepSoundSet.h`).

Modelling conventions.

* A `float` is a number of the IEEE 754 format binary32 and a `double` one of
  binary64 (the coordinates of the engine's `FVector`, which are `double` in
  the engine version that declares `UE_SMALL_NUMBER`). Such a number is the
  rational it stands for; every arithmetic operation, conversion and literal
  is rounded to the format, to nearest with ties to even, subnormal numbers
  included. The exponent has no upper bound: where the machine has an
  infinity the model has the rounded number itself, which compares the same
  way with every finite number. NaN and the sign of zero are not
  modelled.
* The component is one record; every member function is a function from the
  record (and the owner's world, read through `World`) to the record.
* Calls that leave the component (delegate broadcasts, `PlaySoundAtLocation`,
  the line trace) are appended, in call order, to the field `log`.
* `ensureAlwaysMsgf(c, ...)` is its condition `c`: the report it files has no
  effect on the component.
* Object pointers are `Option`s, `IsValid(p)` is `p.isSome`; a `TMap` is a
  function to `Option`. The weak pointers `CachedOwner` and
  `CachedMovementComponent` are taken to be valid (`BeginPlay` destroys the
  component otherwise).
-/

namespace FirstPersonFootsteps

/-! ## Machine numbers -/

/-- Rounding of a rational to the nearest integer, a tie going to the even
neighbour. -/
def roundHalfEven (x : ℚ) : ℤ :=
  if x - ⌊x⌋ < 1 / 2 then ⌊x⌋
  else if 1 / 2 < x - ⌊x⌋ then ⌊x⌋ + 1
  else if ⌊x⌋ % 2 = 0 then ⌊x⌋
  else ⌊x⌋ + 1

/-- A binary floating-point format: the number of bits of the significand and
the exponent of the least positive (subnormal) number. -/
structure FloatFormat where
  prec : ℕ
  emin : ℤ
  prec_pos : 0 < prec
  emin_nonpos : emin ≤ 0

/-- The IEEE 754 format binary32, the C++ `float`. -/
def binary32 : FloatFormat := ⟨24, -149, by decide, by decide⟩

/-- The IEEE 754 format binary64, the C++ `double`. -/
def binary64 : FloatFormat := ⟨53, -1074, by decide, by decide⟩

namespace FloatFormat

/-- The exponent of the unit in the last place at `x`: `prec - 1` below the
binary exponent of `x`, and not below `emin`. -/
def quantum (F : FloatFormat) (x : ℚ) : ℤ := max (Int.log 2 |x| - (F.prec - 1)) F.emin

/-- Rounding to the format, to nearest with ties to even. -/
@[irreducible]
def round (F : FloatFormat) (x : ℚ) : ℚ :=
  roundHalfEven (x / 2 ^ F.quantum x) * 2 ^ F.quantum x

/-- The square root rounded to the format, to nearest with ties to even; 0 for
an argument that is not positive. -/
@[irreducible]
def sqrt (F : FloatFormat) (x : ℚ) : ℚ :=
  if x ≤ 0 then 0
  else
    let q : ℤ := max (Int.log 2 x / 2 - (F.prec - 1)) F.emin
    let y : ℚ := x / 2 ^ (2 * q)
    let m : ℕ := Nat.sqrt ⌊y⌋₊
    let half : ℚ := ((m : ℚ) + 1 / 2) * ((m : ℚ) + 1 / 2)
    let n : ℕ := if y < half then m else if half < y then m + 1 else if m % 2 = 0 then m else m + 1
    F.round ((n : ℚ) * 2 ^ q)

end FloatFormat

/-- The numbers of a format: the rationals rounding produces. -/
def Fl (F : FloatFormat) : Type := { x : ℚ // ∃ y, F.round y = x }

namespace Fl

variable {F : FloatFormat}

/-- The rational a number of the format stands for. -/
def val (a : Fl F) : ℚ := Subtype.val a

/-- The number of the format nearest to a rational. -/
def ofRat (F : FloatFormat) (x : ℚ) : Fl F := ⟨F.round x, x, rfl⟩

instance : LinearOrder (Fl F) := inferInstanceAs (LinearOrder { x : ℚ // ∃ y, F.round y = x })

instance (a b : Fl F) : Decidable (a ≤ b) := inferInstanceAs (Decidable (a.val ≤ b.val))

instance (a b : Fl F) : Decidable (a < b) := inferInstanceAs (Decidable (a.val < b.val))

instance (n : ℕ) : OfNat (Fl F) n := ⟨ofRat F n⟩

instance : OfScientific (Fl F) := ⟨fun m s e => ofRat F (OfScientific.ofScientific m s e)⟩

instance : Add (Fl F) := ⟨fun a b => ofRat F (a.val + b.val)⟩

instance : Sub (Fl F) := ⟨fun a b => ofRat F (a.val - b.val)⟩

instance : Mul (Fl F) := ⟨fun a b => ofRat F (a.val * b.val)⟩

instance : Div (Fl F) := ⟨fun a b => ofRat F (a.val / b.val)⟩

instance : Neg (Fl F) := ⟨fun a => ofRat F (-a.val)⟩

/-- The square root, rounded. -/
def sqrt (a : Fl F) : Fl F := ofRat F (F.sqrt a.val)

/-- Conversion to another format, rounded (`double` to `float`) or exact
(`float` to `double`). -/
def cast (G : FloatFormat) (a : Fl F) : Fl G := ofRat G a.val

end Fl

/-- The C++ type `float`. -/
abbrev float : Type := Fl binary32

/-- The C++ type `double`. -/
abbrev double : Type := Fl binary64

namespace Fl

variable {F : FloatFormat}

/-- Conversion to `float`. -/
def toFloat (a : Fl F) : float := cast binary32 a

/-- Conversion to `double`. -/
def toDouble (a : Fl F) : double := cast binary64 a

end Fl

/-- Engine constant `UE_SMALL_NUMBER` (`1.e-8f`), declared by the engine's
math headers and used by the component as the near-zero speed threshold. -/
def UE_SMALL_NUMBER : float := 1e-8

/-- Engine type `FVector`, with the three coordinates the component reads. -/
structure FVector where
  X : double
  Y : double
  Z : double
deriving DecidableEq

namespace FVector

/-- Engine constant `FVector::ZeroVector`. -/
def ZeroVector : FVector := ⟨0, 0, 0⟩

/-- Engine operator `FVector::operator-`. -/
def sub (a b : FVector) : FVector := ⟨a.X - b.X, a.Y - b.Y, a.Z - b.Z⟩

instance : Sub FVector := ⟨sub⟩

/-- Engine function `FVector::SizeSquared`. -/
def SizeSquared (v : FVector) : double := v.X * v.X + v.Y * v.Y + v.Z * v.Z

/-- Engine function `FVector::Size`, the Euclidean length:
`FMath::Sqrt(X*X + Y*Y + Z*Z)`. -/
def Size (v : FVector) : double := Fl.sqrt v.SizeSquared

end FVector

/-- The enumeration `EFootstepMovementType` of `FootstepSoundComponent.h`. -/
inductive EFootstepMovementType where
  | Stopped
  | Walking
  | CrouchWalking
  | Flying
deriving DecidableEq, Repr

/-- Engine enumeration `EPhysicalSurface`, by its byte value. -/
abbrev EPhysicalSurface := Nat

/-- Engine constant `SurfaceType_Default`. -/
def SurfaceType_Default : EPhysicalSurface := 0

/-- Engine type `USoundBase`: a sound asset, by an identifier. -/
abbrev USoundBase := Nat

/-- Engine type `UCurveFloat`, by its `GetFloatValue`. -/
abbrev UCurveFloat := float → float

/-- The data asset `UFootstepSoundSet` of `FootstepSoundSet.h`: three object
pointers, each possibly null. -/
structure UFootstepSoundSet where
  Footstep : Option USoundBase
  Jump : Option USoundBase
  Land : Option USoundBase
deriving DecidableEq

/-- What the component sends outside itself: the five delegates it broadcasts
on, the sound it hands to `UGameplayStatics::PlaySoundAtLocation`, and the line
trace it asks of the world. -/
inductive Event where
  | OnFootstep
  | OnJump
  | OnLand
  | OnStartMoving
  | OnStopMoving
  | PlaySoundAtLocation (Sound : USoundBase) (Location : FVector) (VolumeMultiplier : float)
  | LineTraceSingleByChannel (Start End : FVector)
deriving DecidableEq

/-- Engine type `FHitResult`, with the one field the component reads: the
physical material of the hit, by its surface type (`none` for a null
material). -/
structure FHitResult where
  PhysMaterial : Option EPhysicalSurface

/-- What the component reads from outside itself during one call: the owning
character, its movement component and the world. -/
structure World where
  /-- Value of `CachedOwner->GetActorLocation()`. -/
  ActorLocation : FVector
  /-- Value of `CachedOwner->GetVelocity()`. -/
  Velocity : FVector
  /-- Value of `CachedMovementComponent->IsMovingOnGround()`. -/
  IsMovingOnGround : Bool
  /-- Value of `CachedMovementComponent->IsCrouching()`. -/
  IsCrouching : Bool
  /-- Value of `CachedOwner->GetCapsuleComponent()->GetScaledCapsuleHalfHeight()`. -/
  ScaledCapsuleHalfHeight : float
  /-- Value of `IsValid(GetWorld())`. -/
  IsValidWorld : Bool
  /-- Result of `World->LineTraceSingleByChannel(OutHit, Start, End, ...)`: the hit, or
  `none` when the trace returns false. -/
  LineTrace : FVector → FVector → Option FHitResult

/-- The class `UFootstepSoundComponent` of `FootstepSoundComponent.h`: its
editable properties, then its private members, with the header's initial
values; `log` collects the outgoing calls. -/
structure UFootstepSoundComponent where
  VolumeSpeedCurve : Option UCurveFloat := none
  IntervalSpeedCurve : Option UCurveFloat := none
  LandingVolumeSpeedCurve : Option UCurveFloat := none
  SoundSets : EPhysicalSurface → Option (Option UFootstepSoundSet) := fun _ => none
  ActorOnGroundDistance : float := 10
  MinimumSoundInterval : float := 0.12
  CrouchSoundMultiplier : float := 0.5
  StepDistanceRemaining : float := 20
  CachedMovementType : EFootstepMovementType := EFootstepMovementType.Stopped
  CachedPhysicalSurface : EPhysicalSurface := SurfaceType_Default
  SurfaceAge : float := 0
  LastStepLocation : FVector := FVector.ZeroVector
  CachedSpeed : float := 0
  TimeSinceLastFootstep : float := 0
  log : List Event := []

namespace UFootstepSoundComponent

open EFootstepMovementType

/-- Member function `UFootstepSoundComponent::BeginPlay`, for an owner that is a character. -/
def BeginPlay (w : World) (s : UFootstepSoundComponent) : UFootstepSoundComponent :=
  { s with LastStepLocation := w.ActorLocation }

/-- Member function `UFootstepSoundComponent::PlaySound`. -/
def PlaySound (w : World) (Sound : Option USoundBase) (VolumeOverride : float)
    (s : UFootstepSoundComponent) : UFootstepSoundComponent :=
  match Sound with
  | none => s
  | some snd =>
    if s.TimeSinceLastFootstep ≥ s.MinimumSoundInterval then
      { s with
        log := s.log ++ [Event.PlaySoundAtLocation snd w.ActorLocation VolumeOverride,
                         Event.OnFootstep]
        TimeSinceLastFootstep := 0 }
    else s

/-- Member function `UFootstepSoundComponent::UpdateSurface`. -/
def UpdateSurface (w : World) (s : UFootstepSoundComponent) : UFootstepSoundComponent :=
  if !w.IsValidWorld then s
  else
    let Start := w.ActorLocation
    let End := Start - ⟨0, 0, (w.ScaledCapsuleHalfHeight + s.ActorOnGroundDistance).toDouble⟩
    let s1 := { s with log := s.log ++ [Event.LineTraceSingleByChannel Start End] }
    match w.LineTrace Start End with
    | some OutHit =>
      match OutHit.PhysMaterial with
      | some SurfaceType => { s1 with CachedPhysicalSurface := SurfaceType }
      | none => s1
    | none => s1

/-- Member function `UFootstepSoundComponent::UpdateSpeed`. -/
def UpdateSpeed (w : World) (s : UFootstepSoundComponent) : UFootstepSoundComponent :=
  { s with CachedSpeed := w.Velocity.Size.toFloat }

/-- Member function `UFootstepSoundComponent::PickSoundSet`. -/
def PickSoundSet (s : UFootstepSoundComponent) : Option UFootstepSoundSet :=
  match s.SoundSets s.CachedPhysicalSurface with
  | none => none
  | some none => none
  | some (some PickedSet) => some PickedSet

/-- Member function `UFootstepSoundComponent::CalculateFootstepVolume`. -/
def CalculateFootstepVolume (s : UFootstepSoundComponent) : float :=
  let Volume := if s.CachedMovementType = Walking then 1 else s.CrouchSoundMultiplier
  match s.VolumeSpeedCurve with
  | some curve => Volume * curve s.CachedSpeed
  | none => Volume

/-- Member function `UFootstepSoundComponent::CalculateLandingVolume`. -/
def CalculateLandingVolume (s : UFootstepSoundComponent) : float :=
  match s.VolumeSpeedCurve with
  | some curve => curve s.CachedSpeed
  | none => 1

/-- Member function `UFootstepSoundComponent::OnJump_Native`; `PlaySound` gets its default
volume `1.f`. -/
def OnJump_Native (w : World) (s : UFootstepSoundComponent) : UFootstepSoundComponent :=
  let s1 := { s with log := s.log ++ [Event.OnJump] }
  match s1.PickSoundSet with
  | some SoundSet => PlaySound w SoundSet.Jump 1 s1
  | none => s1

/-- Member function `UFootstepSoundComponent::RegisterJump`. -/
def RegisterJump (w : World) (s : UFootstepSoundComponent) : UFootstepSoundComponent :=
  OnJump_Native w s

/-- Member function `UFootstepSoundComponent::OnLand_Native`. -/
def OnLand_Native (w : World) (s : UFootstepSoundComponent) : UFootstepSoundComponent :=
  let s1 := UpdateSurface w s
  let s2 := { s1 with log := s1.log ++ [Event.OnLand] }
  let s3 :=
    match s2.PickSoundSet with
    | some SoundSet => PlaySound w SoundSet.Land s2.CalculateLandingVolume s2
    | none => s2
  { s3 with LastStepLocation := w.ActorLocation }

/-- Member function `UFootstepSoundComponent::OnStartMoving_Native`. -/
def OnStartMoving_Native (w : World) (s : UFootstepSoundComponent) : UFootstepSoundComponent :=
  let s1 := { s with log := s.log ++ [Event.OnStartMoving] }
  match s1.PickSoundSet with
  | some SoundSet => PlaySound w SoundSet.Footstep s1.CalculateFootstepVolume s1
  | none => s1

/-- Member function `UFootstepSoundComponent::OnStopMoving_Native`. -/
def OnStopMoving_Native (w : World) (s : UFootstepSoundComponent) : UFootstepSoundComponent :=
  let s1 := { s with log := s.log ++ [Event.OnStopMoving] }
  match s1.PickSoundSet with
  | some SoundSet => PlaySound w SoundSet.Footstep s1.CalculateFootstepVolume s1
  | none => s1

/-- The first half of `UFootstepSoundComponent::ReadMovementComponent`: the
value it gives its local `NewMovementType`. -/
def NewMovementType (w : World) (s : UFootstepSoundComponent) : EFootstepMovementType :=
  if w.IsMovingOnGround then
    if s.CachedSpeed < UE_SMALL_NUMBER then Stopped
    else if w.IsCrouching then CrouchWalking else Walking
  else Flying

/-- Member function `UFootstepSoundComponent::ReadMovementComponent`. -/
def ReadMovementComponent (w : World) (s : UFootstepSoundComponent) : UFootstepSoundComponent :=
  let New := NewMovementType w s
  let s1 :=
    if s.CachedMovementType ≠ New then
      if s.CachedMovementType = Flying then OnLand_Native w s
      else
        let bWasMoving := s.CachedMovementType = Walking ∨ s.CachedMovementType = CrouchWalking
        let bIsMoving := New = Walking ∨ New = CrouchWalking
        if bWasMoving ∧ ¬ bIsMoving then OnStopMoving_Native w s
        else if ¬ bWasMoving ∧ bIsMoving then OnStartMoving_Native w s
        else s
    else s
  { s1 with CachedMovementType := New }

/-- Member function `UFootstepSoundComponent::PlayFootsteps`. -/
def PlayFootsteps (w : World) (s : UFootstepSoundComponent) : UFootstepSoundComponent :=
  if s.CachedMovementType ≠ Walking ∧ s.CachedMovementType ≠ CrouchWalking then s
  else
    let OwnerLocation := w.ActorLocation
    let Distance := (OwnerLocation - s.LastStepLocation).Size.toFloat
    let s1 := { s with LastStepLocation := OwnerLocation
                       StepDistanceRemaining := s.StepDistanceRemaining - Distance }
    if s1.StepDistanceRemaining ≤ 0 then
      let s2 :=
        match s1.PickSoundSet with
        | some SoundSet => PlaySound w SoundSet.Footstep s1.CalculateFootstepVolume s1
        | none => s1
      let s3 := { s2 with StepDistanceRemaining := 0 }
      let s4 :=
        match s3.IntervalSpeedCurve with
        | some curve => { s3 with StepDistanceRemaining := curve s3.CachedSpeed }
        | none => s3
      if s4.StepDistanceRemaining = 0 then { s4 with StepDistanceRemaining := 20 } else s4
    else s1

/-- Member function `UFootstepSoundComponent::TickComponent`. -/
def TickComponent (w : World) (DeltaTime : float) (s : UFootstepSoundComponent) :
    UFootstepSoundComponent :=
  let s1 := UpdateSpeed w s
  let s2 := { s1 with SurfaceAge := s1.SurfaceAge + DeltaTime }
  let s3 :=
    if s2.SurfaceAge > 0.05 ∧ s2.CachedSpeed > UE_SMALL_NUMBER then
      UpdateSurface w { s2 with SurfaceAge := 0 }
    else s2
  let s4 := ReadMovementComponent w s3
  let s5 := PlayFootsteps w s4
  { s5 with TimeSinceLastFootstep := s5.TimeSinceLastFootstep + DeltaTime }

end UFootstepSoundComponent

/-! ## Observing a run

The vocabulary of the statements below: what a call appended to the log, the
edge notifications and the sounds in it, and sequences of the two public
calls (`TickComponent`, `RegisterJump`). -/

open EFootstepMovementType UFootstepSoundComponent

/-- The outgoing calls made between the component states `s` and `s'`, where
`s'` was obtained from `s`: the part of the log of `s'` after the log of `s`. -/
def emitted (s s' : UFootstepSoundComponent) : List Event := s'.log.drop s.log.length

/-- The edge notifications: broadcasts on `OnLand`, `OnStartMoving`,
`OnStopMoving`. -/
def Event.isEdge : Event → Bool
  | Event.OnLand => true
  | Event.OnStartMoving => true
  | Event.OnStopMoving => true
  | _ => false

/-- The edge notifications of a list of outgoing calls, in order. -/
def edgeEvents (l : List Event) : List Event := l.filter Event.isEdge

/-- A sound handed to `PlaySoundAtLocation`. -/
def Event.isPlay : Event → Bool
  | Event.PlaySoundAtLocation _ _ _ => true
  | _ => false

/-- How many sounds a list of outgoing calls plays. -/
def playCount (l : List Event) : Nat := l.countP Event.isPlay

/-- A line trace asked of the world. -/
def Event.isTrace : Event → Bool
  | Event.LineTraceSingleByChannel _ _ => true
  | _ => false

/-- Whether a movement type is one of the two moving ones, the test
`ReadMovementComponent` makes for `bWasMoving` and `bIsMoving`. -/
def IsMoving (t : EFootstepMovementType) : Prop := t = Walking ∨ t = CrouchWalking

instance (t : EFootstepMovementType) : Decidable (IsMoving t) := by
  unfold IsMoving; infer_instance

/-- One call of the component's public interface, with what the owner and the
world look like when it is made. -/
inductive Call where
  | Tick (w : World) (DeltaTime : float)
  | Jump (w : World)

/-- The effect of one public call. -/
def Call.apply : Call → UFootstepSoundComponent → UFootstepSoundComponent
  | Call.Tick w dt, s => TickComponent w dt s
  | Call.Jump w, s => RegisterJump w s

/-- The time a public call adds to `TimeSinceLastFootstep`: the tick delta for
a tick, nothing for a jump. -/
def Call.DeltaTime : Call → float
  | Call.Tick _ dt => dt
  | Call.Jump _ => 0

/-- The component after a sequence of public calls, first call first. -/
def run (s : UFootstepSoundComponent) : List Call → UFootstepSoundComponent
  | [] => s
  | c :: cs => run (c.apply s) cs

/-- The value of a `float` member that holds `t` after the statements
`member += d` for the `d` of a list, in order: each addition is rounded. -/
def accumulate (t : float) : List float → float
  | [] => t
  | d :: ds => accumulate (t + d) ds

/-- A freshly attached component: the private members hold the initial values
of the header and nothing has been sent out yet. The editable properties are
whatever the designer set, and `LastStepLocation` is where `BeginPlay` found
the owner. -/
def Initial (s : UFootstepSoundComponent) : Prop :=
  s.StepDistanceRemaining = 20 ∧ s.CachedMovementType = Stopped ∧
  s.CachedPhysicalSurface = SurfaceType_Default ∧ s.SurfaceAge = 0 ∧
  s.CachedSpeed = 0 ∧ s.TimeSinceLastFootstep = 0 ∧ s.log = []

/-- The component states a freshly attached component can get to through
public calls. -/
def Reachable (s : UFootstepSoundComponent) : Prop :=
  ∃ s0 calls, Initial s0 ∧ s = run s0 calls

/-- How two component states `s`, `s'` (the second obtained from the first)
stand with respect to the cooldown: the log only grew, and either nothing was
played and the timer is untouched, or something was played, which needed the
timer of `s` to have reached the minimum interval and left the timer at 0 (and
with a positive minimum interval it was one sound only). -/
def Gated (s s' : UFootstepSoundComponent) : Prop :=
  s'.MinimumSoundInterval = s.MinimumSoundInterval ∧
  ∃ l, s'.log = s.log ++ l ∧
    ((playCount l = 0 ∧ s'.TimeSinceLastFootstep = s.TimeSinceLastFootstep) ∨
     (1 ≤ playCount l ∧ s.MinimumSoundInterval ≤ s.TimeSinceLastFootstep ∧
      s'.TimeSinceLastFootstep = 0 ∧ (0 < s.MinimumSoundInterval → playCount l = 1)))

/-! ## Vocabulary of the cadence -/

/-- The footstep request written out three times in the source, in
`OnStartMoving_Native`, `OnStopMoving_Native` and the step branch of
`PlayFootsteps`: pick the sound set of the cached surface and hand its
`Footstep` sound to `PlaySound` at the footstep volume. -/
def RequestFootstep (w : World) (s : UFootstepSoundComponent) : UFootstepSoundComponent :=
  match s.PickSoundSet with
  | some SoundSet => PlaySound w SoundSet.Footstep s.CalculateFootstepVolume s
  | none => s

/-- The value the step branch of `PlayFootsteps` leaves in
`StepDistanceRemaining` (its last three statements): 0, replaced by the value
of the interval curve at the cached speed when the curve is set, replaced by
20 when that is 0. -/
def NextStepDistance (s : UFootstepSoundComponent) : float :=
  let d := match s.IntervalSpeedCurve with
    | some curve => curve s.CachedSpeed
    | none => 0
  if d = 0 then 20 else d

/-- The two members the cadence lives in are the same in `s'` as in `s`: the
interval curve and `StepDistanceRemaining`. -/
def SameCadence (s s' : UFootstepSoundComponent) : Prop :=
  s'.IntervalSpeedCurve = s.IntervalSpeedCurve ∧
  s'.StepDistanceRemaining = s.StepDistanceRemaining

/-- The interval curve of a component is unset or has no negative value. -/
def IntervalCurveNonneg (s : UFootstepSoundComponent) : Prop :=
  ∀ curve, s.IntervalSpeedCurve = some curve → ∀ x, 0 ≤ curve x

/-! ## Concrete scenes

Owners, worlds and component states at which the statements below are
evaluated. -/

/-- A world in which the owner is at `Location` with velocity `Velocity`, on
the ground or not, crouching or not, with a capsule half height of 88 and
nothing under the probe. -/
def exampleWorld (Location Velocity : FVector) (OnGround Crouching : Bool) : World :=
  { ActorLocation := Location, Velocity := Velocity, IsMovingOnGround := OnGround,
    IsCrouching := Crouching, ScaledCapsuleHalfHeight := 88, IsValidWorld := true,
    LineTrace := fun _ _ => none }

/-- The owner on the ground at the origin, upright, moving at 300 along X. -/
def walkingWorld : World := exampleWorld ⟨0, 0, 0⟩ ⟨300, 0, 0⟩ true false

/-- The owner on the ground at the origin, crouching, moving at 300 along X. -/
def crouchingWorld : World := exampleWorld ⟨0, 0, 0⟩ ⟨300, 0, 0⟩ true true

/-- A component with the header's values whose last tick saw the owner in the
air, and whose cached speed is 300. -/
def airborneComponent : UFootstepSoundComponent :=
  { CachedMovementType := Flying, CachedSpeed := 300 }

/-- A component with the header's values, stopped, whose cached speed is 300. -/
def stoppedComponent : UFootstepSoundComponent :=
  { CachedSpeed := 300 }

/-- A sound catalogue with the same set for every surface: footstep sound 1,
jump sound 2, land sound 3. -/
def exampleSounds : EPhysicalSurface → Option (Option UFootstepSoundSet) :=
  fun _ => some (some ⟨some 1, some 2, some 3⟩)

/-- The owner at rest on the ground at the origin, upright. -/
def standingWorld : World := exampleWorld ⟨0, 0, 0⟩ ⟨0, 0, 0⟩ true false

/-- The owner on the ground 20 units along X from the origin, upright, moving
at 300 along X. -/
def strideWorld : World := exampleWorld ⟨20, 0, 0⟩ ⟨300, 0, 0⟩ true false

/-- A component with the header's values, the example catalogue, and a second
gone since the last sound. -/
def readyComponent : UFootstepSoundComponent :=
  { SoundSets := exampleSounds, TimeSinceLastFootstep := 1 }

/-- The owner on the ground 10 units along X from the origin, upright, moving
at 300 along X. -/
def firstStepWorld : World := exampleWorld ⟨10, 0, 0⟩ ⟨300, 0, 0⟩ true false

/-- The owner on the ground 25 units along X from the origin, upright, moving
at 300 along X. -/
def thirdStepWorld : World := exampleWorld ⟨25, 0, 0⟩ ⟨300, 0, 0⟩ true false

/-- A walking component, last step at the origin, cached speed 300, whose
interval curve is the constant -5. -/
def negativeCurveComponent : UFootstepSoundComponent :=
  { IntervalSpeedCurve := some (fun _ => -5), CachedMovementType := Walking, CachedSpeed := 300 }

/-- A walking component, last step at the origin, cached speed 300, with the
example catalogue, the constant interval curve 150, and a second gone since
the last sound. -/
def walkingComponent : UFootstepSoundComponent :=
  { IntervalSpeedCurve := some (fun _ => 150), SoundSets := exampleSounds,
    CachedMovementType := Walking, CachedSpeed := 300, TimeSinceLastFootstep := 1 }

/-- A freshly attached component with the example catalogue whose interval
curve maps a speed to its negation. -/
def freshNegativeComponent : UFootstepSoundComponent :=
  { IntervalSpeedCurve := some (fun x => -x), SoundSets := exampleSounds }

/-- A freshly attached component with the example catalogue and the constant
interval curve 150. -/
def freshComponent : UFootstepSoundComponent :=
  { IntervalSpeedCurve := some (fun _ => 150), SoundSets := exampleSounds }

/-- A stopped component with the header's values, the example catalogue, a
footstep volume curve of constant value 4/5, and a second gone since the last
sound. -/
def stoppedReadyComponent : UFootstepSoundComponent :=
  { VolumeSpeedCurve := some (fun _ => 4 / 5), SoundSets := exampleSounds,
    TimeSinceLastFootstep := 1 }

/-- A component whose last tick saw the owner in the air, with the example
catalogue, a footstep volume curve of constant value 1/4, a landing volume
curve of constant value 3/4, and a second gone since the last sound. -/
def airborneReadyComponent : UFootstepSoundComponent :=
  { VolumeSpeedCurve := some (fun _ => 1 / 4), LandingVolumeSpeedCurve := some (fun _ => 3 / 4),
    SoundSets := exampleSounds, CachedMovementType := Flying, TimeSinceLastFootstep := 1 }

/-- The component `freshNegativeComponent` after one tick of one second with a
stride of 20 units at speed 300. -/
def negativeAfterStride : UFootstepSoundComponent :=
  { freshNegativeComponent with
    CachedSpeed := 300
    log := [Event.LineTraceSingleByChannel ⟨20, 0, 0⟩ ⟨20, 0, -98⟩, Event.OnStartMoving]
    CachedMovementType := Walking
    LastStepLocation := ⟨20, 0, 0⟩
    StepDistanceRemaining := -300
    TimeSinceLastFootstep := 1 }

/-- The component `walkingComponent` after a first call of `PlayFootsteps` 10
units from the origin. -/
def walkingAfterFirstStep : UFootstepSoundComponent :=
  { walkingComponent with LastStepLocation := ⟨10, 0, 0⟩, StepDistanceRemaining := 10 }

/-- A tick delta a little over 13 milliseconds, the `float` nearest to
0.013333333. -/
def frameDelta : float := 0.013333333

/-- Nine ticks of `frameDelta` with the owner at rest on the ground. -/
def nineFrames : List Call := (List.replicate 9 frameDelta).map (Call.Tick standingWorld)

/-- The component `readyComponent` at the call of `PlayFootsteps` in a tick of
1/100 with the owner of `strideWorld`: the speed is cached, the surface age
has grown, and `ReadMovementComponent` has classified `Walking`, broadcast
`OnStartMoving` and played the footstep of the edge, which left the timer at
0. -/
def readyAtCadence : UFootstepSoundComponent :=
  { readyComponent with
    CachedSpeed := 300
    SurfaceAge := 1 / 100
    log := [Event.OnStartMoving, Event.PlaySoundAtLocation 1 ⟨20, 0, 0⟩ 0.5, Event.OnFootstep]
    TimeSinceLastFootstep := 0
    CachedMovementType := Walking }

/-- A tick delta of two and a half milliseconds, the `float` nearest to
0.0025. -/
def shortDelta : float := 0.0025

/-- Nineteen ticks of `shortDelta` with the owner at rest on the ground. -/
def nineteenShortTicks : List Call :=
  (List.replicate 19 shortDelta).map (Call.Tick standingWorld)

/-! ## Vocabulary of the sound requests -/

/-- The sound sets give no sound for a request: they have no entry for the
cached surface, or the entry is a null set, or the sound `clip` selects from
the set is null. -/
def MissingClip (s : UFootstepSoundComponent) (clip : UFootstepSoundSet → Option USoundBase) :
    Prop :=
  s.SoundSets s.CachedPhysicalSurface = none ∨
  s.SoundSets s.CachedPhysicalSurface = some none ∨
  ∃ SoundSet, s.SoundSets s.CachedPhysicalSurface = some (some SoundSet) ∧ clip SoundSet = none

/-- Nothing was played between the component states `s` and `s'`: no sound was
handed to `PlaySoundAtLocation`, `OnFootstep` was not broadcast, and
`TimeSinceLastFootstep` is as it was. -/
def Silent (s s' : UFootstepSoundComponent) : Prop :=
  playCount (emitted s s') = 0 ∧ Event.OnFootstep ∉ emitted s s' ∧
  s'.TimeSinceLastFootstep = s.TimeSinceLastFootstep

/-- The probe of `UpdateSurface` finds nothing to cache: the line trace from
the owner's location to the end point below it returns no hit, or a hit
without a physical material. -/
def ProbeMisses (w : World) (s : UFootstepSoundComponent) : Prop :=
  w.LineTrace w.ActorLocation
      (w.ActorLocation - ⟨0, 0, (w.ScaledCapsuleHalfHeight + s.ActorOnGroundDistance).toDouble⟩) = none ∨
  ∃ OutHit, w.LineTrace w.ActorLocation
      (w.ActorLocation - ⟨0, 0, (w.ScaledCapsuleHalfHeight + s.ActorOnGroundDistance).toDouble⟩)
        = some OutHit ∧ OutHit.PhysMaterial = none

/-- A component with the header's values and no sound set at all, a second
after the last sound. -/
def emptyCatalogueComponent : UFootstepSoundComponent :=
  { TimeSinceLastFootstep := 1 }

/-- A component whose cached surface is surface 7 while the sound sets only
have an entry for the default surface, a second after the last sound. -/
def waterComponent : UFootstepSoundComponent :=
  { SoundSets := fun k => if k = 0 then some (some ⟨some 1, some 2, some 3⟩) else none,
    CachedPhysicalSurface := 7, TimeSinceLastFootstep := 1 }

/-- A component whose cached surface is surface 3, with a surface age of a
tenth of a second. -/
def concreteComponent : UFootstepSoundComponent :=
  { CachedPhysicalSurface := 3, SurfaceAge := 1 / 10 }

/-- The surface block of `TickComponent` (its second statement): the surface
age grows by the tick delta, and when it has passed 0.05 while the cached speed
is above `UE_SMALL_NUMBER` it is set back to 0 and the surface is sampled. -/
def ThrottledSurface (w : World) (DeltaTime : float) (s : UFootstepSoundComponent) :
    UFootstepSoundComponent :=
  if s.SurfaceAge + DeltaTime > 0.05 ∧ s.CachedSpeed > UE_SMALL_NUMBER then
    UpdateSurface w { s with SurfaceAge := 0 }
  else { s with SurfaceAge := s.SurfaceAge + DeltaTime }

/-! ## Vocabulary of the throttled resample -/

/-- The statements of `TickComponent` after its surface block: the movement
classification, the cadence and the timer advance. -/
def TickAfterSurface (w : World) (DeltaTime : float) (s : UFootstepSoundComponent) :
    UFootstepSoundComponent :=
  { PlayFootsteps w (ReadMovementComponent w s) with
    TimeSinceLastFootstep :=
      (PlayFootsteps w (ReadMovementComponent w s)).TimeSinceLastFootstep + DeltaTime }

/-- A public call makes the throttled resample: it is a tick in which the
surface age, grown by the tick delta, has passed 0.05 while the owner's speed
is above `UE_SMALL_NUMBER` (the test of the surface block of `TickComponent`,
made after `UpdateSpeed`). -/
def Call.Resamples : Call → UFootstepSoundComponent → Prop
  | Call.Tick w dt, s => s.SurfaceAge + dt > 0.05 ∧ w.Velocity.Size.toFloat > UE_SMALL_NUMBER
  | Call.Jump _, _ => False

/-- None of the public calls of a sequence, made one after the other from the
state `s`, makes the throttled resample. -/
def NoResample (s : UFootstepSoundComponent) : List Call → Prop
  | [] => True
  | c :: cs => ¬ c.Resamples s ∧ NoResample (c.apply s) cs

/-! ## Vocabulary of the notifications -/

/-- A broadcast on `OnFootstep`, the notification that a sound was played. -/
def Event.isFootstepPlayed : Event → Bool
  | Event.OnFootstep => true
  | _ => false

/-- Between the component states `s` and `s'` the log only grew, and it grew by
as many `OnFootstep` broadcasts as sounds handed to `PlaySoundAtLocation`. -/
def Paired (s s' : UFootstepSoundComponent) : Prop :=
  (∃ l, s'.log = s.log ++ l) ∧
  (emitted s s').countP Event.isFootstepPlayed = playCount (emitted s s')

/-- The edge notification `ReadMovementComponent` owes to a change from the
movement type `previous` to the movement type `new` (its three nested tests):
none without a change, `OnLand` when leaving `Flying`, otherwise
`OnStopMoving` from moving to not moving and `OnStartMoving` from not moving to
moving. -/
def edgeOf (previous new : EFootstepMovementType) : List Event :=
  if previous = new then []
  else if previous = Flying then [Event.OnLand]
  else if IsMoving previous ∧ ¬ IsMoving new then [Event.OnStopMoving]
  else if ¬ IsMoving previous ∧ IsMoving new then [Event.OnStartMoving]
  else []

/-- A walking component, last step at the origin, cached speed 300, with the
example catalogue and the constant interval curve 150, whose timer is at 0. -/
def coolingComponent : UFootstepSoundComponent :=
  { IntervalSpeedCurve := some (fun _ => 150), SoundSets := exampleSounds,
    CachedMovementType := Walking, CachedSpeed := 300 }

/-- A freshly attached component with the example catalogue whose interval
curve is worth 0 everywhere. -/
def freshZeroComponent : UFootstepSoundComponent :=
  { IntervalSpeedCurve := some (fun _ => 0), SoundSets := exampleSounds }

/-- The owner at rest on the ground at the origin, upright, above a surface of
type 4 that every probe hits. -/
def gravelWorld : World :=
  { exampleWorld ⟨0, 0, 0⟩ ⟨0, 0, 0⟩ true false with
    LineTrace := fun _ _ => some ⟨some 4⟩ }

/-- A component whose last tick saw the owner in the air, whose cached surface
is the default one, whose sound sets only have an entry for surface 4 (land
sound 9), a second after the last sound. -/
def airborneOverGravelComponent : UFootstepSoundComponent :=
  { SoundSets := fun k => if k = 4 then some (some ⟨some 7, some 8, some 9⟩) else none,
    CachedMovementType := Flying, TimeSinceLastFootstep := 1 }

/-! ## Lemmas: rounding -/

theorem roundHalfEven_intCast (n : ℤ) : roundHalfEven (n : ℚ) = n := by
  simp [roundHalfEven]

/-- What `roundHalfEven` returns is within a half of its argument, and even
when exactly a half away. -/
theorem roundHalfEven_spec (x : ℚ) :
    ((roundHalfEven x : ℚ) - 1 / 2 < x ∧ x < roundHalfEven x + 1 / 2) ∨
    (roundHalfEven x % 2 = 0 ∧
      (x = roundHalfEven x + 1 / 2 ∨ x = roundHalfEven x - 1 / 2)) := by
  have h₁ := Int.floor_le x
  have h₂ := Int.lt_floor_add_one x
  unfold roundHalfEven
  split_ifs with a b c
  · left; constructor <;> linarith
  · left; push_cast; constructor <;> linarith
  · right
    refine ⟨c, Or.inl ?_⟩
    linarith [not_lt.mp a, not_lt.mp b]
  · right
    refine ⟨by omega, Or.inr ?_⟩
    push_cast
    linarith [not_lt.mp a, not_lt.mp b]

theorem roundHalfEven_eq_of_lt {x : ℚ} {n : ℤ} (h₁ : (n : ℚ) - 1 / 2 < x)
    (h₂ : x < n + 1 / 2) : roundHalfEven x = n := by
  rcases le_or_lt (n : ℚ) x with h | h
  · have hf : ⌊x⌋ = n := Int.floor_eq_iff.mpr ⟨h, by linarith⟩
    have : x - (n : ℚ) < 1 / 2 := by linarith
    rw [roundHalfEven, hf, if_pos this]
  · have hf : ⌊x⌋ = n - 1 := Int.floor_eq_iff.mpr ⟨by push_cast; linarith, by push_cast; linarith⟩
    have a : ¬ x - ((n - 1 : ℤ) : ℚ) < 1 / 2 := by push_cast; linarith
    have b : 1 / 2 < x - ((n - 1 : ℤ) : ℚ) := by push_cast; linarith
    rw [roundHalfEven, hf, if_neg a, if_pos b]
    omega

theorem roundHalfEven_eq_of_tie {x : ℚ} {n : ℤ} (hn : n % 2 = 0)
    (h : x = n + 1 / 2 ∨ x = n - 1 / 2) : roundHalfEven x = n := by
  rcases h with h | h
  · have hf : ⌊x⌋ = n := Int.floor_eq_iff.mpr ⟨by linarith, by linarith⟩
    have a : ¬ x - (n : ℚ) < 1 / 2 := by linarith
    have b : ¬ 1 / 2 < x - (n : ℚ) := by linarith
    rw [roundHalfEven, hf, if_neg a, if_neg b, if_pos hn]
  · have hf : ⌊x⌋ = n - 1 := Int.floor_eq_iff.mpr ⟨by push_cast; linarith, by push_cast; linarith⟩
    have a : ¬ x - ((n - 1 : ℤ) : ℚ) < 1 / 2 := by push_cast; linarith
    have b : ¬ 1 / 2 < x - ((n - 1 : ℤ) : ℚ) := by push_cast; linarith
    have c : ¬ (n - 1) % 2 = 0 := by omega
    rw [roundHalfEven, hf, if_neg a, if_neg b, if_neg c]
    omega

theorem roundHalfEven_neg (x : ℚ) : roundHalfEven (-x) = -roundHalfEven x := by
  rcases roundHalfEven_spec x with ⟨h₁, h₂⟩ | ⟨he, h | h⟩
  · exact roundHalfEven_eq_of_lt (by push_cast; linarith) (by push_cast; linarith)
  · exact roundHalfEven_eq_of_tie (by omega) (Or.inr (by push_cast; linarith))
  · exact roundHalfEven_eq_of_tie (by omega) (Or.inl (by push_cast; linarith))

theorem roundHalfEven_le {x : ℚ} {b : ℤ} (h : x ≤ b) : roundHalfEven x ≤ b := by
  rcases roundHalfEven_spec x with ⟨h₁, -⟩ | ⟨-, h₁ | h₁⟩
  · have : ((roundHalfEven x : ℤ) : ℚ) < ((b + 1 : ℤ) : ℚ) := by push_cast; linarith
    have := Int.cast_lt.mp this
    omega
  · have : ((roundHalfEven x : ℤ) : ℚ) < ((b : ℤ) : ℚ) := by linarith
    exact (Int.cast_lt.mp this).le
  · have : ((roundHalfEven x : ℤ) : ℚ) < ((b + 1 : ℤ) : ℚ) := by push_cast; linarith
    have := Int.cast_lt.mp this
    omega

theorem roundHalfEven_ge {x : ℚ} {a : ℤ} (h : (a : ℚ) ≤ x) : a ≤ roundHalfEven x := by
  have := roundHalfEven_le (x := -x) (b := -a) (by push_cast; linarith)
  rw [roundHalfEven_neg] at this
  omega

theorem roundHalfEven_mono {x y : ℚ} (h : x ≤ y) : roundHalfEven x ≤ roundHalfEven y := by
  by_contra hlt
  have hlt : roundHalfEven y + 1 ≤ roundHalfEven x := by omega
  have hq : ((roundHalfEven y : ℤ) : ℚ) + 1 ≤ roundHalfEven x := by exact_mod_cast hlt
  rcases roundHalfEven_spec x with ⟨hx, -⟩ | ⟨ex, hx | hx⟩ <;>
    rcases roundHalfEven_spec y with ⟨-, hy⟩ | ⟨ey, hy | hy⟩
  · linarith
  · linarith
  · linarith
  · linarith
  · linarith
  · linarith
  · linarith
  · have : ((roundHalfEven y : ℤ) : ℚ) + 1 = roundHalfEven x := by linarith
    have : roundHalfEven y + 1 = roundHalfEven x := by exact_mod_cast this
    omega
  · linarith

namespace FloatFormat

variable (F : FloatFormat)

theorem two_zpow_pos (e : ℤ) : (0 : ℚ) < 2 ^ e := zpow_pos (by norm_num) e

theorem le_log_of_zpow_le {x : ℚ} {L : ℤ} (h : (2 : ℚ) ^ L ≤ x) : L ≤ Int.log 2 x :=
  (Int.zpow_le_iff_le_log (by norm_num) (lt_of_lt_of_le (two_zpow_pos L) h)).mp
    (by simpa using h)

theorem log_lt_of_lt_zpow {x : ℚ} {L : ℤ} (hx : 0 < x) (h : x < (2 : ℚ) ^ L) :
    Int.log 2 x < L :=
  (Int.lt_zpow_iff_log_lt (by norm_num) hx).mp (by simpa using h)

/-- The binary exponent of a positive rational between two successive powers
of 2. -/
theorem log_eq_of_bounds {x : ℚ} {L : ℤ} (h₁ : (2 : ℚ) ^ L ≤ x) (h₂ : x < 2 ^ (L + 1)) :
    Int.log 2 x = L := by
  have a := le_log_of_zpow_le h₁
  have b := log_lt_of_lt_zpow (lt_of_lt_of_le (two_zpow_pos L) h₁) h₂
  omega

theorem zpow_log_le {x : ℚ} (hx : 0 < x) : (2 : ℚ) ^ Int.log 2 x ≤ x := by
  simpa using Int.zpow_log_le_self (b := 2) (by norm_num) hx

theorem lt_zpow_log_succ (x : ℚ) : x < (2 : ℚ) ^ (Int.log 2 x + 1) := by
  simpa using Int.lt_zpow_succ_log_self (b := 2) (by norm_num) x

theorem emin_le_quantum (x : ℚ) : F.emin ≤ F.quantum x := le_max_right _ _

theorem quantum_neg (x : ℚ) : F.quantum (-x) = F.quantum x := by
  simp [quantum]

@[simp]
theorem round_zero : F.round 0 = 0 := by
  simp [round, roundHalfEven]

@[simp]
theorem round_neg (x : ℚ) : F.round (-x) = -F.round x := by
  simp [round, quantum_neg, neg_div, roundHalfEven_neg]

/-- Rounding at a known binary exponent. -/
theorem round_of_bounds {x : ℚ} (L q : ℤ) (h₁ : (2 : ℚ) ^ L ≤ x) (h₂ : x < 2 ^ (L + 1))
    (hq : max (L - (F.prec - 1)) F.emin = q) :
    F.round x = roundHalfEven (x / 2 ^ q) * 2 ^ q := by
  have hx : 0 < x := lt_of_lt_of_le (two_zpow_pos L) h₁
  have : F.quantum x = q := by
    rw [quantum, abs_of_pos hx, log_eq_of_bounds h₁ h₂, hq]
  rw [round, this]

/-- Evaluation of a rounding: the binary exponent `L` of the argument, the
exponent `q` of its unit in the last place, and the integer `n` nearest to the
argument in that unit. -/
theorem round_eq {x : ℚ} (L q n : ℤ) (h₁ : (2 : ℚ) ^ L ≤ x) (h₂ : x < 2 ^ (L + 1))
    (hq : max (L - (F.prec - 1)) F.emin = q)
    (hn : (n : ℚ) - 1 / 2 < x / 2 ^ q ∧ x / 2 ^ q < n + 1 / 2) :
    F.round x = n * 2 ^ q := by
  rw [round_of_bounds F L q h₁ h₂ hq, roundHalfEven_eq_of_lt hn.1 hn.2]

/-- Evaluation of a rounding that is a tie. -/
theorem round_eq_of_tie {x : ℚ} (L q n : ℤ) (h₁ : (2 : ℚ) ^ L ≤ x) (h₂ : x < 2 ^ (L + 1))
    (hq : max (L - (F.prec - 1)) F.emin = q) (he : n % 2 = 0)
    (hn : x / 2 ^ q = n + 1 / 2 ∨ x / 2 ^ q = n - 1 / 2) :
    F.round x = n * 2 ^ q := by
  rw [round_of_bounds F L q h₁ h₂ hq, roundHalfEven_eq_of_tie he hn]

/-- An integer of at most `prec` bits times a power of 2 not below `emin` is a
number of the format. -/
theorem round_of_repr (n e : ℤ) (hn : |n| ≤ 2 ^ F.prec) (he : F.emin ≤ e) :
    F.round (n * 2 ^ e) = n * 2 ^ e := by
  have key : ∀ (n e : ℤ), |n| < 2 ^ F.prec → F.emin ≤ e →
      F.round (n * 2 ^ e) = n * 2 ^ e := by
    intro n e hn he
    rcases eq_or_ne n 0 with rfl | h0
    · simp [round_zero]
    have hx : (0 : ℚ) < |(n : ℚ) * 2 ^ e| := by
      rw [abs_pos]
      exact mul_ne_zero (by exact_mod_cast h0) (two_zpow_pos e).ne'
    have hlt : |(n : ℚ) * 2 ^ e| < 2 ^ ((F.prec : ℤ) + e) := by
      rw [abs_mul, abs_of_pos (two_zpow_pos e), zpow_add₀ (by norm_num : (2 : ℚ) ≠ 0)]
      apply mul_lt_mul_of_pos_right _ (two_zpow_pos e)
      rw [zpow_natCast]
      exact_mod_cast hn
    have hL : Int.log 2 |(n : ℚ) * 2 ^ e| < F.prec + e := by
      have := lt_of_le_of_lt (zpow_log_le hx) hlt
      exact (zpow_lt_zpow_iff_right₀ (by norm_num : (1 : ℚ) < 2)).mp this
    have hq : F.quantum (n * 2 ^ e) ≤ e := by
      unfold quantum
      apply max_le _ he
      omega
    obtain ⟨k, hk⟩ : ∃ k : ℕ, e = F.quantum (n * 2 ^ e) + k :=
      ⟨(e - F.quantum (n * 2 ^ e)).toNat, by omega⟩
    have hdiv : (n : ℚ) * 2 ^ e / 2 ^ F.quantum (n * 2 ^ e) = ((n * 2 ^ k : ℤ) : ℚ) := by
      have hne := (two_zpow_pos (F.quantum (n * 2 ^ e))).ne'
      rw [div_eq_iff hne]
      nth_rewrite 1 [hk]
      rw [zpow_add₀ (by norm_num : (2 : ℚ) ≠ 0), zpow_natCast]
      push_cast
      ring
    rw [round, hdiv, roundHalfEven_intCast, ← hdiv, div_mul_cancel₀ _ (two_zpow_pos _).ne']
  rcases lt_or_eq_of_le hn with h | h
  · exact key n e h he
  · have hp := F.prec_pos
    obtain ⟨p, hp'⟩ : ∃ p : ℕ, F.prec = p + 1 := ⟨F.prec - 1, by omega⟩
    have hsplit : ∀ m : ℤ, |m| = 2 ^ p → (2 * m : ℚ) * 2 ^ e = m * 2 ^ (e + 1) := by
      intro m _
      rw [zpow_add₀ (by norm_num : (2 : ℚ) ≠ 0)]
      ring
    have hhalf : ∃ m : ℤ, n = 2 * m ∧ |m| = 2 ^ p := by
      rw [hp', pow_succ] at h
      rcases abs_cases n with ⟨ha, _⟩ | ⟨ha, _⟩
      · exact ⟨2 ^ p, by omega, abs_of_pos (by positivity)⟩
      · refine ⟨-2 ^ p, by omega, ?_⟩
        rw [abs_neg]; exact abs_of_pos (by positivity)
    obtain ⟨m, rfl, hm⟩ := hhalf
    push_cast
    rw [hsplit m hm]
    apply key m (e + 1) _ (by omega)
    rw [hm, hp']
    exact pow_lt_pow_right₀ (by norm_num) (by omega)

/-- The integer a rounding multiplies the unit in the last place by has at most
`prec` bits. -/
theorem roundHalfEven_quantum_le (x : ℚ) :
    |roundHalfEven (x / 2 ^ F.quantum x)| ≤ 2 ^ F.prec := by
  have hb : |x / 2 ^ F.quantum x| ≤ ((2 ^ F.prec : ℤ) : ℚ) := by
    rcases eq_or_ne x 0 with rfl | h0
    · simp
    have hx : 0 < |x| := abs_pos.mpr h0
    have h₁ := lt_zpow_log_succ |x|
    have hq : Int.log 2 |x| + 1 ≤ F.quantum x + F.prec := by
      have : Int.log 2 |x| - (F.prec - 1) ≤ F.quantum x := le_max_left _ _
      omega
    have h₂ : (2 : ℚ) ^ (Int.log 2 |x| + 1) ≤ 2 ^ (F.quantum x + F.prec) :=
      zpow_le_zpow_right₀ (by norm_num) hq
    have h₃ : (2 : ℚ) ^ (F.quantum x + F.prec) = 2 ^ F.prec * 2 ^ F.quantum x := by
      rw [add_comm, zpow_add₀ (by norm_num : (2 : ℚ) ≠ 0), zpow_natCast]
    rw [abs_div, abs_of_pos (two_zpow_pos _), div_le_iff₀ (two_zpow_pos _)]
    push_cast
    linarith
  rw [abs_le] at hb ⊢
  exact ⟨roundHalfEven_ge (by push_cast at hb ⊢; linarith [hb.1]),
    roundHalfEven_le hb.2⟩

/-- Rounding a number of the format leaves it alone. -/
theorem round_round (x : ℚ) : F.round (F.round x) = F.round x := by
  rw [show F.round x = roundHalfEven (x / 2 ^ F.quantum x) * 2 ^ F.quantum x by rw [round]]
  exact F.round_of_repr _ _ (F.roundHalfEven_quantum_le x) (F.emin_le_quantum x)

theorem round_nonneg {x : ℚ} (h : 0 ≤ x) : 0 ≤ F.round x := by
  unfold round
  apply mul_nonneg _ (two_zpow_pos _).le
  have : (0 : ℤ) ≤ roundHalfEven (x / 2 ^ F.quantum x) :=
    roundHalfEven_ge (by simpa using div_nonneg h (two_zpow_pos _).le)
  exact_mod_cast this

theorem round_intCast (n : ℤ) (h : |n| ≤ 2 ^ F.prec) : F.round n = n := by
  simpa using F.round_of_repr n 0 h F.emin_nonpos

theorem round_natCast (n : ℕ) (h : n ≤ 2 ^ F.prec) : F.round n = n := by
  have := F.round_intCast n (by rw [abs_of_nonneg (by positivity)]; exact_mod_cast h)
  simpa using this

@[simp]
theorem round_ofNat (n : ℕ) [n.AtLeastTwo] (h : n ≤ 2 ^ F.prec) :
    F.round (no_index (OfNat.ofNat n)) = OfNat.ofNat n := by
  simpa using F.round_natCast n h

@[simp]
theorem round_one : F.round 1 = 1 := by
  simpa using F.round_natCast 1 (Nat.one_le_two_pow)

end FloatFormat

namespace FloatFormat

variable (F : FloatFormat)

theorem sqrt_zero : F.sqrt 0 = 0 := by
  simp [sqrt]

theorem sqrt_nonneg (x : ℚ) : 0 ≤ F.sqrt x := by
  unfold sqrt
  split_ifs
  · exact le_rfl
  · exact F.round_nonneg (mul_nonneg (Nat.cast_nonneg _) (two_zpow_pos _).le)

/-- The rounded square root of the square of a number of the format is that
number. -/
theorem sqrt_mul_self {r : ℚ} (hr : 0 ≤ r) (hrep : F.round r = r) : F.sqrt (r * r) = r := by
  rcases eq_or_lt_of_le hr with rfl | hpos
  · simp [sqrt]
  have hx : 0 < r * r := mul_pos hpos hpos
  have h₁ := zpow_log_le hpos
  have h₂ := lt_zpow_log_succ r
  have hlog : Int.log 2 (r * r) / 2 = Int.log 2 r := by
    have a : (2 : ℚ) ^ (2 * Int.log 2 r) ≤ r * r := by
      rw [two_mul, zpow_add₀ (by norm_num : (2 : ℚ) ≠ 0)]
      exact mul_le_mul h₁ h₁ (two_zpow_pos _).le hpos.le
    have b : r * r < (2 : ℚ) ^ (2 * Int.log 2 r + 1 + 1) := by
      have : (2 : ℚ) ^ (2 * Int.log 2 r + 1 + 1)
          = 2 ^ (Int.log 2 r + 1) * 2 ^ (Int.log 2 r + 1) := by
        rw [← zpow_add₀ (by norm_num : (2 : ℚ) ≠ 0)]
        congr 1
        ring
      rw [this]
      exact mul_lt_mul'' h₂ h₂ hpos.le hpos.le
    have a' := le_log_of_zpow_le a
    have b' := log_lt_of_lt_zpow hx b
    omega
  have hq : max (Int.log 2 (r * r) / 2 - ((F.prec : ℤ) - 1)) F.emin = F.quantum r := by
    rw [hlog, quantum, abs_of_pos hpos]
  have hn : (roundHalfEven (r / 2 ^ F.quantum r) : ℚ) * 2 ^ F.quantum r = r := by
    rw [round] at hrep; exact hrep
  generalize F.quantum r = q at hq hn
  generalize roundHalfEven (r / 2 ^ q) = n at hn
  have hnpos : 0 < n := by
    have : (0 : ℚ) < n := by
      by_contra hneg
      have := mul_nonpos_of_nonpos_of_nonneg (not_lt.mp hneg) (two_zpow_pos q).le
      linarith
    exact_mod_cast this
  obtain ⟨k, rfl⟩ : ∃ k : ℕ, n = k := ⟨n.toNat, by omega⟩
  have hn' : (k : ℚ) * 2 ^ q = r := by simpa using hn
  have hy : r * r / 2 ^ (2 * q) = ((k * k : ℕ) : ℚ) := by
    have hne := (two_zpow_pos q).ne'
    rw [two_mul, zpow_add₀ (by norm_num : (2 : ℚ) ≠ 0), div_eq_iff (mul_ne_zero hne hne),
      ← hn']
    push_cast
    ring
  have hhalf : ((k * k : ℕ) : ℚ) < ((k : ℚ) + 1 / 2) * ((k : ℚ) + 1 / 2) := by
    push_cast
    have : (0 : ℚ) ≤ k := Nat.cast_nonneg k
    nlinarith
  unfold sqrt
  rw [if_neg (not_le.mpr hx)]
  simp only [hq, hy, Nat.floor_natCast, Nat.sqrt_eq, if_pos hhalf]
  rw [hn', hrep]

end FloatFormat

/-! ## Lemmas: the numbers of a format -/

namespace Fl

variable {F : FloatFormat}

@[ext]
theorem ext {a b : Fl F} (h : a.val = b.val) : a = b := Subtype.ext h

theorem le_def {a b : Fl F} : a ≤ b ↔ a.val ≤ b.val := Iff.rfl

theorem lt_def {a b : Fl F} : a < b ↔ a.val < b.val := Iff.rfl

/-- A number of the format is what it rounds to. -/
theorem round_val (a : Fl F) : F.round a.val = a.val := by
  obtain ⟨y, hy⟩ := a.property
  show F.round (Subtype.val a) = Subtype.val a
  rw [← hy, F.round_round]

@[simp]
theorem val_ofRat (x : ℚ) : (ofRat F x).val = F.round x := rfl

theorem ofRat_val (a : Fl F) : ofRat F a.val = a := ext (round_val a)

@[simp]
theorem val_add (a b : Fl F) : (a + b).val = F.round (a.val + b.val) := rfl

@[simp]
theorem val_sub (a b : Fl F) : (a - b).val = F.round (a.val - b.val) := rfl

@[simp]
theorem val_mul (a b : Fl F) : (a * b).val = F.round (a.val * b.val) := rfl

@[simp]
theorem val_div (a b : Fl F) : (a / b).val = F.round (a.val / b.val) := rfl

@[simp]
theorem val_neg (a : Fl F) : (-a).val = -a.val := by
  show F.round (-a.val) = -a.val
  rw [F.round_neg, round_val]

@[simp]
theorem val_sqrt (a : Fl F) : (sqrt a).val = F.round (F.sqrt a.val) := rfl

@[simp]
theorem val_cast (G : FloatFormat) (a : Fl F) : (cast G a).val = G.round a.val := rfl

theorem val_natLit (n : ℕ) : (no_index (OfNat.ofNat n) : Fl F).val = F.round n := rfl

@[simp]
theorem val_zero : (0 : Fl F).val = 0 := by
  rw [val_natLit]; simp

@[simp]
theorem val_one : (1 : Fl F).val = 1 := by
  rw [val_natLit]; simp

@[simp]
theorem val_ofNat (n : ℕ) (h : n ≤ 2 ^ F.prec) : (no_index (OfNat.ofNat n) : Fl F).val = n := by
  rw [val_natLit, F.round_natCast n h]

theorem val_ofScientific (m : ℕ) (s : Bool) (e : ℕ) :
    (OfScientific.ofScientific m s e : Fl F).val
      = F.round (OfScientific.ofScientific m s e : ℚ) := rfl

theorem add_zero (a : Fl F) : a + 0 = a := by
  ext; simp [round_val]

theorem zero_add (a : Fl F) : 0 + a = a := by
  ext; simp [round_val]

theorem sub_zero (a : Fl F) : a - 0 = a := by
  ext; simp [round_val]

theorem sub_self (a : Fl F) : a - a = 0 := by
  ext; simp [F.round_zero]

theorem zero_mul_zero : (0 : Fl F) * 0 = 0 := by
  ext; simp [F.round_zero]

theorem sqrt_of_zero : sqrt (0 : Fl F) = 0 := by
  ext; simp [F.sqrt_zero, F.round_zero]

theorem zero_le_sqrt (a : Fl F) : 0 ≤ sqrt a := by
  rw [le_def, val_zero, val_sqrt]
  exact F.round_nonneg (F.sqrt_nonneg _)

theorem cast_zero (G : FloatFormat) : cast G (0 : Fl F) = 0 := by
  ext; simp [G.round_zero]

theorem cast_nonneg (G : FloatFormat) {a : Fl F} (h : 0 ≤ a) : 0 ≤ cast G a := by
  rw [le_def, val_zero] at *
  exact G.round_nonneg h

end Fl

@[simp]
theorem binary32_prec : binary32.prec = 24 := rfl

@[simp]
theorem binary64_prec : binary64.prec = 53 := rfl

@[simp]
theorem binary32_emin : binary32.emin = -149 := rfl

@[simp]
theorem binary64_emin : binary64.emin = -1074 := rfl

/-! ## Lemmas: distinct movement types

The twelve disequalities between the four movement types, as rewriting rules
for evaluating the component at concrete inputs. -/

@[simp]
theorem EFootstepMovementType.Stopped_ne_Walking : Stopped ≠ Walking := by
  decide

@[simp]
theorem EFootstepMovementType.Stopped_ne_CrouchWalking : Stopped ≠ CrouchWalking := by
  decide

@[simp]
theorem EFootstepMovementType.Stopped_ne_Flying : Stopped ≠ Flying := by
  decide

@[simp]
theorem EFootstepMovementType.Walking_ne_Stopped : Walking ≠ Stopped := by
  decide

@[simp]
theorem EFootstepMovementType.Walking_ne_CrouchWalking : Walking ≠ CrouchWalking := by
  decide

@[simp]
theorem EFootstepMovementType.Walking_ne_Flying : Walking ≠ Flying := by
  decide

@[simp]
theorem EFootstepMovementType.CrouchWalking_ne_Stopped : CrouchWalking ≠ Stopped := by
  decide

@[simp]
theorem EFootstepMovementType.CrouchWalking_ne_Walking : CrouchWalking ≠ Walking := by
  decide

@[simp]
theorem EFootstepMovementType.CrouchWalking_ne_Flying : CrouchWalking ≠ Flying := by
  decide

@[simp]
theorem EFootstepMovementType.Flying_ne_Stopped : Flying ≠ Stopped := by
  decide

@[simp]
theorem EFootstepMovementType.Flying_ne_Walking : Flying ≠ Walking := by
  decide

@[simp]
theorem EFootstepMovementType.Flying_ne_CrouchWalking : Flying ≠ CrouchWalking := by
  decide

/-! ## Lemmas: the log, the cooldown gate, the cadence -/

theorem playCount_nil : playCount [] = 0 := rfl

theorem playCount_append (l₁ l₂ : List Event) :
    playCount (l₁ ++ l₂) = playCount l₁ + playCount l₂ := by
  simp [playCount]

/-- When the log of `s'` is the log of `s` followed by `l`, what was sent between
them is `l`. -/
theorem emitted_append (s s' : UFootstepSoundComponent) (l : List Event)
    (h : s'.log = s.log ++ l) : emitted s s' = l := by
  simp [emitted, h]

theorem Gated.unchanged (s : UFootstepSoundComponent) : Gated s s :=
  ⟨rfl, [], by simp, Or.inl ⟨rfl, rfl⟩⟩

/-- The cooldown relation composes along successive states. -/
theorem Gated.andThen {s s' s'' : UFootstepSoundComponent} (h₁ : Gated s s') (h₂ : Gated s' s'') :
    Gated s s'' := by
  obtain ⟨hm₁, l₁, hl₁, hc₁⟩ := h₁
  obtain ⟨hm₂, l₂, hl₂, hc₂⟩ := h₂
  refine ⟨hm₂.trans hm₁, l₁ ++ l₂, by rw [hl₂, hl₁, List.append_assoc], ?_⟩
  rw [playCount_append]
  rcases hc₁ with ⟨c₁, t₁⟩ | ⟨c₁, g₁, t₁, u₁⟩
  · rcases hc₂ with ⟨c₂, t₂⟩ | ⟨c₂, g₂, t₂, u₂⟩
    · exact Or.inl ⟨by omega, t₂.trans t₁⟩
    · refine Or.inr ⟨by omega, ?_, t₂, ?_⟩
      · rw [← hm₁, ← t₁]; exact g₂
      · intro hpos
        rw [← hm₁] at hpos
        have := u₂ hpos
        omega
  · rcases hc₂ with ⟨c₂, t₂⟩ | ⟨c₂, g₂, t₂, u₂⟩
    · refine Or.inr ⟨by omega, g₁, t₂.trans t₁, ?_⟩
      intro hpos
      have := u₁ hpos
      omega
    · refine Or.inr ⟨by omega, g₁, t₂, ?_⟩
      intro hpos
      rw [hm₁, t₁] at g₂
      exact absurd hpos (not_lt.mpr g₂)

/-- The cooldown relation only looks at the minimum interval, the log and the
timer of the later state. -/
theorem Gated.ofFields {s s' s'' : UFootstepSoundComponent} (h : Gated s s')
    (hm : s''.MinimumSoundInterval = s'.MinimumSoundInterval) (hl : s''.log = s'.log)
    (ht : s''.TimeSinceLastFootstep = s'.TimeSinceLastFootstep) : Gated s s'' := by
  obtain ⟨hm₁, l, hl₁, hc⟩ := h
  refine ⟨hm.trans hm₁, l, hl.trans hl₁, ?_⟩
  rw [ht]
  exact hc

theorem PlaySound_gated (w : World) (Sound : Option USoundBase) (v : float)
    (s : UFootstepSoundComponent) : Gated s (PlaySound w Sound v s) := by
  cases Sound with
  | none => exact Gated.unchanged s
  | some snd =>
    by_cases h : s.TimeSinceLastFootstep ≥ s.MinimumSoundInterval
    · refine ⟨by simp [PlaySound, h],
        [Event.PlaySoundAtLocation snd w.ActorLocation v, Event.OnFootstep],
        by simp [PlaySound, h], Or.inr ?_⟩
      simp [PlaySound, h, playCount, Event.isPlay]
    · simp only [PlaySound, h, if_false]
      exact Gated.unchanged s

theorem UpdateSurface_gated (w : World) (s : UFootstepSoundComponent) :
    Gated s (UpdateSurface w s) := by
  unfold UpdateSurface
  split
  · exact Gated.unchanged s
  · have h₁ : Gated s { s with log := s.log ++ [Event.LineTraceSingleByChannel w.ActorLocation
        (w.ActorLocation - ⟨0, 0, (w.ScaledCapsuleHalfHeight + s.ActorOnGroundDistance).toDouble⟩)] } :=
      ⟨rfl, _, rfl, Or.inl ⟨rfl, rfl⟩⟩
    dsimp only
    split
    · split
      · exact h₁.ofFields rfl rfl rfl
      · exact h₁
    · exact h₁

theorem OnJump_Native_gated (w : World) (s : UFootstepSoundComponent) :
    Gated s (OnJump_Native w s) := by
  have h₁ : Gated s { s with log := s.log ++ [Event.OnJump] } :=
    ⟨rfl, [Event.OnJump], rfl, Or.inl ⟨rfl, rfl⟩⟩
  unfold OnJump_Native
  dsimp only
  split
  · exact h₁.andThen (PlaySound_gated _ _ _ _)
  · exact h₁

theorem OnStartMoving_Native_gated (w : World) (s : UFootstepSoundComponent) :
    Gated s (OnStartMoving_Native w s) := by
  have h₁ : Gated s { s with log := s.log ++ [Event.OnStartMoving] } :=
    ⟨rfl, [Event.OnStartMoving], rfl, Or.inl ⟨rfl, rfl⟩⟩
  unfold OnStartMoving_Native
  dsimp only
  split
  · exact h₁.andThen (PlaySound_gated _ _ _ _)
  · exact h₁

theorem OnStopMoving_Native_gated (w : World) (s : UFootstepSoundComponent) :
    Gated s (OnStopMoving_Native w s) := by
  have h₁ : Gated s { s with log := s.log ++ [Event.OnStopMoving] } :=
    ⟨rfl, [Event.OnStopMoving], rfl, Or.inl ⟨rfl, rfl⟩⟩
  unfold OnStopMoving_Native
  dsimp only
  split
  · exact h₁.andThen (PlaySound_gated _ _ _ _)
  · exact h₁

theorem OnLand_Native_gated (w : World) (s : UFootstepSoundComponent) :
    Gated s (OnLand_Native w s) := by
  have h₁ : Gated s (UpdateSurface w s) := UpdateSurface_gated w s
  have h₂ : Gated (UpdateSurface w s)
      { UpdateSurface w s with log := (UpdateSurface w s).log ++ [Event.OnLand] } :=
    ⟨rfl, [Event.OnLand], rfl, Or.inl ⟨rfl, rfl⟩⟩
  unfold OnLand_Native
  dsimp only
  split
  · exact ((h₁.andThen h₂).andThen (PlaySound_gated _ _ _ _)).ofFields rfl rfl rfl
  · exact (h₁.andThen h₂).ofFields rfl rfl rfl

theorem ReadMovementComponent_gated (w : World) (s : UFootstepSoundComponent) :
    Gated s (ReadMovementComponent w s) := by
  unfold ReadMovementComponent
  dsimp only
  split_ifs
  · exact (OnLand_Native_gated w s).ofFields rfl rfl rfl
  · exact (OnStopMoving_Native_gated w s).ofFields rfl rfl rfl
  · exact (OnStartMoving_Native_gated w s).ofFields rfl rfl rfl
  · exact (Gated.unchanged s).ofFields rfl rfl rfl
  · exact (Gated.unchanged s).ofFields rfl rfl rfl

theorem RequestFootstep_gated (w : World) (s : UFootstepSoundComponent) :
    Gated s (RequestFootstep w s) := by
  unfold RequestFootstep
  split
  · exact PlaySound_gated _ _ _ _
  · exact Gated.unchanged s

theorem RequestFootstep_playCount (w : World) (s : UFootstepSoundComponent) :
    playCount (emitted s (RequestFootstep w s)) ≤ 1 := by
  unfold RequestFootstep PlaySound
  repeat' split
  all_goals simp [emitted, playCount, Event.isPlay]

theorem RequestFootstep_cadence_fields (w : World) (s : UFootstepSoundComponent)
    (loc : FVector) (d : float) :
    RequestFootstep w { s with LastStepLocation := loc, StepDistanceRemaining := d } =
      { RequestFootstep w s with LastStepLocation := loc, StepDistanceRemaining := d } := by
  unfold RequestFootstep PlaySound PickSoundSet CalculateFootstepVolume
  dsimp only
  repeat' split
  all_goals simp_all

theorem RequestFootstep_frame (w : World) (s : UFootstepSoundComponent) :
    RequestFootstep w s =
      { s with
        log := (RequestFootstep w s).log
        TimeSinceLastFootstep := (RequestFootstep w s).TimeSinceLastFootstep } := by
  unfold RequestFootstep PlaySound
  repeat' split
  all_goals rfl

/-- The three outcomes of `PlayFootsteps`: nothing when not moving, a footstep
request and a new interval when the remaining distance is used up, the
subtraction alone otherwise. -/
theorem PlayFootsteps_eq (w : World) (s : UFootstepSoundComponent) :
    PlayFootsteps w s =
      if ¬ IsMoving s.CachedMovementType then s
      else if s.StepDistanceRemaining - (w.ActorLocation - s.LastStepLocation).Size.toFloat ≤ 0 then
        { RequestFootstep w { s with
            LastStepLocation := w.ActorLocation
            StepDistanceRemaining :=
              s.StepDistanceRemaining - (w.ActorLocation - s.LastStepLocation).Size.toFloat } with
          StepDistanceRemaining := NextStepDistance s }
      else
        { s with
          LastStepLocation := w.ActorLocation
          StepDistanceRemaining :=
            s.StepDistanceRemaining - (w.ActorLocation - s.LastStepLocation).Size.toFloat } := by
  by_cases hm : IsMoving s.CachedMovementType
  · have hm' : ¬ (s.CachedMovementType ≠ Walking ∧ s.CachedMovementType ≠ CrouchWalking) := by
      unfold IsMoving at hm; tauto
    by_cases hr : s.StepDistanceRemaining - (w.ActorLocation - s.LastStepLocation).Size.toFloat ≤ 0
    · simp only [PlayFootsteps, if_neg hm', hm, not_true_eq_false, if_false, hr, if_true,
        RequestFootstep, NextStepDistance, PickSoundSet, PlaySound]
      repeat' split
      all_goals simp_all
    · simp only [PlayFootsteps, if_neg hm', hm, not_true_eq_false, if_false, hr]
  · have hm' : s.CachedMovementType ≠ Walking ∧ s.CachedMovementType ≠ CrouchWalking := by
      unfold IsMoving at hm; tauto
    simp only [PlayFootsteps, if_pos hm', hm, not_false_eq_true, if_true]

theorem PlayFootsteps_of_not_moving (w : World) (s : UFootstepSoundComponent)
    (hm : ¬ IsMoving s.CachedMovementType) : PlayFootsteps w s = s := by
  rw [PlayFootsteps_eq, if_pos hm]

theorem PlayFootsteps_of_step (w : World) (s : UFootstepSoundComponent)
    (hm : IsMoving s.CachedMovementType)
    (hr : s.StepDistanceRemaining - (w.ActorLocation - s.LastStepLocation).Size.toFloat ≤ 0) :
    PlayFootsteps w s =
      { RequestFootstep w { s with
          LastStepLocation := w.ActorLocation
          StepDistanceRemaining :=
            s.StepDistanceRemaining - (w.ActorLocation - s.LastStepLocation).Size.toFloat } with
        StepDistanceRemaining := NextStepDistance s } := by
  rw [PlayFootsteps_eq, if_neg (not_not.mpr hm), if_pos hr]

theorem PlayFootsteps_of_no_step (w : World) (s : UFootstepSoundComponent)
    (hm : IsMoving s.CachedMovementType)
    (hr : 0 < s.StepDistanceRemaining - (w.ActorLocation - s.LastStepLocation).Size.toFloat) :
    PlayFootsteps w s =
      { s with
        LastStepLocation := w.ActorLocation
        StepDistanceRemaining :=
          s.StepDistanceRemaining - (w.ActorLocation - s.LastStepLocation).Size.toFloat } := by
  rw [PlayFootsteps_eq, if_neg (not_not.mpr hm), if_neg (not_le.mpr hr)]

theorem PlayFootsteps_step_eq (w : World) (s : UFootstepSoundComponent)
    (hm : IsMoving s.CachedMovementType)
    (hr : s.StepDistanceRemaining - (w.ActorLocation - s.LastStepLocation).Size.toFloat ≤ 0) :
    PlayFootsteps w s =
      { s with
        LastStepLocation := w.ActorLocation
        StepDistanceRemaining := NextStepDistance s
        log := (RequestFootstep w s).log
        TimeSinceLastFootstep := (RequestFootstep w s).TimeSinceLastFootstep } := by
  rw [PlayFootsteps_of_step w s hm hr, RequestFootstep_cadence_fields, RequestFootstep_frame]

theorem PlayFootsteps_gated (w : World) (s : UFootstepSoundComponent) :
    Gated s (PlayFootsteps w s) := by
  by_cases hm : IsMoving s.CachedMovementType
  · by_cases hr : s.StepDistanceRemaining
        - (w.ActorLocation - s.LastStepLocation).Size.toFloat ≤ 0
    · rw [PlayFootsteps_step_eq w s hm hr]
      exact (RequestFootstep_gated w s).ofFields (by rw [RequestFootstep_frame]) rfl rfl
    · rw [PlayFootsteps_of_no_step w s hm (not_le.mp hr)]
      exact (Gated.unchanged s).ofFields rfl rfl rfl
  · rw [PlayFootsteps_of_not_moving w s hm]
    exact Gated.unchanged s

theorem ThrottledSurface_gated (w : World) (dt : float) (s : UFootstepSoundComponent) :
    Gated s (ThrottledSurface w dt s) := by
  have h₀ : Gated s ({ s with SurfaceAge := 0 } : UFootstepSoundComponent) :=
    (Gated.unchanged s).ofFields rfl rfl rfl
  unfold ThrottledSurface
  split
  · exact h₀.andThen (UpdateSurface_gated w { s with SurfaceAge := 0 })
  · exact (Gated.unchanged s).ofFields rfl rfl rfl

/-- A tick is the speed update, the surface block, the movement
classification, the cadence and the timer advance, in this order. -/
theorem TickComponent_eq (w : World) (dt : float) (s : UFootstepSoundComponent) :
    TickComponent w dt s =
      { PlayFootsteps w (ReadMovementComponent w (ThrottledSurface w dt (UpdateSpeed w s))) with
        TimeSinceLastFootstep :=
          (PlayFootsteps w (ReadMovementComponent w
            (ThrottledSurface w dt (UpdateSpeed w s)))).TimeSinceLastFootstep + dt } :=
  rfl

/-- A tick, up to its last statement (the timer advance), stands in the
cooldown relation. -/
theorem TickComponent_gated (w : World) (dt : float) (s : UFootstepSoundComponent) :
    Gated s (PlayFootsteps w (ReadMovementComponent w
      (ThrottledSurface w dt (UpdateSpeed w s)))) := by
  have h₁ : Gated s (UpdateSpeed w s) := (Gated.unchanged s).ofFields rfl rfl rfl
  have h₃ := h₁.andThen (ThrottledSurface_gated w dt (UpdateSpeed w s))
  have h₄ := h₃.andThen (ReadMovementComponent_gated w (ThrottledSurface w dt (UpdateSpeed w s)))
  exact h₄.andThen (PlayFootsteps_gated w
    (ReadMovementComponent w (ThrottledSurface w dt (UpdateSpeed w s))))

/-- What one public call does to the log and the timer: either it plays
nothing and the timer advances by the delta of the call, or it plays, which
needed the timer to have reached the minimum interval, and the timer ends at
the delta of the call. -/
theorem Call.apply_effect (c : Call) (s : UFootstepSoundComponent) :
    (c.apply s).MinimumSoundInterval = s.MinimumSoundInterval ∧
    ∃ l, (c.apply s).log = s.log ++ l ∧
      ((playCount l = 0 ∧
          (c.apply s).TimeSinceLastFootstep = s.TimeSinceLastFootstep + c.DeltaTime) ∨
       (1 ≤ playCount l ∧ s.MinimumSoundInterval ≤ s.TimeSinceLastFootstep ∧
          (c.apply s).TimeSinceLastFootstep = c.DeltaTime ∧
          (0 < s.MinimumSoundInterval → playCount l = 1))) := by
  cases c with
  | Tick w dt =>
    obtain ⟨hm, l, hl, hc⟩ := TickComponent_gated w dt s
    refine ⟨hm, l, hl, ?_⟩
    show (playCount l = 0 ∧
        (PlayFootsteps w (ReadMovementComponent w
          (ThrottledSurface w dt (UpdateSpeed w s)))).TimeSinceLastFootstep + dt
          = s.TimeSinceLastFootstep + dt) ∨
      (1 ≤ playCount l ∧ s.MinimumSoundInterval ≤ s.TimeSinceLastFootstep ∧
        (PlayFootsteps w (ReadMovementComponent w
          (ThrottledSurface w dt (UpdateSpeed w s)))).TimeSinceLastFootstep + dt = dt ∧
        (0 < s.MinimumSoundInterval → playCount l = 1))
    rcases hc with ⟨c₁, t₁⟩ | ⟨c₁, g₁, t₁, u₁⟩
    · exact Or.inl ⟨c₁, by rw [t₁]⟩
    · exact Or.inr ⟨c₁, g₁, by rw [t₁, Fl.zero_add], u₁⟩
  | Jump w =>
    obtain ⟨hm, l, hl, hc⟩ := OnJump_Native_gated w s
    refine ⟨hm, l, hl, ?_⟩
    simp only [Call.apply, Call.DeltaTime, RegisterJump, Fl.add_zero]
    exact hc

theorem run_log (mid : List Call) (s : UFootstepSoundComponent) :
    ∃ l, (run s mid).log = s.log ++ l := by
  induction mid generalizing s with
  | nil => exact ⟨[], by simp [run]⟩
  | cons c cs ih =>
    obtain ⟨_, l₁, hl₁, _⟩ := c.apply_effect s
    obtain ⟨l₂, hl₂⟩ := ih (c.apply s)
    exact ⟨l₁ ++ l₂, by rw [run, hl₂, hl₁, List.append_assoc]⟩

/-- Through a sequence of public calls that plays nothing the timer is
advanced by the deltas of the calls, one rounded addition after the other. -/
theorem run_quiet (mid : List Call) (s : UFootstepSoundComponent)
    (h : playCount (emitted s (run s mid)) = 0) :
    (run s mid).MinimumSoundInterval = s.MinimumSoundInterval ∧
    (run s mid).TimeSinceLastFootstep
      = accumulate s.TimeSinceLastFootstep (mid.map Call.DeltaTime) := by
  induction mid generalizing s with
  | nil => exact ⟨rfl, rfl⟩
  | cons c cs ih =>
    obtain ⟨hm, l₁, hl₁, hc⟩ := c.apply_effect s
    obtain ⟨l₂, hl₂⟩ := run_log cs (c.apply s)
    have hrun : (run s (c :: cs)).log = s.log ++ (l₁ ++ l₂) := by
      rw [run, hl₂, hl₁, List.append_assoc]
    rw [emitted_append s _ _ hrun, playCount_append] at h
    have h₁ : playCount l₁ = 0 := by omega
    have h₂ : playCount l₂ = 0 := by omega
    have hq := ih (c.apply s) (by rw [emitted_append _ _ _ hl₂]; exact h₂)
    rcases hc with ⟨_, t₁⟩ | ⟨c₁, _⟩
    · refine ⟨hq.1.trans hm, ?_⟩
      rw [run, hq.2, t₁, List.map_cons, accumulate]
    · omega

theorem FVector.Size_nonneg (v : FVector) : 0 ≤ v.Size := Fl.zero_le_sqrt _

theorem FVector.sub_def (a b : FVector) : a - b = ⟨a.X - b.X, a.Y - b.Y, a.Z - b.Z⟩ := rfl

theorem FVector.sub_self_eq_zero (v : FVector) : v - v = ⟨0, 0, 0⟩ := by
  rw [FVector.sub_def, Fl.sub_self, Fl.sub_self, Fl.sub_self]

theorem FVector.Size_zero : FVector.Size ⟨0, 0, 0⟩ = 0 := by
  show Fl.sqrt ((0 : double) * 0 + 0 * 0 + 0 * 0) = 0
  rw [Fl.zero_mul_zero, Fl.add_zero, Fl.add_zero, Fl.sqrt_of_zero]

/-- The displacement from a position to itself is 0. -/
theorem FVector.Size_sub_self (v : FVector) : (v - v).Size.toFloat = 0 := by
  rw [FVector.sub_self_eq_zero, FVector.Size_zero]
  exact Fl.cast_zero binary32

/-- The length of a vector along the X axis whose coordinate is not negative
and has a square that is a `double`. -/
theorem FVector.Size_alongX (x : double) (h0 : 0 ≤ x)
    (hsq : binary64.round (x.val * x.val) = x.val * x.val) : FVector.Size ⟨x, 0, 0⟩ = x := by
  have hx : x * x + 0 * 0 + 0 * 0 = Fl.ofRat binary64 (x.val * x.val) := by
    rw [Fl.zero_mul_zero, Fl.add_zero, Fl.add_zero]
    rfl
  show Fl.sqrt (x * x + 0 * 0 + 0 * 0) = x
  rw [hx]
  apply Fl.ext
  rw [Fl.val_sqrt, Fl.val_ofRat, hsq,
    binary64.sqrt_mul_self (by simpa [Fl.le_def] using h0) (Fl.round_val x), Fl.round_val]

theorem SameCadence.same (s : UFootstepSoundComponent) : SameCadence s s := ⟨rfl, rfl⟩

theorem SameCadence.comp {s s' s'' : UFootstepSoundComponent} (h₁ : SameCadence s s')
    (h₂ : SameCadence s' s'') : SameCadence s s'' :=
  ⟨h₂.1.trans h₁.1, h₂.2.trans h₁.2⟩

theorem PlaySound_sameCadence (w : World) (Sound : Option USoundBase) (v : float)
    (s : UFootstepSoundComponent) : SameCadence s (PlaySound w Sound v s) := by
  unfold PlaySound
  repeat' split
  all_goals exact ⟨rfl, rfl⟩

theorem UpdateSurface_sameCadence (w : World) (s : UFootstepSoundComponent) :
    SameCadence s (UpdateSurface w s) := by
  unfold UpdateSurface
  dsimp only
  repeat' split
  all_goals exact ⟨rfl, rfl⟩

theorem RequestFootstep_sameCadence (w : World) (s : UFootstepSoundComponent) :
    SameCadence s (RequestFootstep w s) := by
  unfold RequestFootstep
  split
  · exact PlaySound_sameCadence _ _ _ _
  · exact SameCadence.same s

theorem SameCadence.ofCadence {s s' s'' : UFootstepSoundComponent} (h : SameCadence s s')
    (hc : s''.IntervalSpeedCurve = s'.IntervalSpeedCurve)
    (hd : s''.StepDistanceRemaining = s'.StepDistanceRemaining) : SameCadence s s'' :=
  ⟨hc.trans h.1, hd.trans h.2⟩

theorem OnJump_Native_sameCadence (w : World) (s : UFootstepSoundComponent) :
    SameCadence s (OnJump_Native w s) := by
  have h₁ : SameCadence s { s with log := s.log ++ [Event.OnJump] } := ⟨rfl, rfl⟩
  unfold OnJump_Native
  dsimp only
  split
  · exact h₁.comp (PlaySound_sameCadence _ _ _ _)
  · exact h₁

theorem OnStartMoving_Native_sameCadence (w : World) (s : UFootstepSoundComponent) :
    SameCadence s (OnStartMoving_Native w s) := by
  have h₁ : SameCadence s { s with log := s.log ++ [Event.OnStartMoving] } := ⟨rfl, rfl⟩
  exact h₁.comp (RequestFootstep_sameCadence w _)

theorem OnStopMoving_Native_sameCadence (w : World) (s : UFootstepSoundComponent) :
    SameCadence s (OnStopMoving_Native w s) := by
  have h₁ : SameCadence s { s with log := s.log ++ [Event.OnStopMoving] } := ⟨rfl, rfl⟩
  exact h₁.comp (RequestFootstep_sameCadence w _)

theorem OnLand_Native_sameCadence (w : World) (s : UFootstepSoundComponent) :
    SameCadence s (OnLand_Native w s) := by
  have h₁ := UpdateSurface_sameCadence w s
  have h₂ : SameCadence (UpdateSurface w s)
      { UpdateSurface w s with log := (UpdateSurface w s).log ++ [Event.OnLand] } := ⟨rfl, rfl⟩
  unfold OnLand_Native
  dsimp only
  split
  · exact ((h₁.comp h₂).comp (PlaySound_sameCadence _ _ _ _)).ofCadence rfl rfl
  · exact (h₁.comp h₂).ofCadence rfl rfl

theorem ReadMovementComponent_sameCadence (w : World) (s : UFootstepSoundComponent) :
    SameCadence s (ReadMovementComponent w s) := by
  unfold ReadMovementComponent
  dsimp only
  split_ifs
  · exact (OnLand_Native_sameCadence w s).ofCadence rfl rfl
  · exact (OnStopMoving_Native_sameCadence w s).ofCadence rfl rfl
  · exact (OnStartMoving_Native_sameCadence w s).ofCadence rfl rfl
  · exact ⟨rfl, rfl⟩
  · exact ⟨rfl, rfl⟩

theorem PlayFootsteps_intervalCurve (w : World) (s : UFootstepSoundComponent) :
    (PlayFootsteps w s).IntervalSpeedCurve = s.IntervalSpeedCurve := by
  by_cases hm : IsMoving s.CachedMovementType
  · by_cases hr : s.StepDistanceRemaining - (w.ActorLocation - s.LastStepLocation).Size.toFloat ≤ 0
    · rw [PlayFootsteps_of_step w s hm hr]
      exact (RequestFootstep_sameCadence w _).1
    · rw [PlayFootsteps_of_no_step w s hm (not_le.mp hr)]
  · rw [PlayFootsteps_of_not_moving w s hm]

theorem twenty_pos : (0 : float) < 20 := by
  norm_num [Fl.lt_def]

theorem NextStepDistance_pos (s : UFootstepSoundComponent)
    (hc : ∀ curve, s.IntervalSpeedCurve = some curve → 0 ≤ curve s.CachedSpeed) :
    0 < NextStepDistance s := by
  unfold NextStepDistance
  cases hcurve : s.IntervalSpeedCurve with
  | none =>
    simp only [ite_true]
    exact twenty_pos
  | some curve =>
    dsimp only
    split_ifs with h0
    · exact twenty_pos
    · exact lt_of_le_of_ne (hc curve hcurve) (Ne.symm h0)

theorem PlayFootsteps_cadence_positive (w : World) (s : UFootstepSoundComponent)
    (hc : IntervalCurveNonneg s) (hpos : 0 < s.StepDistanceRemaining) :
    0 < (PlayFootsteps w s).StepDistanceRemaining := by
  by_cases hm : IsMoving s.CachedMovementType
  · by_cases hr : s.StepDistanceRemaining - (w.ActorLocation - s.LastStepLocation).Size.toFloat ≤ 0
    · rw [PlayFootsteps_of_step w s hm hr]
      exact NextStepDistance_pos s (fun curve h => hc curve h _)
    · rw [PlayFootsteps_of_no_step w s hm (not_le.mp hr)]
      exact not_le.mp hr
  · rw [PlayFootsteps_of_not_moving w s hm]
    exact hpos

theorem ThrottledSurface_sameCadence (w : World) (dt : float) (s : UFootstepSoundComponent) :
    SameCadence s (ThrottledSurface w dt s) := by
  have h₀ : SameCadence s ({ s with SurfaceAge := 0 } : UFootstepSoundComponent) := ⟨rfl, rfl⟩
  unfold ThrottledSurface
  split
  · exact h₀.comp (UpdateSurface_sameCadence w { s with SurfaceAge := 0 })
  · exact ⟨rfl, rfl⟩

theorem TickComponent_sameCadence_before (w : World) (dt : float)
    (s : UFootstepSoundComponent) :
    ∃ s₄, SameCadence s s₄ ∧
      (TickComponent w dt s).IntervalSpeedCurve = (PlayFootsteps w s₄).IntervalSpeedCurve ∧
      (TickComponent w dt s).StepDistanceRemaining
        = (PlayFootsteps w s₄).StepDistanceRemaining := by
  have h₁ : SameCadence s (UpdateSpeed w s) := ⟨rfl, rfl⟩
  have h₃ := h₁.comp (ThrottledSurface_sameCadence w dt (UpdateSpeed w s))
  exact ⟨ReadMovementComponent w (ThrottledSurface w dt (UpdateSpeed w s)),
    h₃.comp (ReadMovementComponent_sameCadence w (ThrottledSurface w dt (UpdateSpeed w s))),
    rfl, rfl⟩

theorem Call.apply_intervalCurve (c : Call) (s : UFootstepSoundComponent) :
    (c.apply s).IntervalSpeedCurve = s.IntervalSpeedCurve := by
  cases c with
  | Tick w dt =>
    obtain ⟨s₄, h₄, hc, _⟩ := TickComponent_sameCadence_before w dt s
    exact (hc.trans (PlayFootsteps_intervalCurve w s₄)).trans h₄.1
  | Jump w => exact (OnJump_Native_sameCadence w s).1

theorem Call.apply_cadence_positive (c : Call) (s : UFootstepSoundComponent)
    (hc : IntervalCurveNonneg s) (hpos : 0 < s.StepDistanceRemaining) :
    0 < (c.apply s).StepDistanceRemaining := by
  cases c with
  | Tick w dt =>
    obtain ⟨s₄, h₄, _, hd⟩ := TickComponent_sameCadence_before w dt s
    have := PlayFootsteps_cadence_positive w s₄ (by intro c; rw [h₄.1]; exact hc c)
      (by rw [h₄.2]; exact hpos)
    exact hd ▸ this
  | Jump w => exact (OnJump_Native_sameCadence w s).2 ▸ hpos

theorem run_intervalCurve (calls : List Call) (s : UFootstepSoundComponent) :
    (run s calls).IntervalSpeedCurve = s.IntervalSpeedCurve := by
  induction calls generalizing s with
  | nil => rfl
  | cons c cs ih => exact (ih (c.apply s)).trans (c.apply_intervalCurve s)

/-- With an interval curve that is unset or has no negative value, a positive
`StepDistanceRemaining` stays positive through any sequence of public calls. -/
theorem run_cadence_positive (calls : List Call) (s : UFootstepSoundComponent)
    (hc : IntervalCurveNonneg s) (hpos : 0 < s.StepDistanceRemaining) :
    0 < (run s calls).StepDistanceRemaining := by
  induction calls generalizing s with
  | nil => exact hpos
  | cons c cs ih =>
    exact ih (c.apply s) (by intro c'; rw [c.apply_intervalCurve s]; exact hc c')
      (c.apply_cadence_positive s hc hpos)

/-- A tick, stage by stage: the speed update, the throttled surface resample,
the movement classification, the cadence, and the timer advance. -/
theorem TickComponent_stages (w : World) (dt : float) (s s₁ s₃ s₄ s₅ : UFootstepSoundComponent)
    (h₁ : UpdateSpeed w s = s₁)
    (h₃ : (if s₁.SurfaceAge + dt > 0.05 ∧ s₁.CachedSpeed > UE_SMALL_NUMBER then
            UpdateSurface w { s₁ with SurfaceAge := 0 }
          else { s₁ with SurfaceAge := s₁.SurfaceAge + dt }) = s₃)
    (h₄ : ReadMovementComponent w s₃ = s₄) (h₅ : PlayFootsteps w s₄ = s₅) :
    TickComponent w dt s =
      { s₅ with TimeSinceLastFootstep := s₅.TimeSinceLastFootstep + dt } := by
  subst h₁ h₃ h₄ h₅
  rfl

/-! ## Lemmas: the literals of the source and of the scenes -/

/-- The `float` nearest to 10⁻⁸. -/
theorem UE_SMALL_NUMBER_val : UE_SMALL_NUMBER.val = 11258999 / 1125899906842624 := by
  have h := binary32.round_eq (x := 1e-8) (-27) (-50) 11258999 (by norm_num) (by norm_num)
    (by norm_num) (by constructor <;> norm_num)
  rw [UE_SMALL_NUMBER, Fl.val_ofScientific]
  norm_num at h ⊢
  exact h

/-- The `float` nearest to 0.05, the literal `0.05f` of `TickComponent`. -/
theorem val_resampleInterval : (0.05 : float).val = 13421773 / 268435456 := by
  have h := binary32.round_eq (x := 0.05) (-5) (-28) 13421773 (by norm_num) (by norm_num)
    (by norm_num) (by constructor <;> norm_num)
  rw [Fl.val_ofScientific]
  norm_num at h ⊢
  exact h

/-- The `float` nearest to 0.12, the literal `0.12f` of the header. -/
theorem val_defaultInterval : (0.12 : float).val = 16106127 / 134217728 := by
  have h := binary32.round_eq (x := 0.12) (-4) (-27) 16106127 (by norm_num) (by norm_num)
    (by norm_num) (by constructor <;> norm_num)
  rw [Fl.val_ofScientific]
  norm_num at h ⊢
  exact h

theorem val_half : (0.5 : float).val = 1 / 2 := by
  have h := binary32.round_of_repr 1 (-1) (by norm_num) (by norm_num)
  rw [Fl.val_ofScientific]
  norm_num at h ⊢
  exact h

theorem round_hundredth : binary32.round (1 / 100) = 5368709 / 536870912 := by
  have h := binary32.round_eq (x := 1 / 100) (-7) (-30) 10737418 (by norm_num) (by norm_num)
    (by norm_num) (by constructor <;> norm_num)
  norm_num at h ⊢
  exact h

theorem round_fourFifths : binary32.round (4 / 5) = 13421773 / 16777216 := by
  have h := binary32.round_eq (x := 4 / 5) (-1) (-24) 13421773 (by norm_num) (by norm_num)
    (by norm_num) (by constructor <;> norm_num)
  norm_num at h ⊢
  exact h

theorem round_twoFifths : binary32.round (2 / 5) = 13421773 / 33554432 := by
  have h := binary32.round_eq (x := 2 / 5) (-2) (-25) 13421773 (by norm_num) (by norm_num)
    (by norm_num) (by constructor <;> norm_num)
  norm_num at h ⊢
  exact h

theorem round_tenth : binary32.round (1 / 10) = 13421773 / 134217728 := by
  have h := binary32.round_eq (x := 1 / 10) (-4) (-27) 13421773 (by norm_num) (by norm_num)
    (by norm_num) (by constructor <;> norm_num)
  norm_num at h ⊢
  exact h

theorem round_quarter : binary32.round (1 / 4) = 1 / 4 := by
  have h := binary32.round_of_repr 1 (-2) (by norm_num) (by norm_num)
  norm_num at h ⊢
  exact h

theorem round_threeQuarters : binary32.round (3 / 4) = 3 / 4 := by
  have h := binary32.round_of_repr 3 (-2) (by norm_num) (by norm_num)
  norm_num at h ⊢
  exact h

theorem round_half : binary32.round (1 / 2) = 1 / 2 := by
  have h := binary32.round_of_repr 1 (-1) (by norm_num) (by norm_num)
  norm_num at h ⊢
  exact h

/-- Halving the `float` nearest to 4/5 gives the `float` nearest to 2/5. -/
theorem half_mul_fourFifths : (0.5 : float) * (4 / 5) = 2 / 5 := by
  have h := binary32.round_of_repr 13421773 (-25) (by norm_num) (by norm_num)
  norm_num at h
  norm_num [Fl.ext_iff, val_half, round_fourFifths, round_twoFifths, h]

/-- The `float` nearest to 1/100 is below the `float` nearest to 0.05. -/
theorem hundredth_le_resampleInterval : ¬ ((0 : float) + 1 / 100 > 0.05) := by
  norm_num [Fl.zero_add, Fl.lt_def, val_resampleInterval, round_hundredth]

theorem defaultInterval_pos : (0 : float) < 0.12 := by
  norm_num [Fl.lt_def, val_defaultInterval]

theorem defaultInterval_le_one : (0.12 : float) ≤ 1 := by
  norm_num [Fl.le_def, val_defaultInterval]

theorem sqrt_90000 : binary64.sqrt 90000 = 300 := by
  have h := binary64.sqrt_mul_self (r := 300) (by norm_num) (by norm_num)
  norm_num at h
  exact h

theorem sqrt_400 : binary64.sqrt 400 = 20 := by
  have h := binary64.sqrt_mul_self (r := 20) (by norm_num) (by norm_num)
  norm_num at h
  exact h

theorem sqrt_100 : binary64.sqrt 100 = 10 := by
  have h := binary64.sqrt_mul_self (r := 10) (by norm_num) (by norm_num)
  norm_num at h
  exact h

theorem sqrt_25 : binary64.sqrt 25 = 5 := by
  have h := binary64.sqrt_mul_self (r := 5) (by norm_num) (by norm_num)
  norm_num at h
  exact h

theorem Size_300 : (FVector.Size ⟨300, 0, 0⟩).toFloat = 300 := by
  norm_num [FVector.Size, FVector.SizeSquared, Fl.ext_iff, Fl.toFloat, sqrt_90000]

theorem Size_20 : (FVector.Size ⟨20, 0, 0⟩).toFloat = 20 := by
  norm_num [FVector.Size, FVector.SizeSquared, Fl.ext_iff, Fl.toFloat, sqrt_400]

theorem Size_10 : (FVector.Size ⟨10, 0, 0⟩).toFloat = 10 := by
  norm_num [FVector.Size, FVector.SizeSquared, Fl.ext_iff, Fl.toFloat, sqrt_100]

theorem Size_5 : (FVector.Size ⟨5, 0, 0⟩).toFloat = 5 := by
  norm_num [FVector.Size, FVector.SizeSquared, Fl.ext_iff, Fl.toFloat, sqrt_25]

theorem Size_0 : (FVector.Size ⟨0, 0, 0⟩).toFloat = 0 := by
  rw [FVector.Size_zero]
  exact Fl.cast_zero binary32

/-- The displacement of the owner of `strideWorld` from the origin. -/
theorem stride_from_origin :
    (strideWorld.ActorLocation - FVector.ZeroVector).Size.toFloat = 20 := by
  norm_num [strideWorld, exampleWorld, FVector.ZeroVector, FVector.sub_def, Fl.sub_zero, Size_20]

/-- The displacement of the owner of `firstStepWorld` from the origin. -/
theorem firstStep_from_origin :
    (firstStepWorld.ActorLocation - FVector.ZeroVector).Size.toFloat = 10 := by
  norm_num [firstStepWorld, exampleWorld, FVector.ZeroVector, FVector.sub_def, Fl.sub_zero,
    Size_10]

/-- The displacement between the owners of `firstStepWorld` and `strideWorld`. -/
theorem stride_from_firstStep :
    (strideWorld.ActorLocation - firstStepWorld.ActorLocation).Size.toFloat = 10 := by
  have h : (20 : double) - 10 = 10 := by norm_num [Fl.ext_iff]
  norm_num [strideWorld, firstStepWorld, exampleWorld, FVector.sub_def, Fl.sub_zero, Size_10, h]

/-- The displacement between the owners of `strideWorld` and `thirdStepWorld`. -/
theorem thirdStep_from_stride :
    (thirdStepWorld.ActorLocation - strideWorld.ActorLocation).Size.toFloat = 5 := by
  have h : (25 : double) - 20 = 5 := by norm_num [Fl.ext_iff]
  norm_num [strideWorld, thirdStepWorld, exampleWorld, FVector.sub_def, Fl.sub_zero, Size_5, h]

/-- The fresh component whose interval curve negates the speed, after one tick
of one second with a stride of 20 units at speed 300. -/
theorem freshNegative_after_stride :
    run freshNegativeComponent [Call.Tick strideWorld 1] = negativeAfterStride := by
  have h := TickComponent_stages strideWorld 1 freshNegativeComponent
    { freshNegativeComponent with CachedSpeed := 300 }
    { freshNegativeComponent with
      CachedSpeed := 300
      log := [Event.LineTraceSingleByChannel ⟨20, 0, 0⟩ ⟨20, 0, -98⟩] }
    { freshNegativeComponent with
      CachedSpeed := 300
      log := [Event.LineTraceSingleByChannel ⟨20, 0, 0⟩ ⟨20, 0, -98⟩, Event.OnStartMoving]
      CachedMovementType := Walking }
    { freshNegativeComponent with
      CachedSpeed := 300
      log := [Event.LineTraceSingleByChannel ⟨20, 0, 0⟩ ⟨20, 0, -98⟩, Event.OnStartMoving]
      CachedMovementType := Walking
      LastStepLocation := ⟨20, 0, 0⟩
      StepDistanceRemaining := -300 }
    (by norm_num [UpdateSpeed, freshNegativeComponent, strideWorld, exampleWorld, Size_300])
    (by norm_num [UpdateSurface, freshNegativeComponent, strideWorld, exampleWorld,
      UE_SMALL_NUMBER_val, val_resampleInterval, FVector.sub_def, Fl.ext_iff, Fl.lt_def,
      Fl.toDouble])
    (by norm_num [ReadMovementComponent, NewMovementType, OnStartMoving_Native, PlaySound,
      PickSoundSet, freshNegativeComponent, exampleSounds, strideWorld, exampleWorld,
      UE_SMALL_NUMBER_val, val_defaultInterval, Fl.lt_def, Fl.le_def])
    (by norm_num [PlayFootsteps, PlaySound, PickSoundSet, freshNegativeComponent, exampleSounds,
      strideWorld, exampleWorld, FVector.sub_def, FVector.ZeroVector, Fl.sub_zero, Size_20,
      val_defaultInterval, Fl.ext_iff, Fl.le_def])
  rw [run, run, Call.apply, h]
  norm_num [negativeAfterStride, freshNegativeComponent, Fl.ext_iff]

/-- The fresh component with the constant interval curve 150, after one tick
of one second with a stride of 20 units at speed 300. -/
theorem fresh_after_stride :
    run freshComponent [Call.Tick strideWorld 1] =
      { freshComponent with
        CachedSpeed := 300
        log := [Event.LineTraceSingleByChannel ⟨20, 0, 0⟩ ⟨20, 0, -98⟩, Event.OnStartMoving]
        CachedMovementType := Walking
        LastStepLocation := ⟨20, 0, 0⟩
        StepDistanceRemaining := 150
        TimeSinceLastFootstep := 1 } := by
  have h := TickComponent_stages strideWorld 1 freshComponent
    { freshComponent with CachedSpeed := 300 }
    { freshComponent with
      CachedSpeed := 300
      log := [Event.LineTraceSingleByChannel ⟨20, 0, 0⟩ ⟨20, 0, -98⟩] }
    { freshComponent with
      CachedSpeed := 300
      log := [Event.LineTraceSingleByChannel ⟨20, 0, 0⟩ ⟨20, 0, -98⟩, Event.OnStartMoving]
      CachedMovementType := Walking }
    { freshComponent with
      CachedSpeed := 300
      log := [Event.LineTraceSingleByChannel ⟨20, 0, 0⟩ ⟨20, 0, -98⟩, Event.OnStartMoving]
      CachedMovementType := Walking
      LastStepLocation := ⟨20, 0, 0⟩
      StepDistanceRemaining := 150 }
    (by norm_num [UpdateSpeed, freshComponent, strideWorld, exampleWorld, Size_300])
    (by norm_num [UpdateSurface, freshComponent, strideWorld, exampleWorld,
      UE_SMALL_NUMBER_val, val_resampleInterval, FVector.sub_def, Fl.ext_iff, Fl.lt_def,
      Fl.toDouble])
    (by norm_num [ReadMovementComponent, NewMovementType, OnStartMoving_Native, PlaySound,
      PickSoundSet, freshComponent, exampleSounds, strideWorld, exampleWorld,
      UE_SMALL_NUMBER_val, val_defaultInterval, Fl.lt_def, Fl.le_def])
    (by norm_num [PlayFootsteps, PlaySound, PickSoundSet, freshComponent, exampleSounds,
      strideWorld, exampleWorld, FVector.sub_def, FVector.ZeroVector, Fl.sub_zero, Size_20,
      val_defaultInterval, Fl.ext_iff, Fl.le_def])
  rw [run, run, Call.apply, h]
  norm_num [freshComponent, Fl.ext_iff]

/-! ## Lemmas: ticks at rest -/

theorem UE_SMALL_NUMBER_pos : (0 : float) < UE_SMALL_NUMBER := by
  norm_num [Fl.lt_def, UE_SMALL_NUMBER_val]

theorem accumulate_append (t : float) (l₁ l₂ : List float) :
    accumulate t (l₁ ++ l₂) = accumulate (accumulate t l₁) l₂ := by
  induction l₁ generalizing t with
  | nil => rfl
  | cons d ds ih => exact ih (t + d)

/-- A tick with the owner at rest on the ground, for a component that was
stopped: the surface age and the timer advance by the tick delta, the cached
speed is 0, and nothing else happens. -/
theorem TickComponent_at_rest (w : World) (dt : float) (s : UFootstepSoundComponent)
    (hg : w.IsMovingOnGround = true) (hv : w.Velocity = ⟨0, 0, 0⟩)
    (hs : s.CachedMovementType = Stopped) :
    TickComponent w dt s =
      { s with
        CachedSpeed := 0
        SurfaceAge := s.SurfaceAge + dt
        TimeSinceLastFootstep := s.TimeSinceLastFootstep + dt } := by
  have hnew : ∀ s' : UFootstepSoundComponent, s'.CachedSpeed = 0 →
      NewMovementType w s' = Stopped := by
    intro s' h0
    unfold NewMovementType
    rw [if_pos hg, h0, if_pos UE_SMALL_NUMBER_pos]
  have h := TickComponent_stages w dt s
    { s with CachedSpeed := 0 }
    { s with CachedSpeed := 0, SurfaceAge := s.SurfaceAge + dt }
    { s with CachedSpeed := 0, SurfaceAge := s.SurfaceAge + dt }
    { s with CachedSpeed := 0, SurfaceAge := s.SurfaceAge + dt }
    (by unfold UpdateSpeed; rw [hv, Size_0])
    (if_neg (fun h => absurd h.2 (not_lt.mpr UE_SMALL_NUMBER_pos.le)))
    (by
      unfold ReadMovementComponent
      dsimp only
      rw [hnew _ rfl, if_neg (not_not.mpr hs), ← hs])
    (PlayFootsteps_of_not_moving w _ (by simp [IsMoving, hs]))
  rw [h]

/-- A run of ticks with the owner at rest on the ground, for a stopped
component whose cached speed is 0: the surface age and the timer are advanced
by the tick deltas, one rounded addition after the other, and nothing else
happens. -/
theorem run_at_rest (w : World) (hg : w.IsMovingOnGround = true) (hv : w.Velocity = ⟨0, 0, 0⟩)
    (deltas : List float) (s : UFootstepSoundComponent) (hs : s.CachedMovementType = Stopped)
    (h0 : s.CachedSpeed = 0) :
    run s (deltas.map (Call.Tick w)) =
      { s with
        SurfaceAge := accumulate s.SurfaceAge deltas
        TimeSinceLastFootstep := accumulate s.TimeSinceLastFootstep deltas } := by
  induction deltas generalizing s with
  | nil => rfl
  | cons d ds ih =>
    rw [List.map_cons, run, Call.apply, TickComponent_at_rest w d s hg hv hs,
      ih ({ s with
        CachedSpeed := 0
        SurfaceAge := s.SurfaceAge + d
        TimeSinceLastFootstep := s.TimeSinceLastFootstep + d }) hs rfl]
    simp only [accumulate]
    rw [← h0]

/-! ## Movement classification and its edges -/

/-- Claim C1: `ReadMovementComponent` leaves the movement type at `Flying` when
the character is not on the ground, at `Stopped` when it is and the cached
speed is below `UE_SMALL_NUMBER`, and otherwise at `CrouchWalking` when
crouching and `Walking` when not; whatever the movement type was before makes
no difference. -/
theorem readMovementComponent_classifies (w : World) (s : UFootstepSoundComponent) :
    (w.IsMovingOnGround = false →
      (ReadMovementComponent w s).CachedMovementType = Flying) ∧
    (w.IsMovingOnGround = true → s.CachedSpeed < UE_SMALL_NUMBER →
      (ReadMovementComponent w s).CachedMovementType = Stopped) ∧
    (w.IsMovingOnGround = true → ¬ s.CachedSpeed < UE_SMALL_NUMBER → w.IsCrouching = true →
      (ReadMovementComponent w s).CachedMovementType = CrouchWalking) ∧
    (w.IsMovingOnGround = true → ¬ s.CachedSpeed < UE_SMALL_NUMBER → w.IsCrouching = false →
      (ReadMovementComponent w s).CachedMovementType = Walking) ∧
    (∀ previous : EFootstepMovementType,
      (ReadMovementComponent w { s with CachedMovementType := previous }).CachedMovementType
        = (ReadMovementComponent w s).CachedMovementType) := by
  refine ⟨?_, ?_, ?_, ?_, ?_⟩
  · intro hg
    simp [ReadMovementComponent, NewMovementType, hg]
  · intro hg hs
    simp [ReadMovementComponent, NewMovementType, hg, hs]
  · intro hg hs hc
    simp [ReadMovementComponent, NewMovementType, hg, hs, hc]
  · intro hg hs hc
    simp [ReadMovementComponent, NewMovementType, hg, hs, hc]
  · intro previous
    simp [ReadMovementComponent, NewMovementType]

/-- Claim C1 at a concrete input: the stopped component with cached speed 300,
the owner on the ground and upright, is classified `Walking`. -/
theorem readMovementComponent_classifies_witness :
    (ReadMovementComponent walkingWorld stoppedComponent).CachedMovementType = Walking :=
  (readMovementComponent_classifies walkingWorld stoppedComponent).2.2.2.1 rfl
    (by norm_num [stoppedComponent, UE_SMALL_NUMBER_val, Fl.lt_def, Fl.le_def]) rfl

/-- Claim C2: one call of `ReadMovementComponent` sends at most one edge
notification; it sends nothing at all when the new movement type is the
previous one; and leaving `Flying` the one edge notification is `OnLand`. -/
theorem readMovementComponent_one_edge (w : World) (s : UFootstepSoundComponent) :
    (edgeEvents (emitted s (ReadMovementComponent w s))).length ≤ 1 ∧
    ((ReadMovementComponent w s).CachedMovementType = s.CachedMovementType →
      emitted s (ReadMovementComponent w s) = []) ∧
    (s.CachedMovementType = Flying →
      (ReadMovementComponent w s).CachedMovementType ≠ Flying →
      edgeEvents (emitted s (ReadMovementComponent w s)) = [Event.OnLand]) := by
  rcases hp : s.CachedMovementType <;> rcases hn : NewMovementType w s <;>
    simp [ReadMovementComponent, hp, hn, emitted, edgeEvents, OnLand_Native,
      OnStartMoving_Native, OnStopMoving_Native, PlaySound, UpdateSurface, Event.isEdge] <;>
    (repeat' split) <;> simp_all [Event.isEdge, List.filter]

/-- Claim C2 at a concrete input: the component last seen in the air, with the
owner now on the ground at speed 300, sends `OnLand` as its one edge. -/
theorem readMovementComponent_one_edge_witness :
    edgeEvents (emitted airborneComponent (ReadMovementComponent walkingWorld airborneComponent))
      = [Event.OnLand] :=
  (readMovementComponent_one_edge walkingWorld airborneComponent).2.2 rfl
    (by norm_num [ReadMovementComponent, NewMovementType, walkingWorld, exampleWorld,
      airborneComponent, UE_SMALL_NUMBER_val, Fl.lt_def, Fl.le_def])

/-- Claim C3, as stated, fails: from `Flying`, landing at speed 300 on the
ground gives `Walking`, a moving type reached from a non-moving one, and no
`OnStartMoving` is sent. -/
theorem startedMoving_not_after_flying :
    airborneComponent.CachedMovementType = Flying ∧
    (ReadMovementComponent walkingWorld airborneComponent).CachedMovementType = Walking ∧
    Event.OnStartMoving ∉
      emitted airborneComponent (ReadMovementComponent walkingWorld airborneComponent) := by
  norm_num [ReadMovementComponent, NewMovementType, walkingWorld, airborneComponent,
    exampleWorld, UE_SMALL_NUMBER_val, Fl.lt_def, Fl.le_def, emitted, OnLand_Native, UpdateSurface, PickSoundSet]
  simp

/-- Claim C3, amended: when the previous movement type is `Stopped` and the
new one is moving, `ReadMovementComponent` sends `OnStartMoving` and no other
edge notification; when the previous one is `Flying` the edge sent is `OnLand`
instead; and from `Stopped` with speed 300, on the ground and not crouching,
the new type is `Walking` and `OnStartMoving` is sent. -/
theorem readMovementComponent_started (w : World) (s : UFootstepSoundComponent) :
    (s.CachedMovementType = Stopped → IsMoving (ReadMovementComponent w s).CachedMovementType →
      edgeEvents (emitted s (ReadMovementComponent w s)) = [Event.OnStartMoving]) ∧
    (s.CachedMovementType = Flying → IsMoving (ReadMovementComponent w s).CachedMovementType →
      edgeEvents (emitted s (ReadMovementComponent w s)) = [Event.OnLand]) ∧
    (s.CachedMovementType = Stopped → s.CachedSpeed = 300 → w.IsMovingOnGround = true →
      w.IsCrouching = false →
      (ReadMovementComponent w s).CachedMovementType = Walking ∧
      edgeEvents (emitted s (ReadMovementComponent w s)) = [Event.OnStartMoving]) := by
  have key : ∀ (w : World) (s : UFootstepSoundComponent), s.CachedMovementType = Stopped →
      IsMoving (ReadMovementComponent w s).CachedMovementType →
      edgeEvents (emitted s (ReadMovementComponent w s)) = [Event.OnStartMoving] := by
    intro w s hp hm
    rcases hn : NewMovementType w s <;>
      simp [ReadMovementComponent, hp, hn, IsMoving] at hm <;>
      simp [ReadMovementComponent, hp, hn, emitted, edgeEvents, OnStartMoving_Native, PlaySound,
        Event.isEdge] <;>
      (repeat' split) <;> simp_all [Event.isEdge, List.filter]
  refine ⟨key w s, ?_, ?_⟩
  · intro hp hm
    rcases hn : NewMovementType w s <;>
      simp [ReadMovementComponent, hp, hn, IsMoving] at hm <;>
      simp [ReadMovementComponent, hp, hn, emitted, edgeEvents, OnLand_Native, PlaySound,
        UpdateSurface, Event.isEdge] <;>
      (repeat' split) <;> simp_all [Event.isEdge, List.filter]
  · intro hp hs hg hc
    have hn : (ReadMovementComponent w s).CachedMovementType = Walking := by
      norm_num [ReadMovementComponent, NewMovementType, hs, hg, hc, UE_SMALL_NUMBER_val,
        Fl.lt_def, Fl.le_def]
    exact ⟨hn, key w s hp (by rw [hn]; exact Or.inl rfl)⟩

/-- Claim C3 at a concrete input: the stopped component, the owner on the
ground at speed 300 and upright. -/
theorem readMovementComponent_started_witness :
    (ReadMovementComponent walkingWorld stoppedComponent).CachedMovementType = Walking ∧
    edgeEvents (emitted stoppedComponent (ReadMovementComponent walkingWorld stoppedComponent))
      = [Event.OnStartMoving] :=
  (readMovementComponent_started walkingWorld stoppedComponent).2.2 rfl rfl rfl rfl

/-- Claim C4: `ReadMovementComponent` sends `OnStopMoving` exactly when the
previous movement type is `Walking` or `CrouchWalking` and the new one is
`Stopped` or `Flying`; going from `Walking` to `CrouchWalking` or back sends
neither `OnStartMoving` nor `OnStopMoving`. -/
theorem readMovementComponent_stopped (w : World) (s : UFootstepSoundComponent) :
    (Event.OnStopMoving ∈ emitted s (ReadMovementComponent w s) ↔
      (s.CachedMovementType = Walking ∨ s.CachedMovementType = CrouchWalking) ∧
      ((ReadMovementComponent w s).CachedMovementType = Stopped ∨
       (ReadMovementComponent w s).CachedMovementType = Flying)) ∧
    ((s.CachedMovementType = Walking ∧
        (ReadMovementComponent w s).CachedMovementType = CrouchWalking) ∨
     (s.CachedMovementType = CrouchWalking ∧
        (ReadMovementComponent w s).CachedMovementType = Walking) →
      Event.OnStartMoving ∉ emitted s (ReadMovementComponent w s) ∧
      Event.OnStopMoving ∉ emitted s (ReadMovementComponent w s)) := by
  rcases hp : s.CachedMovementType <;> rcases hn : NewMovementType w s <;>
    simp [ReadMovementComponent, hp, hn, emitted, OnLand_Native,
      OnStartMoving_Native, OnStopMoving_Native, PlaySound, UpdateSurface] <;>
    (repeat' split) <;> simp_all

/-- Claim C4 at a concrete input: the walking component, with the owner now
crouching at speed 300, goes to `CrouchWalking` and sends neither
`OnStartMoving` nor `OnStopMoving`. -/
theorem readMovementComponent_stopped_witness :
    Event.OnStartMoving ∉
      emitted walkingComponent (ReadMovementComponent crouchingWorld walkingComponent) ∧
    Event.OnStopMoving ∉
      emitted walkingComponent (ReadMovementComponent crouchingWorld walkingComponent) :=
  (readMovementComponent_stopped crouchingWorld walkingComponent).2
    (Or.inl ⟨rfl, by norm_num [ReadMovementComponent, NewMovementType, crouchingWorld,
      exampleWorld, walkingComponent, UE_SMALL_NUMBER_val, Fl.lt_def, Fl.le_def]⟩)

/-! ## The shared cooldown -/

/-- The `float` nearest to 0.013333333, the tick delta of the scene
`nineFrames`. -/
theorem val_frameDelta : frameDelta.val = 14316557 / 1073741824 := by
  have h := binary32.round_eq (x := 0.013333333) (-7) (-30) 14316557 (by norm_num) (by norm_num)
    (by norm_num) (by constructor <;> norm_num)
  rw [frameDelta, Fl.val_ofScientific]
  norm_num at h ⊢
  exact h

/-- Nine additions of `frameDelta` to a timer at 0, each rounded to `float`:
the timer ends at 1006633 / 8388608, above the `float` 0.12. -/
theorem accumulate_nine_frames :
    (accumulate 0 (List.replicate 9 frameDelta)).val = 1006633 / 8388608 := by
  have h1 : binary32.round (14316557 / 1073741824) = 14316557 / 1073741824 := by
    have h := binary32.round_eq (x := 14316557 / 1073741824) (-7) (-30) 14316557 (by norm_num) (by norm_num)
      (by norm_num) (by constructor <;> norm_num)
    norm_num at h ⊢
    exact h
  have h2 : binary32.round (14316557 / 536870912) = 14316557 / 536870912 := by
    have h := binary32.round_eq (x := 14316557 / 536870912) (-6) (-29) 14316557 (by norm_num) (by norm_num)
      (by norm_num) (by constructor <;> norm_num)
    norm_num at h ⊢
    exact h
  have h3 : binary32.round (42949671 / 1073741824) = 5368709 / 134217728 := by
    have h := binary32.round_eq (x := 42949671 / 1073741824) (-5) (-28) 10737418 (by norm_num) (by norm_num)
      (by norm_num) (by constructor <;> norm_num)
    norm_num at h ⊢
    exact h
  have h4 : binary32.round (57266229 / 1073741824) = 14316557 / 268435456 := by
    have h := binary32.round_eq (x := 57266229 / 1073741824) (-5) (-28) 14316557 (by norm_num) (by norm_num)
      (by norm_num) (by constructor <;> norm_num)
    norm_num at h ⊢
    exact h
  have h5 : binary32.round (71582785 / 1073741824) = 1118481 / 16777216 := by
    have h := binary32.round_eq (x := 71582785 / 1073741824) (-4) (-27) 8947848 (by norm_num) (by norm_num)
      (by norm_num) (by constructor <;> norm_num)
    norm_num at h ⊢
    exact h
  have h6 : binary32.round (85899341 / 1073741824) = 5368709 / 67108864 := by
    have h := binary32.round_eq (x := 85899341 / 1073741824) (-4) (-27) 10737418 (by norm_num) (by norm_num)
      (by norm_num) (by constructor <;> norm_num)
    norm_num at h ⊢
    exact h
  have h7 : binary32.round (100215901 / 1073741824) = 3131747 / 33554432 := by
    have h := binary32.round_eq (x := 100215901 / 1073741824) (-4) (-27) 12526988 (by norm_num) (by norm_num)
      (by norm_num) (by constructor <;> norm_num)
    norm_num at h ⊢
    exact h
  have h8 : binary32.round (114532461 / 1073741824) = 7158279 / 67108864 := by
    have h := binary32.round_eq (x := 114532461 / 1073741824) (-4) (-27) 14316558 (by norm_num) (by norm_num)
      (by norm_num) (by constructor <;> norm_num)
    norm_num at h ⊢
    exact h
  have h9 : binary32.round (128849021 / 1073741824) = 1006633 / 8388608 := by
    have h := binary32.round_eq (x := 128849021 / 1073741824) (-4) (-27) 16106128 (by norm_num) (by norm_num)
      (by norm_num) (by constructor <;> norm_num)
    norm_num at h ⊢
    exact h
  have hl : List.replicate 9 frameDelta = [frameDelta, frameDelta, frameDelta, frameDelta,
      frameDelta, frameDelta, frameDelta, frameDelta, frameDelta] := rfl
  rw [hl]
  simp only [accumulate, Fl.val_add, Fl.val_zero, val_frameDelta]
  norm_num [h1, h2, h3, h4, h5, h6, h7, h8, h9]

/-- The ready component after a jump: the jump sound was played and the timer
is at 0. -/
theorem ready_after_jump :
    (Call.Jump standingWorld).apply readyComponent =
      { readyComponent with
        log := [Event.OnJump, Event.PlaySoundAtLocation 2 ⟨0, 0, 0⟩ 1, Event.OnFootstep]
        TimeSinceLastFootstep := 0 } := by
  norm_num [Call.apply, RegisterJump, OnJump_Native, PickSoundSet, PlaySound, readyComponent,
    exampleSounds, standingWorld, exampleWorld, val_defaultInterval, Fl.le_def]

/-- The ready component after a jump and the nine ticks of `nineFrames`: only
the surface age and the timer have moved. -/
theorem ready_after_nine_frames :
    run ((Call.Jump standingWorld).apply readyComponent) nineFrames =
      { readyComponent with
        log := [Event.OnJump, Event.PlaySoundAtLocation 2 ⟨0, 0, 0⟩ 1, Event.OnFootstep]
        SurfaceAge := accumulate 0 (List.replicate 9 frameDelta)
        TimeSinceLastFootstep := accumulate 0 (List.replicate 9 frameDelta) } := by
  rw [ready_after_jump, nineFrames, run_at_rest standingWorld rfl rfl _ _ rfl rfl]
  rfl

/-- The ready component jumps and the jump sound is played; the nine ticks of
`nineFrames` play nothing; a second jump plays the jump sound again. -/
theorem ready_plays_twice :
    1 ≤ playCount (emitted readyComponent ((Call.Jump standingWorld).apply readyComponent)) ∧
    playCount (emitted ((Call.Jump standingWorld).apply readyComponent)
      (run ((Call.Jump standingWorld).apply readyComponent) nineFrames)) = 0 ∧
    1 ≤ playCount (emitted (run ((Call.Jump standingWorld).apply readyComponent) nineFrames)
      ((Call.Jump standingWorld).apply
        (run ((Call.Jump standingWorld).apply readyComponent) nineFrames))) := by
  refine ⟨?_, ?_, ?_⟩
  · rw [ready_after_jump]
    norm_num [emitted, readyComponent, playCount, Event.isPlay]
  · rw [ready_after_nine_frames, ready_after_jump]
    norm_num [emitted, readyComponent, playCount]
  · rw [ready_after_nine_frames]
    norm_num [Call.apply, RegisterJump, OnJump_Native, PickSoundSet, PlaySound, readyComponent,
      exampleSounds, standingWorld, exampleWorld, val_defaultInterval, Fl.le_def,
      accumulate_nine_frames, emitted, playCount, Event.isPlay]

/-- Claim C5, as stated, fails: the ready component (minimum interval 0.12, the
header's value) jumps and the jump sound is played; nine ticks of 0.013333333
at rest play nothing; a second jump plays the jump sound again. The tick
deltas added to the timer between the two plays sum to 128849013 / 2 ^ 30,
which is below the minimum interval 16106127 / 2 ^ 27: the nine rounded
additions leave the timer at 1006633 / 2 ^ 23, which is above it. -/
theorem second_play_before_interval :
    0 < readyComponent.MinimumSoundInterval ∧
    (∀ c ∈ nineFrames, 0 ≤ c.DeltaTime) ∧
    1 ≤ playCount (emitted readyComponent ((Call.Jump standingWorld).apply readyComponent)) ∧
    playCount (emitted ((Call.Jump standingWorld).apply readyComponent)
      (run ((Call.Jump standingWorld).apply readyComponent) nineFrames)) = 0 ∧
    1 ≤ playCount (emitted (run ((Call.Jump standingWorld).apply readyComponent) nineFrames)
      ((Call.Jump standingWorld).apply
        (run ((Call.Jump standingWorld).apply readyComponent) nineFrames))) ∧
    (((Call.Jump standingWorld).DeltaTime :: nineFrames.map Call.DeltaTime).map Fl.val).sum
      < readyComponent.MinimumSoundInterval.val := by
  refine ⟨?_, ?_, ready_plays_twice.1, ready_plays_twice.2.1, ready_plays_twice.2.2, ?_⟩
  · norm_num [readyComponent, Fl.lt_def, val_defaultInterval]
  · intro c hc
    simp only [nineFrames, List.mem_map, List.mem_replicate] at hc
    obtain ⟨d, ⟨-, rfl⟩, rfl⟩ := hc
    norm_num [Call.DeltaTime, Fl.le_def, val_frameDelta]
  · norm_num [nineFrames, Call.DeltaTime, List.replicate, readyComponent, val_defaultInterval,
      val_frameDelta]

/-- Claim C5, amended: `PlaySound` with a valid sound plays it (and broadcasts
`OnFootstep`) exactly when `TimeSinceLastFootstep` has reached
`MinimumSoundInterval`, and a play leaves the timer at 0; with a positive
minimum interval no public call (tick or jump) plays two sounds; and when a
call plays a sound, the calls `mid` after it play none and the next call plays
one, the timer (the delta of the first call and those of `mid`, added one
after the other with each sum rounded to `float`) has reached the minimum
interval. -/
theorem cooldown_gate :
    (∀ (w : World) (snd : USoundBase) (v : float) (s : UFootstepSoundComponent),
      (s.MinimumSoundInterval ≤ s.TimeSinceLastFootstep →
        emitted s (PlaySound w (some snd) v s)
          = [Event.PlaySoundAtLocation snd w.ActorLocation v, Event.OnFootstep] ∧
        (PlaySound w (some snd) v s).TimeSinceLastFootstep = 0) ∧
      (¬ s.MinimumSoundInterval ≤ s.TimeSinceLastFootstep →
        PlaySound w (some snd) v s = s)) ∧
    (∀ (c : Call) (s : UFootstepSoundComponent), 0 < s.MinimumSoundInterval →
      playCount (emitted s (c.apply s)) ≤ 1) ∧
    (∀ (s : UFootstepSoundComponent) (c : Call) (mid : List Call) (c' : Call),
      1 ≤ playCount (emitted s (c.apply s)) →
      playCount (emitted (c.apply s) (run (c.apply s) mid)) = 0 →
      1 ≤ playCount (emitted (run (c.apply s) mid) (c'.apply (run (c.apply s) mid))) →
      (run (c.apply s) mid).TimeSinceLastFootstep
        = accumulate c.DeltaTime (mid.map Call.DeltaTime) ∧
      s.MinimumSoundInterval ≤ accumulate c.DeltaTime (mid.map Call.DeltaTime)) := by
  refine ⟨?_, ?_, ?_⟩
  · intro w snd v s
    constructor
    · intro h
      have h' : s.TimeSinceLastFootstep ≥ s.MinimumSoundInterval := h
      simp [PlaySound, emitted, h']
    · intro h
      have h' : ¬ s.TimeSinceLastFootstep ≥ s.MinimumSoundInterval := h
      simp [PlaySound, h']
  · intro c s hpos
    obtain ⟨_, l, hl, hc⟩ := c.apply_effect s
    rw [emitted_append s _ _ hl]
    rcases hc with ⟨c₀, _⟩ | ⟨_, _, _, u⟩
    · omega
    · exact (u hpos).le
  · intro s c mid c' hc hmid hc'
    obtain ⟨hm, l, hl, hcase⟩ := c.apply_effect s
    rw [emitted_append s _ _ hl] at hc
    obtain ⟨hm₂, ht₂⟩ := run_quiet mid (c.apply s) hmid
    obtain ⟨_, l', hl', hcase'⟩ := c'.apply_effect (run (c.apply s) mid)
    rw [emitted_append _ _ _ hl'] at hc'
    rcases hcase with ⟨c₀, _⟩ | ⟨_, _, t₁, _⟩
    · omega
    · rw [t₁] at ht₂
      refine ⟨ht₂, ?_⟩
      rcases hcase' with ⟨c₀', _⟩ | ⟨_, g, _, _⟩
      · omega
      · rw [hm₂, hm, ht₂] at g
        exact g

/-- Claim C5 at a concrete input: a jump that plays, the nine ticks of
`nineFrames` at rest that play nothing, and a second jump that plays: the
timer, nine rounded additions of the tick delta, has reached the minimum
interval. -/
theorem cooldown_gate_witness :
    readyComponent.MinimumSoundInterval ≤
      accumulate (Call.Jump standingWorld).DeltaTime (nineFrames.map Call.DeltaTime) :=
  (cooldown_gate.2.2 readyComponent (Call.Jump standingWorld) nineFrames
    (Call.Jump standingWorld)
    ready_plays_twice.1 ready_plays_twice.2.1 ready_plays_twice.2.2).2

/-! ## The cadence -/

/-- Claim C6, as stated, fails: a walking component with 20 units remaining
and an interval curve of constant value -5 moves 20 units; the step fires and
`StepDistanceRemaining` is -5 after `PlayFootsteps`. -/
theorem remaining_negative_after_step :
    0 ≤ negativeCurveComponent.StepDistanceRemaining ∧
    (PlayFootsteps strideWorld negativeCurveComponent).StepDistanceRemaining = -5 := by
  have hd : (strideWorld.ActorLocation - negativeCurveComponent.LastStepLocation).Size.toFloat
      = 20 := stride_from_origin
  have hr : negativeCurveComponent.StepDistanceRemaining
      - (strideWorld.ActorLocation - negativeCurveComponent.LastStepLocation).Size.toFloat
        ≤ 0 := by
    rw [hd]
    norm_num [negativeCurveComponent, Fl.le_def]
  rw [PlayFootsteps_step_eq strideWorld negativeCurveComponent (Or.inl rfl) hr]
  norm_num [NextStepDistance, negativeCurveComponent, Fl.le_def, Fl.ext_iff]

/-- Claim C6, amended: when `StepDistanceRemaining` is not negative and the
interval curve is unset or its value at the cached speed is not negative,
`StepDistanceRemaining` is not negative after `PlayFootsteps`, for every
position and speed. -/
theorem playFootsteps_remaining_nonneg (w : World) (s : UFootstepSoundComponent)
    (h0 : 0 ≤ s.StepDistanceRemaining)
    (hc : ∀ curve, s.IntervalSpeedCurve = some curve → 0 ≤ curve s.CachedSpeed) :
    0 ≤ (PlayFootsteps w s).StepDistanceRemaining := by
  by_cases hm : IsMoving s.CachedMovementType
  · by_cases hr : s.StepDistanceRemaining - (w.ActorLocation - s.LastStepLocation).Size.toFloat ≤ 0
    · rw [PlayFootsteps_of_step w s hm hr]
      exact (NextStepDistance_pos s hc).le
    · rw [PlayFootsteps_of_no_step w s hm (not_le.mp hr)]
      exact (not_le.mp hr).le
  · rw [PlayFootsteps_of_not_moving w s hm]
    exact h0

/-- Claim C6 at a concrete input: the walking component with the constant
interval curve 150, after a stride of 20 units. -/
theorem playFootsteps_remaining_nonneg_witness :
    0 ≤ (PlayFootsteps strideWorld walkingComponent).StepDistanceRemaining :=
  playFootsteps_remaining_nonneg strideWorld walkingComponent
    (by norm_num [walkingComponent, Fl.le_def])
    (by
      intro curve h
      simp only [walkingComponent, Option.some.injEq] at h
      subst h
      norm_num [Fl.le_def])

/-- Claim C7, as stated, fails: a fresh component whose interval curve negates
the speed is ticked once while the owner strides 20 units at speed 300; in the
state reached, a call of `PlayFootsteps` at the same position plays a
footstep. -/
theorem step_at_zero_displacement :
    Reachable (run freshNegativeComponent [Call.Tick strideWorld 1]) ∧
    strideWorld.ActorLocation
      = (run freshNegativeComponent [Call.Tick strideWorld 1]).LastStepLocation ∧
    emitted (run freshNegativeComponent [Call.Tick strideWorld 1])
        (PlayFootsteps strideWorld (run freshNegativeComponent [Call.Tick strideWorld 1]))
      = [Event.PlaySoundAtLocation 1 ⟨20, 0, 0⟩ 1, Event.OnFootstep] := by
  refine ⟨⟨freshNegativeComponent, [Call.Tick strideWorld 1], ?_, rfl⟩, ?_, ?_⟩
  · simp [Initial, freshNegativeComponent, SurfaceType_Default]
  · rw [freshNegative_after_stride]
    rfl
  · rw [freshNegative_after_stride]
    have hd : (strideWorld.ActorLocation - negativeAfterStride.LastStepLocation).Size.toFloat
        = 0 := FVector.Size_sub_self ⟨20, 0, 0⟩
    have hr : negativeAfterStride.StepDistanceRemaining
        - (strideWorld.ActorLocation - negativeAfterStride.LastStepLocation).Size.toFloat
          ≤ 0 := by
      rw [hd]
      norm_num [negativeAfterStride, Fl.le_def]
    have hreq : (RequestFootstep strideWorld negativeAfterStride).log
        = negativeAfterStride.log
          ++ [Event.PlaySoundAtLocation 1 ⟨20, 0, 0⟩ 1, Event.OnFootstep] := by
      norm_num [RequestFootstep, PickSoundSet, PlaySound, CalculateFootstepVolume,
        negativeAfterStride, freshNegativeComponent, exampleSounds, strideWorld, exampleWorld,
        Fl.le_def, val_defaultInterval]
    rw [PlayFootsteps_step_eq strideWorld negativeAfterStride (Or.inl rfl) hr]
    exact emitted_append _ _ _ hreq

/-- Claim C7, amended: in every state reachable from a fresh component by
ticks and jumps, when the interval curve is unset or has no negative value, a
call of `PlayFootsteps` at the position of the last step does not meet the
step test and changes nothing: no sound is requested, nothing is sent, and
`StepDistanceRemaining` (like every other member) is as before. -/
theorem playFootsteps_zero_displacement (s : UFootstepSoundComponent) (hr : Reachable s)
    (hc : IntervalCurveNonneg s) (w : World) (hw : w.ActorLocation = s.LastStepLocation) :
    ¬ (s.StepDistanceRemaining - (w.ActorLocation - s.LastStepLocation).Size.toFloat ≤ 0) ∧
    PlayFootsteps w s = s := by
  obtain ⟨s0, calls, hinit, rfl⟩ := hr
  have hcurve := run_intervalCurve calls s0
  have hpos : 0 < (run s0 calls).StepDistanceRemaining :=
    run_cadence_positive calls s0 (by intro c; rw [← hcurve]; exact hc c)
      (by rw [hinit.1]; exact twenty_pos)
  have hd : (w.ActorLocation - (run s0 calls).LastStepLocation).Size.toFloat = 0 := by
    rw [hw]; exact FVector.Size_sub_self _
  refine ⟨by rw [hd, Fl.sub_zero]; exact not_le.mpr hpos, ?_⟩
  by_cases hm : IsMoving (run s0 calls).CachedMovementType
  · rw [PlayFootsteps_of_no_step w _ hm (by rw [hd, Fl.sub_zero]; exact hpos), hd, Fl.sub_zero,
      hw]
  · exact PlayFootsteps_of_not_moving w _ hm

/-- Claim C7 at a concrete input: the fresh component with the constant
interval curve 150 after one tick with a stride, and a second call at the
same position. -/
theorem playFootsteps_zero_displacement_witness :
    PlayFootsteps strideWorld (run freshComponent [Call.Tick strideWorld 1])
      = run freshComponent [Call.Tick strideWorld 1] :=
  (playFootsteps_zero_displacement (run freshComponent [Call.Tick strideWorld 1])
    ⟨freshComponent, [Call.Tick strideWorld 1],
      by simp [Initial, freshComponent, SurfaceType_Default], rfl⟩
    (by
      intro curve h
      rw [run_intervalCurve] at h
      simp only [freshComponent, Option.some.injEq] at h
      subst h
      norm_num [Fl.le_def])
    strideWorld
    (by rw [fresh_after_stride]; rfl)).2


/-- Claim C8: while the movement type is `Walking` or `CrouchWalking`,
`PlayFootsteps` takes the displacement from `LastStepLocation` off
`StepDistanceRemaining`. When the result is positive nothing else happens: no
footstep is requested and nothing is sent. When the result is 0 or less exactly
one footstep is requested (what is sent is what one `RequestFootstep` sends, at
most one sound), and `StepDistanceRemaining` becomes the value of the interval
curve at the cached speed, or 20 when that value is 0 or the curve is unset.
With a curve worth 150 at speed 300, 20 units remaining and displacements of
10, 10 and 5, the step fires on the second call only and the remaining
distance is 10, 150, 145. -/
theorem playFootsteps_cadence (w : World) (s : UFootstepSoundComponent)
    (hm : IsMoving s.CachedMovementType) :
    (0 < s.StepDistanceRemaining - (w.ActorLocation - s.LastStepLocation).Size.toFloat →
      PlayFootsteps w s =
        { s with
          LastStepLocation := w.ActorLocation
          StepDistanceRemaining :=
            s.StepDistanceRemaining - (w.ActorLocation - s.LastStepLocation).Size.toFloat }) ∧
    (s.StepDistanceRemaining - (w.ActorLocation - s.LastStepLocation).Size.toFloat ≤ 0 →
      emitted s (PlayFootsteps w s) = emitted s (RequestFootstep w s) ∧
      playCount (emitted s (PlayFootsteps w s)) ≤ 1 ∧
      (∀ curve, s.IntervalSpeedCurve = some curve → curve s.CachedSpeed ≠ 0 →
        (PlayFootsteps w s).StepDistanceRemaining = curve s.CachedSpeed) ∧
      (∀ curve, s.IntervalSpeedCurve = some curve → curve s.CachedSpeed = 0 →
        (PlayFootsteps w s).StepDistanceRemaining = 20) ∧
      (s.IntervalSpeedCurve = none → (PlayFootsteps w s).StepDistanceRemaining = 20)) ∧
    (∀ (curve : UCurveFloat) (w₂ w₃ : World),
      s.IntervalSpeedCurve = some curve → curve 300 = 150 → s.CachedSpeed = 300 →
      s.StepDistanceRemaining = 20 →
      (w.ActorLocation - s.LastStepLocation).Size.toFloat = 10 →
      (w₂.ActorLocation - w.ActorLocation).Size.toFloat = 10 →
      (w₃.ActorLocation - w₂.ActorLocation).Size.toFloat = 5 →
      (PlayFootsteps w s).StepDistanceRemaining = 10 ∧
      emitted s (PlayFootsteps w s) = [] ∧
      (PlayFootsteps w₂ (PlayFootsteps w s)).StepDistanceRemaining = 150 ∧
      emitted (PlayFootsteps w s) (PlayFootsteps w₂ (PlayFootsteps w s))
        = emitted (PlayFootsteps w s) (RequestFootstep w₂ (PlayFootsteps w s)) ∧
      (PlayFootsteps w₃ (PlayFootsteps w₂ (PlayFootsteps w s))).StepDistanceRemaining = 145 ∧
      emitted (PlayFootsteps w₂ (PlayFootsteps w s))
        (PlayFootsteps w₃ (PlayFootsteps w₂ (PlayFootsteps w s))) = []) := by
  have step : ∀ (w : World) (s : UFootstepSoundComponent), IsMoving s.CachedMovementType →
      s.StepDistanceRemaining - (w.ActorLocation - s.LastStepLocation).Size.toFloat ≤ 0 →
      emitted s (PlayFootsteps w s) = emitted s (RequestFootstep w s) ∧
      (PlayFootsteps w s).StepDistanceRemaining = NextStepDistance s := by
    intro w s hm hr
    rw [PlayFootsteps_step_eq w s hm hr]
    exact ⟨rfl, rfl⟩
  refine ⟨PlayFootsteps_of_no_step w s hm, ?_, ?_⟩
  · intro hr
    obtain ⟨he, hd⟩ := step w s hm hr
    refine ⟨he, ?_, ?_, ?_, ?_⟩
    · rw [he]; exact RequestFootstep_playCount w s
    · intro curve hc h0
      rw [hd]; simp [NextStepDistance, hc, h0]
    · intro curve hc h0
      rw [hd]; simp [NextStepDistance, hc, h0]
    · intro hc
      rw [hd]; simp [NextStepDistance, hc]
  · intro curve w₂ w₃ hc h150 hspeed h20 hd₁ hd₂ hd₃
    have e₁ : PlayFootsteps w s =
        { s with LastStepLocation := w.ActorLocation, StepDistanceRemaining := 10 } := by
      have h10 : (20 : float) - 10 = 10 := by norm_num [Fl.ext_iff]
      rw [PlayFootsteps_of_no_step w s hm (by rw [h20, hd₁, h10]; norm_num [Fl.lt_def]), h20,
        hd₁, h10]
    have hm₁ : IsMoving (PlayFootsteps w s).CachedMovementType := by rw [e₁]; exact hm
    have hr₁ : (PlayFootsteps w s).StepDistanceRemaining
        - (w₂.ActorLocation - (PlayFootsteps w s).LastStepLocation).Size.toFloat ≤ 0 := by
      rw [e₁]
      show (10 : float) - (w₂.ActorLocation - w.ActorLocation).Size.toFloat ≤ 0
      rw [hd₂, Fl.sub_self]
    obtain ⟨he₂, hn₂⟩ := step w₂ (PlayFootsteps w s) hm₁ hr₁
    have h145 : (150 : float) - 5 = 145 := by norm_num [Fl.ext_iff]
    have hnext : NextStepDistance (PlayFootsteps w s) = 150 := by
      rw [e₁]
      norm_num [NextStepDistance, hc, hspeed, h150, Fl.ext_iff]
    have e₂ := PlayFootsteps_step_eq w₂ (PlayFootsteps w s) hm₁ hr₁
    have hm₂ : IsMoving (PlayFootsteps w₂ (PlayFootsteps w s)).CachedMovementType := by
      rw [e₂]; exact hm₁
    have hr₂ : 0 < (PlayFootsteps w₂ (PlayFootsteps w s)).StepDistanceRemaining
        - (w₃.ActorLocation - (PlayFootsteps w₂ (PlayFootsteps w s)).LastStepLocation).Size.toFloat := by
      rw [e₂]
      show 0 < NextStepDistance (PlayFootsteps w s)
        - (w₃.ActorLocation - w₂.ActorLocation).Size.toFloat
      rw [hnext, hd₃, h145]
      norm_num [Fl.lt_def]
    have e₃ := PlayFootsteps_of_no_step w₃ _ hm₂ hr₂
    refine ⟨by rw [e₁], by rw [e₁]; simp [emitted], by rw [hn₂, hnext], he₂, ?_, ?_⟩
    · rw [e₃]
      show (PlayFootsteps w₂ (PlayFootsteps w s)).StepDistanceRemaining
        - (w₃.ActorLocation - (PlayFootsteps w₂ (PlayFootsteps w s)).LastStepLocation).Size.toFloat = 145
      rw [e₂]
      show NextStepDistance (PlayFootsteps w s)
        - (w₃.ActorLocation - w₂.ActorLocation).Size.toFloat = 145
      rw [hnext, hd₃, h145]
    · rw [e₃]; simp [emitted]

/-- Claim C8 at a concrete input: the walking component (curve 150, 20 units
remaining, a second since the last sound) with the owner at 10, 20 and 25 units
along X: the remaining distance is 10, 150, 145 and the one footstep, sound 1
at full volume, is played on the second call. -/
theorem playFootsteps_cadence_witness :
    (PlayFootsteps firstStepWorld walkingComponent).StepDistanceRemaining = 10 ∧
    emitted walkingComponent (PlayFootsteps firstStepWorld walkingComponent) = [] ∧
    (PlayFootsteps strideWorld
      (PlayFootsteps firstStepWorld walkingComponent)).StepDistanceRemaining = 150 ∧
    emitted (PlayFootsteps firstStepWorld walkingComponent)
        (PlayFootsteps strideWorld (PlayFootsteps firstStepWorld walkingComponent))
      = emitted (PlayFootsteps firstStepWorld walkingComponent)
          (RequestFootstep strideWorld (PlayFootsteps firstStepWorld walkingComponent)) ∧
    (PlayFootsteps thirdStepWorld (PlayFootsteps strideWorld
      (PlayFootsteps firstStepWorld walkingComponent))).StepDistanceRemaining = 145 ∧
    emitted (PlayFootsteps strideWorld (PlayFootsteps firstStepWorld walkingComponent))
      (PlayFootsteps thirdStepWorld (PlayFootsteps strideWorld
        (PlayFootsteps firstStepWorld walkingComponent))) = [] :=
  (playFootsteps_cadence firstStepWorld walkingComponent (Or.inl rfl)).2.2
    (fun _ => 150) strideWorld thirdStepWorld rfl rfl rfl rfl
    firstStep_from_origin stride_from_firstStep thirdStep_from_stride

/-- The second call of the scene of claim C8 plays the footstep: sound 1 where
the owner stands, at volume 1. -/
theorem walking_second_step_plays :
    emitted (PlayFootsteps firstStepWorld walkingComponent)
        (PlayFootsteps strideWorld (PlayFootsteps firstStepWorld walkingComponent))
      = [Event.PlaySoundAtLocation 1 ⟨20, 0, 0⟩ 1, Event.OnFootstep] := by
  have e₁ : PlayFootsteps firstStepWorld walkingComponent = walkingAfterFirstStep := by
    have hd : (firstStepWorld.ActorLocation - walkingComponent.LastStepLocation).Size.toFloat
        = 10 := firstStep_from_origin
    have h10 : (20 : float) - 10 = 10 := by norm_num [Fl.ext_iff]
    rw [PlayFootsteps_of_no_step firstStepWorld walkingComponent (Or.inl rfl)
      (by rw [hd]; norm_num [walkingComponent, Fl.lt_def]), hd]
    norm_num [walkingAfterFirstStep, walkingComponent, firstStepWorld, exampleWorld, h10]
  have hd₂ : (strideWorld.ActorLocation - walkingAfterFirstStep.LastStepLocation).Size.toFloat
      = 10 := stride_from_firstStep
  have hr : walkingAfterFirstStep.StepDistanceRemaining
      - (strideWorld.ActorLocation - walkingAfterFirstStep.LastStepLocation).Size.toFloat
        ≤ 0 := by
    rw [hd₂]
    norm_num [walkingAfterFirstStep, Fl.le_def]
  have hreq : (RequestFootstep strideWorld walkingAfterFirstStep).log
      = walkingAfterFirstStep.log
        ++ [Event.PlaySoundAtLocation 1 ⟨20, 0, 0⟩ 1, Event.OnFootstep] := by
    norm_num [RequestFootstep, PickSoundSet, PlaySound, CalculateFootstepVolume,
      walkingAfterFirstStep, walkingComponent, exampleSounds, strideWorld, exampleWorld,
      Fl.le_def, val_defaultInterval]
  rw [e₁, PlayFootsteps_step_eq strideWorld walkingAfterFirstStep (Or.inl rfl) hr]
  exact emitted_append _ _ _ hreq

/-! ## Volumes -/

/-- Claim C9 on the code: a stopped component whose footstep volume curve is
worth 4/5 is ticked with the owner on the ground, upright, at speed 300. The
tick classifies `Walking`, sends `OnStartMoving` and plays the footstep at
volume 2/5, the crouch multiplier 1/2 times the curve, because the volume is
computed before `CachedMovementType` is updated; the claim asks for 1 times the
curve, 4/5. -/
theorem startedMoving_footstep_at_crouch_volume :
    (TickComponent walkingWorld (1 / 100) stoppedReadyComponent).CachedMovementType = Walking ∧
    emitted stoppedReadyComponent (TickComponent walkingWorld (1 / 100) stoppedReadyComponent)
      = [Event.OnStartMoving, Event.PlaySoundAtLocation 1 ⟨0, 0, 0⟩ (2 / 5),
         Event.OnFootstep] ∧
    stoppedReadyComponent.VolumeSpeedCurve = some (fun _ => 4 / 5) ∧
    stoppedReadyComponent.CrouchSoundMultiplier = 1 / 2 := by
  have h := TickComponent_stages walkingWorld (1 / 100) stoppedReadyComponent
    { stoppedReadyComponent with CachedSpeed := 300 }
    { stoppedReadyComponent with CachedSpeed := 300, SurfaceAge := 1 / 100 }
    { stoppedReadyComponent with
      CachedSpeed := 300
      SurfaceAge := 1 / 100
      log := [Event.OnStartMoving, Event.PlaySoundAtLocation 1 ⟨0, 0, 0⟩ (2 / 5),
              Event.OnFootstep]
      TimeSinceLastFootstep := 0
      CachedMovementType := Walking }
    { stoppedReadyComponent with
      CachedSpeed := 300
      SurfaceAge := 1 / 100
      log := [Event.OnStartMoving, Event.PlaySoundAtLocation 1 ⟨0, 0, 0⟩ (2 / 5),
              Event.OnFootstep]
      TimeSinceLastFootstep := 0
      CachedMovementType := Walking
      LastStepLocation := ⟨0, 0, 0⟩ }
    (by norm_num [UpdateSpeed, stoppedReadyComponent, walkingWorld, exampleWorld, Size_300])
    (by
      rw [if_neg (fun h => hundredth_le_resampleInterval h.1)]
      norm_num [stoppedReadyComponent, Fl.zero_add])
    (by norm_num [ReadMovementComponent, NewMovementType, OnStartMoving_Native, PlaySound,
      PickSoundSet, CalculateFootstepVolume, stoppedReadyComponent, exampleSounds, walkingWorld,
      exampleWorld, UE_SMALL_NUMBER_val, val_defaultInterval, half_mul_fourFifths, Fl.lt_def,
      Fl.le_def])
    (by norm_num [PlayFootsteps, stoppedReadyComponent, walkingWorld, exampleWorld,
      FVector.sub_def, FVector.ZeroVector, Fl.sub_zero, Size_0, Fl.le_def, Fl.ext_iff])
  rw [h]
  norm_num [emitted, stoppedReadyComponent, Fl.ext_iff, val_half, round_half]

/-- Claim C10 on the code: `CalculateLandingVolume` never reads
`LandingVolumeSpeedCurve`, it reads the footstep curve `VolumeSpeedCurve`. A
component in the air whose footstep curve is worth 1/4 and whose landing curve
is worth 3/4 is ticked with the owner at rest on the ground: the tick sends
`OnLand` and plays the land sound at volume 1/4, not 3/4. -/
theorem landing_volume_from_footstep_curve :
    (∀ (s : UFootstepSoundComponent) (curve : Option UCurveFloat),
      CalculateLandingVolume { s with LandingVolumeSpeedCurve := curve }
        = CalculateLandingVolume s) ∧
    airborneReadyComponent.LandingVolumeSpeedCurve = some (fun _ => 3 / 4) ∧
    emitted airborneReadyComponent
        (TickComponent standingWorld (1 / 100) airborneReadyComponent)
      = [Event.LineTraceSingleByChannel ⟨0, 0, 0⟩ ⟨0, 0, -98⟩, Event.OnLand,
         Event.PlaySoundAtLocation 3 ⟨0, 0, 0⟩ (1 / 4), Event.OnFootstep] := by
  refine ⟨fun s curve => rfl, rfl, ?_⟩
  have h := TickComponent_stages standingWorld (1 / 100) airborneReadyComponent
    airborneReadyComponent
    { airborneReadyComponent with SurfaceAge := 1 / 100 }
    { airborneReadyComponent with
      SurfaceAge := 1 / 100
      log := [Event.LineTraceSingleByChannel ⟨0, 0, 0⟩ ⟨0, 0, -98⟩, Event.OnLand,
              Event.PlaySoundAtLocation 3 ⟨0, 0, 0⟩ (1 / 4), Event.OnFootstep]
      TimeSinceLastFootstep := 0
      LastStepLocation := ⟨0, 0, 0⟩
      CachedMovementType := Stopped }
    { airborneReadyComponent with
      SurfaceAge := 1 / 100
      log := [Event.LineTraceSingleByChannel ⟨0, 0, 0⟩ ⟨0, 0, -98⟩, Event.OnLand,
              Event.PlaySoundAtLocation 3 ⟨0, 0, 0⟩ (1 / 4), Event.OnFootstep]
      TimeSinceLastFootstep := 0
      LastStepLocation := ⟨0, 0, 0⟩
      CachedMovementType := Stopped }
    (by norm_num [UpdateSpeed, airborneReadyComponent, standingWorld, exampleWorld, Size_0])
    (by
      rw [if_neg (fun h => hundredth_le_resampleInterval h.1)]
      norm_num [airborneReadyComponent, Fl.zero_add])
    (by norm_num [ReadMovementComponent, NewMovementType, OnLand_Native, UpdateSurface,
      PlaySound, PickSoundSet, CalculateLandingVolume, airborneReadyComponent, exampleSounds,
      standingWorld, exampleWorld, UE_SMALL_NUMBER_val, val_defaultInterval, Fl.lt_def,
      Fl.le_def, FVector.sub_def, Fl.sub_zero, Fl.toDouble, Fl.ext_iff])
    (by norm_num [PlayFootsteps])
  rw [h]
  norm_num [emitted, airborneReadyComponent]

/-! ## Lemmas: what each function leaves alone -/

/-- The members `PlaySound` can change are the log and the timer. -/
theorem PlaySound_frame (w : World) (Sound : Option USoundBase) (v : float)
    (s : UFootstepSoundComponent) :
    PlaySound w Sound v s =
      { s with
        log := (PlaySound w Sound v s).log
        TimeSinceLastFootstep := (PlaySound w Sound v s).TimeSinceLastFootstep } := by
  unfold PlaySound
  repeat' split
  all_goals rfl

/-- The members `UpdateSurface` can change are the log and the cached surface. -/
theorem UpdateSurface_frame (w : World) (s : UFootstepSoundComponent) :
    UpdateSurface w s =
      { s with
        log := (UpdateSurface w s).log
        CachedPhysicalSurface := (UpdateSurface w s).CachedPhysicalSurface } := by
  unfold UpdateSurface
  dsimp only
  repeat' split
  all_goals rfl

/-- The members `OnJump_Native` can change are the log and the timer. -/
theorem OnJump_Native_frame (w : World) (s : UFootstepSoundComponent) :
    OnJump_Native w s =
      { s with
        log := (OnJump_Native w s).log
        TimeSinceLastFootstep := (OnJump_Native w s).TimeSinceLastFootstep } := by
  unfold OnJump_Native PlaySound
  dsimp only
  repeat' split
  all_goals rfl

/-- The members `OnLand_Native` can change are the log, the timer, the cached
surface and the location of the last step. -/
theorem OnLand_Native_frame (w : World) (s : UFootstepSoundComponent) :
    OnLand_Native w s =
      { s with
        log := (OnLand_Native w s).log
        TimeSinceLastFootstep := (OnLand_Native w s).TimeSinceLastFootstep
        CachedPhysicalSurface := (OnLand_Native w s).CachedPhysicalSurface
        LastStepLocation := (OnLand_Native w s).LastStepLocation } := by
  unfold OnLand_Native PlaySound UpdateSurface
  dsimp only
  repeat' split
  all_goals rfl

/-- The members `ReadMovementComponent` can change are the log, the timer, the
cached surface, the location of the last step and the movement type. -/
theorem ReadMovementComponent_frame (w : World) (s : UFootstepSoundComponent) :
    ReadMovementComponent w s =
      { s with
        log := (ReadMovementComponent w s).log
        TimeSinceLastFootstep := (ReadMovementComponent w s).TimeSinceLastFootstep
        CachedPhysicalSurface := (ReadMovementComponent w s).CachedPhysicalSurface
        LastStepLocation := (ReadMovementComponent w s).LastStepLocation
        CachedMovementType := (ReadMovementComponent w s).CachedMovementType } := by
  unfold ReadMovementComponent
  dsimp only
  split_ifs
  · rw [OnLand_Native_frame]
  · rw [show OnStopMoving_Native w s
      = RequestFootstep w { s with log := s.log ++ [Event.OnStopMoving] } from rfl,
      RequestFootstep_frame]
  · rw [show OnStartMoving_Native w s
      = RequestFootstep w { s with log := s.log ++ [Event.OnStartMoving] } from rfl,
      RequestFootstep_frame]
  · rfl
  · rfl

/-- The members `PlayFootsteps` can change are the log, the timer, the location
of the last step and `StepDistanceRemaining`. -/
theorem PlayFootsteps_frame (w : World) (s : UFootstepSoundComponent) :
    PlayFootsteps w s =
      { s with
        log := (PlayFootsteps w s).log
        TimeSinceLastFootstep := (PlayFootsteps w s).TimeSinceLastFootstep
        LastStepLocation := (PlayFootsteps w s).LastStepLocation
        StepDistanceRemaining := (PlayFootsteps w s).StepDistanceRemaining } := by
  by_cases hm : IsMoving s.CachedMovementType
  · by_cases hr : s.StepDistanceRemaining - (w.ActorLocation - s.LastStepLocation).Size.toFloat ≤ 0
    · rw [PlayFootsteps_step_eq w s hm hr]
    · rw [PlayFootsteps_of_no_step w s hm (not_le.mp hr)]
  · rw [PlayFootsteps_of_not_moving w s hm]

/-! ## Lemmas: silence -/

/-- What `UpdateSurface` sends is nothing or one line trace, and it leaves the
timer alone. -/
theorem UpdateSurface_log (w : World) (s : UFootstepSoundComponent) :
    (UpdateSurface w s).TimeSinceLastFootstep = s.TimeSinceLastFootstep ∧
    ((UpdateSurface w s).log = s.log ∨
      (w.IsValidWorld = true ∧ (UpdateSurface w s).log = s.log ++
        [Event.LineTraceSingleByChannel w.ActorLocation (w.ActorLocation -
          ⟨0, 0, (w.ScaledCapsuleHalfHeight + s.ActorOnGroundDistance).toDouble⟩)])) := by
  unfold UpdateSurface
  dsimp only
  cases hv : w.IsValidWorld
  · simp
  · simp only [Bool.not_true, Bool.false_eq_true, if_false, true_and]
    repeat' split
    all_goals exact ⟨rfl, Or.inr rfl⟩

theorem Silent.of_log_eq {s s' : UFootstepSoundComponent} (hl : s'.log = s.log)
    (ht : s'.TimeSinceLastFootstep = s.TimeSinceLastFootstep) : Silent s s' := by
  simp [Silent, emitted, hl, ht, playCount]

theorem Silent.of_append {s s' : UFootstepSoundComponent} (l : List Event)
    (hl : s'.log = s.log ++ l) (hp : playCount l = 0) (hf : Event.OnFootstep ∉ l)
    (ht : s'.TimeSinceLastFootstep = s.TimeSinceLastFootstep) : Silent s s' := by
  rw [Silent, emitted_append s s' l hl]
  exact ⟨hp, hf, ht⟩

/-- A request whose sound is missing leaves the component as it is. -/
theorem MissingClip.request {s : UFootstepSoundComponent}
    {clip : UFootstepSoundSet → Option USoundBase} (h : MissingClip s clip) (w : World) (v : float) :
    (match s.PickSoundSet with
      | some SoundSet => PlaySound w (clip SoundSet) v s
      | none => s) = s := by
  rcases h with h | h | ⟨SoundSet, h, hc⟩
  · simp [PickSoundSet, h]
  · simp [PickSoundSet, h]
  · simp [PickSoundSet, PlaySound, h, hc]

theorem RequestFootstep_of_missing (w : World) (s : UFootstepSoundComponent)
    (h : MissingClip s UFootstepSoundSet.Footstep) : RequestFootstep w s = s :=
  h.request w s.CalculateFootstepVolume

/-! ## Missing sounds and missed probes -/

/-- Claim C11: when the sound sets have no entry for the cached surface, or
the entry is a null set, or the sound the request selects from the set is
null, the request plays nothing: no sound is handed to `PlaySoundAtLocation`,
`OnFootstep` is not broadcast and `TimeSinceLastFootstep` is not reset. This
holds for `RegisterJump` (the jump sound), for `OnStartMoving_Native`,
`OnStopMoving_Native` and the cadence step of `PlayFootsteps` (the footstep
sound), and for `OnLand_Native` (the land sound, looked up for the surface
cached after its resample). Each function is total, so the call returns. -/
theorem missing_sound_plays_nothing (w : World) (s : UFootstepSoundComponent) :
    (MissingClip s UFootstepSoundSet.Jump → Silent s (RegisterJump w s)) ∧
    (MissingClip s UFootstepSoundSet.Footstep → Silent s (OnStartMoving_Native w s)) ∧
    (MissingClip s UFootstepSoundSet.Footstep → Silent s (OnStopMoving_Native w s)) ∧
    (MissingClip s UFootstepSoundSet.Footstep → Silent s (PlayFootsteps w s)) ∧
    (MissingClip (UpdateSurface w s) UFootstepSoundSet.Land → Silent s (OnLand_Native w s)) := by
  refine ⟨?_, ?_, ?_, ?_, ?_⟩
  · intro h
    have e : RegisterJump w s = { s with log := s.log ++ [Event.OnJump] } :=
      MissingClip.request (s := { s with log := s.log ++ [Event.OnJump] }) h w 1
    rw [e]
    exact Silent.of_append [Event.OnJump] rfl rfl (by simp) rfl
  · intro h
    have e : OnStartMoving_Native w s = { s with log := s.log ++ [Event.OnStartMoving] } :=
      RequestFootstep_of_missing w { s with log := s.log ++ [Event.OnStartMoving] } h
    rw [e]
    exact Silent.of_append [Event.OnStartMoving] rfl rfl (by simp) rfl
  · intro h
    have e : OnStopMoving_Native w s = { s with log := s.log ++ [Event.OnStopMoving] } :=
      RequestFootstep_of_missing w { s with log := s.log ++ [Event.OnStopMoving] } h
    rw [e]
    exact Silent.of_append [Event.OnStopMoving] rfl rfl (by simp) rfl
  · intro h
    by_cases hm : IsMoving s.CachedMovementType
    · by_cases hr : s.StepDistanceRemaining - (w.ActorLocation - s.LastStepLocation).Size.toFloat ≤ 0
      · rw [PlayFootsteps_step_eq w s hm hr, RequestFootstep_of_missing w s h]
        exact Silent.of_log_eq rfl rfl
      · rw [PlayFootsteps_of_no_step w s hm (not_le.mp hr)]
        exact Silent.of_log_eq rfl rfl
    · rw [PlayFootsteps_of_not_moving w s hm]
      exact Silent.of_log_eq rfl rfl
  · intro h
    have e : OnLand_Native w s =
        { UpdateSurface w s with
          log := (UpdateSurface w s).log ++ [Event.OnLand]
          LastStepLocation := w.ActorLocation } := by
      have h' := MissingClip.request
        (s := { UpdateSurface w s with log := (UpdateSurface w s).log ++ [Event.OnLand] }) h w
        (CalculateLandingVolume (UpdateSurface w s))
      show ({ (match PickSoundSet { UpdateSurface w s with
                  log := (UpdateSurface w s).log ++ [Event.OnLand] } with
              | some SoundSet => PlaySound w SoundSet.Land
                  (CalculateLandingVolume (UpdateSurface w s))
                  { UpdateSurface w s with log := (UpdateSurface w s).log ++ [Event.OnLand] }
              | none => { UpdateSurface w s with
                  log := (UpdateSurface w s).log ++ [Event.OnLand] }) with
            LastStepLocation := w.ActorLocation } : UFootstepSoundComponent) = _
      rw [h']
    obtain ⟨ht, hl | ⟨_, hl⟩⟩ := UpdateSurface_log w s
    · rw [e]
      exact Silent.of_append [Event.OnLand] (by simp [hl]) rfl (by simp) ht
    · rw [e]
      exact Silent.of_append
        [Event.LineTraceSingleByChannel w.ActorLocation (w.ActorLocation -
          ⟨0, 0, (w.ScaledCapsuleHalfHeight + s.ActorOnGroundDistance).toDouble⟩), Event.OnLand]
        (by simp [hl]) rfl (by simp) ht

/-- Claim C11 at a concrete input: the sound sets have an entry for the
default surface only and the cached surface is surface 7; a jump a second after
the last sound plays nothing. -/
theorem missing_sound_plays_nothing_witness :
    Silent waterComponent (RegisterJump standingWorld waterComponent) :=
  (missing_sound_plays_nothing standingWorld waterComponent).1
    (Or.inl (by simp [waterComponent]))

/-- Claim C12: when the probe of `UpdateSurface` returns no hit, or a hit
without a physical material, the cached surface is after the call what it was
before; so it is after `OnLand_Native` (the resample forced by a landing) and
after a whole tick (throttled resample included), whatever the cached surface
was. -/
theorem missed_probe_keeps_surface (w : World) (s : UFootstepSoundComponent)
    (h : ProbeMisses w s) :
    (UpdateSurface w s).CachedPhysicalSurface = s.CachedPhysicalSurface ∧
    (OnLand_Native w s).CachedPhysicalSurface = s.CachedPhysicalSurface ∧
    (∀ dt : float, (TickComponent w dt s).CachedPhysicalSurface = s.CachedPhysicalSurface) := by
  have hU : ∀ s' : UFootstepSoundComponent, s'.ActorOnGroundDistance = s.ActorOnGroundDistance →
      (UpdateSurface w s').CachedPhysicalSurface = s'.CachedPhysicalSurface := by
    intro s' hd
    unfold ProbeMisses at h
    rw [← hd] at h
    unfold UpdateSurface
    dsimp only
    split
    · rfl
    · rcases h with h | ⟨OutHit, h, hp⟩
      · simp [h]
      · simp [h, hp]
  have hL : ∀ s' : UFootstepSoundComponent, s'.ActorOnGroundDistance = s.ActorOnGroundDistance →
      (OnLand_Native w s').CachedPhysicalSurface = s'.CachedPhysicalSurface := by
    intro s' hd
    have : (OnLand_Native w s').CachedPhysicalSurface
        = (UpdateSurface w s').CachedPhysicalSurface := by
      unfold OnLand_Native
      dsimp only
      split
      · rw [PlaySound_frame]
      · rfl
    rw [this, hU s' hd]
  have hR : ∀ s' : UFootstepSoundComponent, s'.ActorOnGroundDistance = s.ActorOnGroundDistance →
      (ReadMovementComponent w s').CachedPhysicalSurface = s'.CachedPhysicalSurface := by
    intro s' hd
    unfold ReadMovementComponent
    dsimp only
    split_ifs
    · exact hL s' hd
    · show (RequestFootstep w { s' with log := s'.log ++ [Event.OnStopMoving] }).CachedPhysicalSurface
        = s'.CachedPhysicalSurface
      rw [RequestFootstep_frame]
    · show (RequestFootstep w { s' with log := s'.log ++ [Event.OnStartMoving] }).CachedPhysicalSurface
        = s'.CachedPhysicalSurface
      rw [RequestFootstep_frame]
    · rfl
    · rfl
  refine ⟨hU s rfl, hL s rfl, ?_⟩
  intro dt
  have hT : (ThrottledSurface w dt (UpdateSpeed w s)).CachedPhysicalSurface
        = s.CachedPhysicalSurface ∧
      (ThrottledSurface w dt (UpdateSpeed w s)).ActorOnGroundDistance
        = s.ActorOnGroundDistance := by
    unfold ThrottledSurface
    split
    · constructor
      · exact hU _ rfl
      · rw [UpdateSurface_frame]; rfl
    · exact ⟨rfl, rfl⟩
  rw [TickComponent_eq]
  show (PlayFootsteps w (ReadMovementComponent w
    (ThrottledSurface w dt (UpdateSpeed w s)))).CachedPhysicalSurface = _
  rw [PlayFootsteps_frame]
  show (ReadMovementComponent w (ThrottledSurface w dt (UpdateSpeed w s))).CachedPhysicalSurface
    = _
  rw [hR _ hT.2, hT.1]

/-- Claim C12 at a concrete input: the cached surface is surface 3, the surface
age a tenth of a second, the owner strides at speed 300 over nothing the probe
can hit; after a tick, throttled resample included, the cached surface is
still surface 3. -/
theorem missed_probe_keeps_surface_witness :
    (TickComponent strideWorld 1 concreteComponent).CachedPhysicalSurface = 3 :=
  (missed_probe_keeps_surface strideWorld concreteComponent (Or.inl rfl)).2.2 1

/-! ## Lemmas: the surface age -/

theorem TickAfterSurface_SurfaceAge (w : World) (dt : float) (s : UFootstepSoundComponent) :
    (TickAfterSurface w dt s).SurfaceAge = s.SurfaceAge := by
  show (PlayFootsteps w (ReadMovementComponent w s)).SurfaceAge = s.SurfaceAge
  rw [PlayFootsteps_frame]
  show (ReadMovementComponent w s).SurfaceAge = s.SurfaceAge
  rw [ReadMovementComponent_frame]

/-- A tick that makes the throttled resample samples the surface with the
surface age back at 0, then does the rest of the tick. -/
theorem TickComponent_of_resample (w : World) (dt : float) (s : UFootstepSoundComponent)
    (h : (Call.Tick w dt).Resamples s) :
    TickComponent w dt s =
      TickAfterSurface w dt (UpdateSurface w { UpdateSpeed w s with SurfaceAge := 0 }) := by
  have h' : (UpdateSpeed w s).SurfaceAge + dt > 0.05 ∧
      (UpdateSpeed w s).CachedSpeed > UE_SMALL_NUMBER := h
  rw [TickComponent_eq]
  show TickAfterSurface w dt (ThrottledSurface w dt (UpdateSpeed w s)) = _
  rw [ThrottledSurface, if_pos h']

/-- A tick that does not make the throttled resample lets the surface age grow
by the tick delta, then does the rest of the tick. -/
theorem TickComponent_of_no_resample (w : World) (dt : float) (s : UFootstepSoundComponent)
    (h : ¬ (Call.Tick w dt).Resamples s) :
    TickComponent w dt s =
      TickAfterSurface w dt { UpdateSpeed w s with SurfaceAge := s.SurfaceAge + dt } := by
  have h' : ¬ ((UpdateSpeed w s).SurfaceAge + dt > 0.05 ∧
      (UpdateSpeed w s).CachedSpeed > UE_SMALL_NUMBER) := h
  rw [TickComponent_eq]
  show TickAfterSurface w dt (ThrottledSurface w dt (UpdateSpeed w s)) = _
  rw [ThrottledSurface, if_neg h']
  rfl

theorem Call.apply_SurfaceAge_of_no_resample (c : Call) (s : UFootstepSoundComponent)
    (h : ¬ c.Resamples s) : (c.apply s).SurfaceAge = s.SurfaceAge + c.DeltaTime := by
  cases c with
  | Tick w dt =>
    show (TickComponent w dt s).SurfaceAge = _
    rw [TickComponent_of_no_resample w dt s h, TickAfterSurface_SurfaceAge]
    rfl
  | Jump w =>
    show (OnJump_Native w s).SurfaceAge = s.SurfaceAge + 0
    rw [OnJump_Native_frame, Fl.add_zero]

theorem Call.apply_SurfaceAge_of_resample (c : Call) (s : UFootstepSoundComponent)
    (h : c.Resamples s) : (c.apply s).SurfaceAge = 0 := by
  cases c with
  | Tick w dt =>
    show (TickComponent w dt s).SurfaceAge = _
    rw [TickComponent_of_resample w dt s h, TickAfterSurface_SurfaceAge, UpdateSurface_frame]
  | Jump w => exact absurd h (fun h => h)

/-- Through calls that make no throttled resample the surface age is advanced
by the tick deltas, one rounded addition after the other. -/
theorem run_SurfaceAge (calls : List Call) (s : UFootstepSoundComponent)
    (h : NoResample s calls) :
    (run s calls).SurfaceAge = accumulate s.SurfaceAge (calls.map Call.DeltaTime) := by
  induction calls generalizing s with
  | nil => rfl
  | cons c cs ih =>
    rw [run, ih (c.apply s) h.2, c.apply_SurfaceAge_of_no_resample s h.1, List.map_cons,
      accumulate]

/-- Ticks with the owner at rest make no throttled resample. -/
theorem NoResample_at_rest (w : World) (hv : w.Velocity = ⟨0, 0, 0⟩) (deltas : List float)
    (s : UFootstepSoundComponent) : NoResample s (deltas.map (Call.Tick w)) := by
  induction deltas generalizing s with
  | nil => trivial
  | cons d ds ih =>
    refine ⟨fun h => ?_, ih _⟩
    have h2 : w.Velocity.Size.toFloat > UE_SMALL_NUMBER := h.2
    rw [hv, Size_0] at h2
    exact absurd h2 (not_lt.mpr UE_SMALL_NUMBER_pos.le)

/-- The `float` nearest to 0.0025, the tick delta of the scene
`nineteenShortTicks`. -/
theorem val_shortDelta : shortDelta.val = 5368709 / 2147483648 := by
  have h := binary32.round_eq (x := 0.0025) (-9) (-32) 10737418 (by norm_num) (by norm_num)
    (by norm_num) (by constructor <;> norm_num)
  rw [shortDelta, Fl.val_ofScientific]
  norm_num at h ⊢
  exact h

/-- Twenty additions of `shortDelta` to a surface age at 0, each rounded to
`float`: the sum ends at 6710887 / 134217728, above the `float` 0.05. -/
theorem accumulate_twenty_short :
    (accumulate 0 (List.replicate 19 shortDelta) + shortDelta).val = 6710887 / 134217728 := by
  have h1 : binary32.round (5368709 / 2147483648) = 5368709 / 2147483648 := by
    have h := binary32.round_eq (x := 5368709 / 2147483648) (-9) (-32) 10737418
      (by norm_num) (by norm_num) (by norm_num) (by constructor <;> norm_num)
    norm_num at h ⊢
    exact h
  have h2 : binary32.round (5368709 / 1073741824) = 5368709 / 1073741824 := by
    have h := binary32.round_eq (x := 5368709 / 1073741824) (-8) (-31) 10737418
      (by norm_num) (by norm_num) (by norm_num) (by constructor <;> norm_num)
    norm_num at h ⊢
    exact h
  have h3 : binary32.round (16106127 / 2147483648) = 16106127 / 2147483648 := by
    have h := binary32.round_eq (x := 16106127 / 2147483648) (-8) (-31) 16106127
      (by norm_num) (by norm_num) (by norm_num) (by constructor <;> norm_num)
    norm_num at h ⊢
    exact h
  have h4 : binary32.round (5368709 / 536870912) = 5368709 / 536870912 := by
    have h := binary32.round_eq (x := 5368709 / 536870912) (-7) (-30) 10737418
      (by norm_num) (by norm_num) (by norm_num) (by constructor <;> norm_num)
    norm_num at h ⊢
    exact h
  have h5 : binary32.round (26843545 / 2147483648) = 3355443 / 268435456 := by
    have h := binary32.round_eq_of_tie (x := 26843545 / 2147483648) (-7) (-30) 13421772
      (by norm_num) (by norm_num) (by norm_num) (by norm_num) (Or.inl (by norm_num))
    norm_num at h ⊢
    exact h
  have h6 : binary32.round (32212253 / 2147483648) = 8053063 / 536870912 := by
    have h := binary32.round_eq_of_tie (x := 32212253 / 2147483648) (-7) (-30) 16106126
      (by norm_num) (by norm_num) (by norm_num) (by norm_num) (Or.inl (by norm_num))
    norm_num at h ⊢
    exact h
  have h7 : binary32.round (37580961 / 2147483648) = 1174405 / 67108864 := by
    have h := binary32.round_eq (x := 37580961 / 2147483648) (-6) (-29) 9395240
      (by norm_num) (by norm_num) (by norm_num) (by constructor <;> norm_num)
    norm_num at h ⊢
    exact h
  have h8 : binary32.round (42949669 / 2147483648) = 10737417 / 536870912 := by
    have h := binary32.round_eq (x := 42949669 / 2147483648) (-6) (-29) 10737417
      (by norm_num) (by norm_num) (by norm_num) (by constructor <;> norm_num)
    norm_num at h ⊢
    exact h
  have h9 : binary32.round (48318377 / 2147483648) = 6039797 / 268435456 := by
    have h := binary32.round_eq (x := 48318377 / 2147483648) (-6) (-29) 12079594
      (by norm_num) (by norm_num) (by norm_num) (by constructor <;> norm_num)
    norm_num at h ⊢
    exact h
  have h10 : binary32.round (53687085 / 2147483648) = 13421771 / 536870912 := by
    have h := binary32.round_eq (x := 53687085 / 2147483648) (-6) (-29) 13421771
      (by norm_num) (by norm_num) (by norm_num) (by constructor <;> norm_num)
    norm_num at h ⊢
    exact h
  have h11 : binary32.round (59055793 / 2147483648) = 3690987 / 134217728 := by
    have h := binary32.round_eq (x := 59055793 / 2147483648) (-6) (-29) 14763948
      (by norm_num) (by norm_num) (by norm_num) (by constructor <;> norm_num)
    norm_num at h ⊢
    exact h
  have h12 : binary32.round (64424501 / 2147483648) = 16106125 / 536870912 := by
    have h := binary32.round_eq (x := 64424501 / 2147483648) (-6) (-29) 16106125
      (by norm_num) (by norm_num) (by norm_num) (by constructor <;> norm_num)
    norm_num at h ⊢
    exact h
  have h13 : binary32.round (69793209 / 2147483648) = 8724151 / 268435456 := by
    have h := binary32.round_eq (x := 69793209 / 2147483648) (-5) (-28) 8724151
      (by norm_num) (by norm_num) (by norm_num) (by constructor <;> norm_num)
    norm_num at h ⊢
    exact h
  have h14 : binary32.round (75161917 / 2147483648) = 1174405 / 33554432 := by
    have h := binary32.round_eq (x := 75161917 / 2147483648) (-5) (-28) 9395240
      (by norm_num) (by norm_num) (by norm_num) (by constructor <;> norm_num)
    norm_num at h ⊢
    exact h
  have h15 : binary32.round (80530629 / 2147483648) = 10066329 / 268435456 := by
    have h := binary32.round_eq (x := 80530629 / 2147483648) (-5) (-28) 10066329
      (by norm_num) (by norm_num) (by norm_num) (by constructor <;> norm_num)
    norm_num at h ⊢
    exact h
  have h16 : binary32.round (85899341 / 2147483648) = 5368709 / 134217728 := by
    have h := binary32.round_eq (x := 85899341 / 2147483648) (-5) (-28) 10737418
      (by norm_num) (by norm_num) (by norm_num) (by constructor <;> norm_num)
    norm_num at h ⊢
    exact h
  have h17 : binary32.round (91268053 / 2147483648) = 11408507 / 268435456 := by
    have h := binary32.round_eq (x := 91268053 / 2147483648) (-5) (-28) 11408507
      (by norm_num) (by norm_num) (by norm_num) (by constructor <;> norm_num)
    norm_num at h ⊢
    exact h
  have h18 : binary32.round (96636765 / 2147483648) = 3019899 / 67108864 := by
    have h := binary32.round_eq (x := 96636765 / 2147483648) (-5) (-28) 12079596
      (by norm_num) (by norm_num) (by norm_num) (by constructor <;> norm_num)
    norm_num at h ⊢
    exact h
  have h19 : binary32.round (102005477 / 2147483648) = 12750685 / 268435456 := by
    have h := binary32.round_eq (x := 102005477 / 2147483648) (-5) (-28) 12750685
      (by norm_num) (by norm_num) (by norm_num) (by constructor <;> norm_num)
    norm_num at h ⊢
    exact h
  have h20 : binary32.round (107374189 / 2147483648) = 6710887 / 134217728 := by
    have h := binary32.round_eq (x := 107374189 / 2147483648) (-5) (-28) 13421774
      (by norm_num) (by norm_num) (by norm_num) (by constructor <;> norm_num)
    norm_num at h ⊢
    exact h
  have hl : List.replicate 19 shortDelta = [shortDelta, shortDelta, shortDelta, shortDelta, shortDelta, shortDelta, shortDelta, shortDelta, shortDelta, shortDelta, shortDelta, shortDelta, shortDelta, shortDelta, shortDelta, shortDelta, shortDelta, shortDelta, shortDelta] := rfl
  rw [hl]
  simp only [accumulate, Fl.val_add, Fl.val_zero, val_shortDelta]
  norm_num [h1, h2, h3, h4, h5, h6, h7, h8, h9, h10, h11, h12, h13, h14, h15, h16, h17, h18, h19, h20]

/-- The fresh component after the nineteen ticks of `nineteenShortTicks`: only
the surface age and the timer have moved. -/
theorem fresh_after_short_ticks :
    run freshComponent nineteenShortTicks =
      { freshComponent with
        SurfaceAge := accumulate 0 (List.replicate 19 shortDelta)
        TimeSinceLastFootstep := accumulate 0 (List.replicate 19 shortDelta) } := by
  rw [nineteenShortTicks, run_at_rest standingWorld rfl rfl _ _ rfl rfl]
  rfl

/-- The `float` sum of the `float`s nearest to 1/25 and to 1/50 is above the
`float` nearest to 0.05. -/
theorem twoTicks_above_interval :
    accumulate 0 ([Call.Tick standingWorld (1 / 25)].map Call.DeltaTime ++ [1 / 50])
      > (0.05 : float) := by
  have h1 : binary32.round (1 / 25) = 5368709 / 134217728 := by
    have h := binary32.round_eq (x := 1 / 25) (-5) (-28) 10737418
      (by norm_num) (by norm_num) (by norm_num) (by constructor <;> norm_num)
    norm_num at h ⊢
    exact h
  have h2 : binary32.round (1 / 50) = 5368709 / 268435456 := by
    have h := binary32.round_eq (x := 1 / 50) (-6) (-29) 10737418
      (by norm_num) (by norm_num) (by norm_num) (by constructor <;> norm_num)
    norm_num at h ⊢
    exact h
  have h3 : binary32.round (5368709 / 134217728) = 5368709 / 134217728 := by
    have h := binary32.round_eq (x := 5368709 / 134217728) (-5) (-28) 10737418
      (by norm_num) (by norm_num) (by norm_num) (by constructor <;> norm_num)
    norm_num at h ⊢
    exact h
  have h4 : binary32.round (16106127 / 268435456) = 16106127 / 268435456 := by
    have h := binary32.round_eq (x := 16106127 / 268435456) (-5) (-28) 16106127
      (by norm_num) (by norm_num) (by norm_num) (by constructor <;> norm_num)
    norm_num at h ⊢
    exact h
  simp only [List.map, Call.DeltaTime, List.cons_append, List.nil_append, accumulate]
  norm_num [Fl.lt_def, val_resampleInterval, h1, h2, h3, h4]

/-! ## The throttled resample -/

/-- Claim C13, as stated, fails: a fresh component (surface age 0) is ticked
nineteen times for 0.0025 with the owner at rest, which makes no throttled
resample, and then once more for 0.0025 with the owner at speed 300. The
twenty tick deltas sum to 26843545 / 2 ^ 29, below 0.05 and below the `float`
nearest to 0.05; the twenty rounded additions bring the surface age to
6710887 / 2 ^ 27, above both, and the twentieth tick makes the throttled
resample. -/
theorem resample_before_interval :
    freshComponent.SurfaceAge = 0 ∧
    (∀ c ∈ nineteenShortTicks, 0 ≤ c.DeltaTime) ∧
    NoResample freshComponent nineteenShortTicks ∧
    (Call.Tick strideWorld shortDelta).Resamples (run freshComponent nineteenShortTicks) ∧
    ((nineteenShortTicks.map Call.DeltaTime).map Fl.val).sum + shortDelta.val < 1 / 20 ∧
    (1 / 20 : ℚ) < (0.05 : float).val := by
  refine ⟨rfl, ?_, NoResample_at_rest standingWorld rfl _ _, ?_, ?_, ?_⟩
  · intro c hc
    simp only [nineteenShortTicks, List.mem_map, List.mem_replicate] at hc
    obtain ⟨d, ⟨-, rfl⟩, rfl⟩ := hc
    norm_num [Call.DeltaTime, Fl.le_def, val_shortDelta]
  · rw [fresh_after_short_ticks]
    refine ⟨?_, ?_⟩
    · show accumulate 0 (List.replicate 19 shortDelta) + shortDelta > 0.05
      rw [gt_iff_lt, Fl.lt_def, accumulate_twenty_short, val_resampleInterval]
      norm_num
    · show strideWorld.Velocity.Size.toFloat > UE_SMALL_NUMBER
      norm_num [strideWorld, exampleWorld, Size_300, Fl.lt_def, UE_SMALL_NUMBER_val]
  · norm_num [nineteenShortTicks, Call.DeltaTime, List.replicate, val_shortDelta]
  · norm_num [val_resampleInterval]

/-- Claim C13, amended: a tick samples the surface in its surface block
exactly when the surface age grown by the tick delta (a `float` addition) is
above the `float` 0.05 and the owner's speed is above `UE_SMALL_NUMBER`: then
it calls `UpdateSurface` with the surface age back at 0, otherwise it only
lets the surface age grow. Starting from a surface age of 0 (a fresh
component, or the state after a throttled resample), after calls without a
throttled resample a tick makes one if and only if the tick deltas, its own
included, added one after the other with each sum rounded to `float`, come to
more than the `float` 0.05 and the speed is above `UE_SMALL_NUMBER`. So
between two throttled resamples the rounded sum of the tick deltas has passed
0.05, and a tick with a speed of at most `UE_SMALL_NUMBER` makes none. -/
theorem throttled_resample :
    (∀ (w : World) (dt : float) (s : UFootstepSoundComponent),
      ((Call.Tick w dt).Resamples s →
        TickComponent w dt s =
          TickAfterSurface w dt (UpdateSurface w { UpdateSpeed w s with SurfaceAge := 0 }) ∧
        (TickComponent w dt s).SurfaceAge = 0) ∧
      (¬ (Call.Tick w dt).Resamples s →
        TickComponent w dt s =
          TickAfterSurface w dt { UpdateSpeed w s with SurfaceAge := s.SurfaceAge + dt } ∧
        (TickComponent w dt s).SurfaceAge = s.SurfaceAge + dt)) ∧
    (∀ (s : UFootstepSoundComponent) (calls : List Call) (w : World) (dt : float),
      s.SurfaceAge = 0 → NoResample s calls →
      ((Call.Tick w dt).Resamples (run s calls) ↔
        accumulate 0 (calls.map Call.DeltaTime ++ [dt]) > 0.05 ∧
          w.Velocity.Size.toFloat > UE_SMALL_NUMBER)) ∧
    (∀ (s : UFootstepSoundComponent) (c : Call) (calls : List Call) (c' : Call),
      c.Resamples s → NoResample (c.apply s) calls → c'.Resamples (run (c.apply s) calls) →
      accumulate 0 (calls.map Call.DeltaTime ++ [c'.DeltaTime]) > 0.05) ∧
    (∀ (w : World) (dt : float) (s : UFootstepSoundComponent),
      w.Velocity.Size.toFloat ≤ UE_SMALL_NUMBER → ¬ (Call.Tick w dt).Resamples s) := by
  refine ⟨?_, ?_, ?_, ?_⟩
  · intro w dt s
    constructor
    · intro h
      exact ⟨TickComponent_of_resample w dt s h,
        (Call.Tick w dt).apply_SurfaceAge_of_resample s h⟩
    · intro h
      exact ⟨TickComponent_of_no_resample w dt s h,
        (Call.Tick w dt).apply_SurfaceAge_of_no_resample s h⟩
  · intro s calls w dt h0 hq
    show (run s calls).SurfaceAge + dt > 0.05 ∧ w.Velocity.Size.toFloat > UE_SMALL_NUMBER ↔ _
    rw [run_SurfaceAge calls s hq, h0, accumulate_append]
    rfl
  · intro s c calls c' hc hq hc'
    have h0 := c.apply_SurfaceAge_of_resample s hc
    cases c' with
    | Tick w dt =>
      have h : (run (c.apply s) calls).SurfaceAge + dt > 0.05 := hc'.1
      rw [run_SurfaceAge calls _ hq, h0] at h
      rw [accumulate_append]
      exact h
    | Jump w => exact absurd hc' (fun h => h)
  · intro w dt s hv h
    exact absurd h.2 (not_lt.mpr hv)

/-- Claim C13 at a concrete input: a fresh component is ticked for 1/25 with
the owner at rest (no resample), then for 1/50 with the owner at speed 300:
the rounded sum of the two deltas is 16106127 / 2 ^ 28, above the `float`
0.05, and the second tick makes the throttled resample. -/
theorem throttled_resample_witness :
    (Call.Tick strideWorld (1 / 50)).Resamples
      (run freshComponent [Call.Tick standingWorld (1 / 25)]) :=
  (throttled_resample.2.1 freshComponent [Call.Tick standingWorld (1 / 25)] strideWorld (1 / 50)
    rfl (NoResample_at_rest standingWorld rfl [1 / 25] freshComponent)).mpr
    ⟨twoTicks_above_interval,
     by norm_num [strideWorld, exampleWorld, Size_300, UE_SMALL_NUMBER_val, Fl.lt_def]⟩

/-! ## The jump -/

/-- Claim C14: `RegisterJump` broadcasts `OnJump` first, whatever the state.
When the sound sets give a jump sound for the cached surface and
`TimeSinceLastFootstep` has reached `MinimumSoundInterval`, it then plays that
sound at volume 1, broadcasts `OnFootstep` and leaves the timer at 0; when the
sound is missing or the timer is below the minimum interval, `OnJump` is all
it sends and the timer is untouched. In both cases the movement type,
`StepDistanceRemaining`, `LastStepLocation`, the cached surface and the
surface age (and every member other than the log and the timer) are as
before. -/
theorem registerJump_effect (w : World) (s : UFootstepSoundComponent) :
    (∀ (SoundSet : UFootstepSoundSet) (snd : USoundBase),
      s.SoundSets s.CachedPhysicalSurface = some (some SoundSet) → SoundSet.Jump = some snd →
      s.MinimumSoundInterval ≤ s.TimeSinceLastFootstep →
      emitted s (RegisterJump w s)
        = [Event.OnJump, Event.PlaySoundAtLocation snd w.ActorLocation 1, Event.OnFootstep] ∧
      (RegisterJump w s).TimeSinceLastFootstep = 0) ∧
    (MissingClip s UFootstepSoundSet.Jump ∨ s.TimeSinceLastFootstep < s.MinimumSoundInterval →
      emitted s (RegisterJump w s) = [Event.OnJump] ∧
      (RegisterJump w s).TimeSinceLastFootstep = s.TimeSinceLastFootstep) ∧
    (RegisterJump w s).CachedMovementType = s.CachedMovementType ∧
    (RegisterJump w s).StepDistanceRemaining = s.StepDistanceRemaining ∧
    (RegisterJump w s).LastStepLocation = s.LastStepLocation ∧
    (RegisterJump w s).CachedPhysicalSurface = s.CachedPhysicalSurface ∧
    (RegisterJump w s).SurfaceAge = s.SurfaceAge ∧
    RegisterJump w s =
      { s with
        log := (RegisterJump w s).log
        TimeSinceLastFootstep := (RegisterJump w s).TimeSinceLastFootstep } := by
  have hframe := OnJump_Native_frame w s
  refine ⟨?_, ?_, ?_, ?_, ?_, ?_, ?_, hframe⟩
  · intro SoundSet snd hs hj ht
    simp [RegisterJump, OnJump_Native, PickSoundSet, PlaySound, emitted, hs, hj, ht]
  · rintro (h | h)
    · have e : RegisterJump w s = { s with log := s.log ++ [Event.OnJump] } :=
        MissingClip.request (s := { s with log := s.log ++ [Event.OnJump] }) h w 1
      rw [e]
      simp [emitted]
    · have hn : ¬ s.TimeSinceLastFootstep ≥ s.MinimumSoundInterval := not_le.mpr h
      unfold RegisterJump OnJump_Native PlaySound
      dsimp only
      repeat' split
      all_goals first
        | exact absurd ‹_ ≥ _› hn
        | simp [emitted]
  all_goals
    unfold RegisterJump
    rw [hframe]

/-- Claim C14 at a concrete input: a jump a second after the last sound, with
the example catalogue, sends `OnJump`, plays the jump sound 2 at volume 1 and
broadcasts `OnFootstep`. -/
theorem registerJump_effect_witness :
    emitted readyComponent (RegisterJump standingWorld readyComponent)
      = [Event.OnJump, Event.PlaySoundAtLocation 2 standingWorld.ActorLocation 1,
         Event.OnFootstep] ∧
    (RegisterJump standingWorld readyComponent).TimeSinceLastFootstep = 0 :=
  (registerJump_effect standingWorld readyComponent).1 ⟨some 1, some 2, some 3⟩ 2 rfl rfl
    defaultInterval_le_one

/-! ## Lemmas: the shape of the log -/

theorem Gated.log_grows {s s' : UFootstepSoundComponent} (h : Gated s s') :
    ∃ l, s'.log = s.log ++ l := by
  obtain ⟨_, l, hl, _⟩ := h
  exact ⟨l, hl⟩

/-- What is sent over two successive stretches is what is sent over the first
followed by what is sent over the second. -/
theorem emitted_append_emitted {s s' s'' : UFootstepSoundComponent}
    (h₁ : ∃ l, s'.log = s.log ++ l) (h₂ : ∃ l, s''.log = s'.log ++ l) :
    emitted s s'' = emitted s s' ++ emitted s' s'' := by
  obtain ⟨l₁, hl₁⟩ := h₁
  obtain ⟨l₂, hl₂⟩ := h₂
  have hl : s''.log = s.log ++ (l₁ ++ l₂) := by rw [hl₂, hl₁, List.append_assoc]
  rw [emitted_append s s'' _ hl, emitted_append s s' _ hl₁, emitted_append s' s'' _ hl₂]

/-- The edge notifications `ReadMovementComponent` sends are those of the
change from the previous movement type to the new one. -/
theorem ReadMovementComponent_edgeEvents (w : World) (s : UFootstepSoundComponent) :
    edgeEvents (emitted s (ReadMovementComponent w s))
      = edgeOf s.CachedMovementType (NewMovementType w s) := by
  rcases hp : s.CachedMovementType <;> rcases hn : NewMovementType w s <;>
    simp [ReadMovementComponent, hp, hn, emitted, edgeEvents, edgeOf, IsMoving, OnLand_Native,
      OnStartMoving_Native, OnStopMoving_Native, PlaySound, UpdateSurface, Event.isEdge] <;>
    (repeat' split) <;> simp_all [Event.isEdge, List.filter]

theorem Paired.nothing (s : UFootstepSoundComponent) : Paired s s :=
  ⟨⟨[], by simp⟩, by simp [emitted, playCount]⟩

theorem Paired.followedBy {s s' s'' : UFootstepSoundComponent} (h₁ : Paired s s')
    (h₂ : Paired s' s'') : Paired s s'' := by
  obtain ⟨⟨l₁, hl₁⟩, hc₁⟩ := h₁
  obtain ⟨⟨l₂, hl₂⟩, hc₂⟩ := h₂
  refine ⟨⟨l₁ ++ l₂, by rw [hl₂, hl₁, List.append_assoc]⟩, ?_⟩
  rw [emitted_append_emitted ⟨l₁, hl₁⟩ ⟨l₂, hl₂⟩, List.countP_append, playCount_append, hc₁, hc₂]

theorem Paired.ofLog {s s' s'' : UFootstepSoundComponent} (h : Paired s s')
    (hl : s''.log = s'.log) : Paired s s'' := by
  obtain ⟨⟨l, hl₁⟩, hc⟩ := h
  refine ⟨⟨l, hl.trans hl₁⟩, ?_⟩
  simpa [emitted, hl] using hc

theorem PlaySound_paired (w : World) (Sound : Option USoundBase) (v : float)
    (s : UFootstepSoundComponent) : Paired s (PlaySound w Sound v s) := by
  unfold PlaySound
  repeat' split
  · exact Paired.nothing s
  · exact ⟨⟨_, rfl⟩, by simp [emitted, playCount, Event.isPlay, Event.isFootstepPlayed]⟩
  · exact Paired.nothing s

theorem UpdateSurface_paired (w : World) (s : UFootstepSoundComponent) :
    Paired s (UpdateSurface w s) := by
  obtain ⟨_, hl | ⟨_, hl⟩⟩ := UpdateSurface_log w s
  · exact (Paired.nothing s).ofLog hl
  · exact ⟨⟨_, hl⟩, by simp [emitted, hl, playCount, Event.isPlay, Event.isFootstepPlayed]⟩

theorem RequestFootstep_paired (w : World) (s : UFootstepSoundComponent) :
    Paired s (RequestFootstep w s) := by
  unfold RequestFootstep
  split
  · exact PlaySound_paired _ _ _ _
  · exact Paired.nothing s

theorem OnJump_Native_paired (w : World) (s : UFootstepSoundComponent) :
    Paired s (OnJump_Native w s) := by
  have h₁ : Paired s { s with log := s.log ++ [Event.OnJump] } :=
    ⟨⟨_, rfl⟩, by simp [emitted, playCount, Event.isPlay, Event.isFootstepPlayed]⟩
  unfold OnJump_Native
  dsimp only
  split
  · exact h₁.followedBy (PlaySound_paired _ _ _ _)
  · exact h₁

theorem ReadMovementComponent_paired (w : World) (s : UFootstepSoundComponent) :
    Paired s (ReadMovementComponent w s) := by
  refine ⟨(ReadMovementComponent_gated w s).log_grows, ?_⟩
  rcases hp : s.CachedMovementType <;> rcases hn : NewMovementType w s <;>
    simp [ReadMovementComponent, hp, hn, emitted, playCount, OnLand_Native,
      OnStartMoving_Native, OnStopMoving_Native, PlaySound, UpdateSurface] <;>
    (repeat' split) <;> simp_all [Event.isPlay, Event.isFootstepPlayed]

theorem PlayFootsteps_paired (w : World) (s : UFootstepSoundComponent) :
    Paired s (PlayFootsteps w s) := by
  by_cases hm : IsMoving s.CachedMovementType
  · by_cases hr : s.StepDistanceRemaining - (w.ActorLocation - s.LastStepLocation).Size.toFloat ≤ 0
    · rw [PlayFootsteps_step_eq w s hm hr]
      exact (RequestFootstep_paired w s).ofLog rfl
    · rw [PlayFootsteps_of_no_step w s hm (not_le.mp hr)]
      exact (Paired.nothing s).ofLog rfl
  · rw [PlayFootsteps_of_not_moving w s hm]
    exact Paired.nothing s

theorem Call.apply_paired (c : Call) (s : UFootstepSoundComponent) : Paired s (c.apply s) := by
  cases c with
  | Tick w dt =>
    have h₁ : Paired s (UpdateSpeed w s) := (Paired.nothing s).ofLog rfl
    have h₃ : Paired s (ThrottledSurface w dt (UpdateSpeed w s)) := by
      unfold ThrottledSurface
      split
      · have h₂ : Paired s ({ UpdateSpeed w s with SurfaceAge := 0 } : UFootstepSoundComponent) :=
          h₁.ofLog rfl
        exact h₂.followedBy (UpdateSurface_paired w _)
      · exact h₁.ofLog rfl
    have h₅ := (h₃.followedBy (ReadMovementComponent_paired w _)).followedBy
      (PlayFootsteps_paired w _)
    show Paired s (TickComponent w dt s)
    rw [TickComponent_eq]
    exact h₅.ofLog rfl
  | Jump w => exact OnJump_Native_paired w s

theorem RequestFootstep_edgeEvents (w : World) (s : UFootstepSoundComponent) :
    edgeEvents (emitted s (RequestFootstep w s)) = [] := by
  unfold RequestFootstep PlaySound
  repeat' split
  all_goals simp [emitted, edgeEvents, Event.isEdge]

theorem PlayFootsteps_edgeEvents (w : World) (s : UFootstepSoundComponent) :
    edgeEvents (emitted s (PlayFootsteps w s)) = [] := by
  by_cases hm : IsMoving s.CachedMovementType
  · by_cases hr : s.StepDistanceRemaining - (w.ActorLocation - s.LastStepLocation).Size.toFloat ≤ 0
    · rw [PlayFootsteps_step_eq w s hm hr]
      exact RequestFootstep_edgeEvents w s
    · rw [PlayFootsteps_of_no_step w s hm (not_le.mp hr)]
      simp [emitted, edgeEvents]
  · rw [PlayFootsteps_of_not_moving w s hm]
    simp [emitted, edgeEvents]

/-- The surface block of a tick sends at most a line trace, and leaves the
movement type, the cached speed and the timer alone. -/
theorem ThrottledSurface_effect (w : World) (dt : float) (s : UFootstepSoundComponent) :
    (∃ l, (ThrottledSurface w dt s).log = s.log ++ l) ∧
    edgeEvents (emitted s (ThrottledSurface w dt s)) = [] ∧
    (ThrottledSurface w dt s).CachedMovementType = s.CachedMovementType ∧
    (ThrottledSurface w dt s).CachedSpeed = s.CachedSpeed ∧
    (ThrottledSurface w dt s).TimeSinceLastFootstep = s.TimeSinceLastFootstep := by
  unfold ThrottledSurface
  split
  · obtain ⟨ht, hl | ⟨_, hl⟩⟩ := UpdateSurface_log w { s with SurfaceAge := 0 }
    · refine ⟨⟨[], by simp [hl]⟩, by simp [emitted, hl, edgeEvents], ?_, ?_, ht⟩ <;>
        rw [UpdateSurface_frame]
    · refine ⟨⟨_, hl⟩, by simp [emitted, hl, edgeEvents, Event.isEdge], ?_, ?_, ht⟩ <;>
        rw [UpdateSurface_frame]
  · exact ⟨⟨[], by simp⟩, by simp [emitted, edgeEvents], rfl, rfl, rfl⟩

/-- The edge notifications of a whole tick are those of the change from the
movement type before the tick to the one the tick classifies. -/
theorem TickComponent_edgeEvents (w : World) (dt : float) (s : UFootstepSoundComponent) :
    edgeEvents (emitted s (TickComponent w dt s))
      = edgeOf s.CachedMovementType (NewMovementType w (UpdateSpeed w s)) := by
  obtain ⟨hl₃, he₃, hm₃, hs₃, _⟩ := ThrottledSurface_effect w dt (UpdateSpeed w s)
  have hl₄ := (ReadMovementComponent_gated w (ThrottledSurface w dt (UpdateSpeed w s))).log_grows
  have hl₅ := (PlayFootsteps_gated w (ReadMovementComponent w
    (ThrottledSurface w dt (UpdateSpeed w s)))).log_grows
  have hl₃₄ : ∃ l, (ReadMovementComponent w (ThrottledSurface w dt (UpdateSpeed w s))).log
      = (UpdateSpeed w s).log ++ l := by
    obtain ⟨l₁, h₁⟩ := hl₃
    obtain ⟨l₂, h₂⟩ := hl₄
    exact ⟨l₁ ++ l₂, by rw [h₂, h₁, List.append_assoc]⟩
  have hnew : NewMovementType w (ThrottledSurface w dt (UpdateSpeed w s))
      = NewMovementType w (UpdateSpeed w s) := by
    unfold NewMovementType
    rw [hs₃]
  have e : emitted s (TickComponent w dt s)
      = emitted (UpdateSpeed w s) (PlayFootsteps w (ReadMovementComponent w
          (ThrottledSurface w dt (UpdateSpeed w s)))) := rfl
  rw [e, emitted_append_emitted hl₃₄ hl₅, emitted_append_emitted hl₃ hl₄]
  have h₄ := ReadMovementComponent_edgeEvents w (ThrottledSurface w dt (UpdateSpeed w s))
  have h₅ := PlayFootsteps_edgeEvents w (ReadMovementComponent w
    (ThrottledSurface w dt (UpdateSpeed w s)))
  unfold edgeEvents at *
  rw [List.filter_append, List.filter_append, he₃, h₅, h₄, hnew, hm₃]
  simp [UpdateSpeed]

/-! ## Notifications -/

/-- Claim C15: `ReadMovementComponent` sends the notification of the edge it
detects in every state, whatever the sound sets and the timer: `OnLand` when
leaving `Flying`, `OnStopMoving` from moving to not moving, `OnStartMoving`
from `Stopped` to moving; with the timer below the minimum interval it sends
the edge notification and plays nothing. `OnFootstep` is broadcast by
`PlaySound` exactly when it plays (a valid sound, the timer at or above the
minimum interval), and every public call broadcasts `OnFootstep` as many times
as it plays a sound. -/
theorem edge_notification_without_sound (w : World) (s : UFootstepSoundComponent) :
    (s.CachedMovementType = Flying → (ReadMovementComponent w s).CachedMovementType ≠ Flying →
      Event.OnLand ∈ emitted s (ReadMovementComponent w s)) ∧
    (IsMoving s.CachedMovementType → ¬ IsMoving (ReadMovementComponent w s).CachedMovementType →
      Event.OnStopMoving ∈ emitted s (ReadMovementComponent w s)) ∧
    (s.CachedMovementType = Stopped → IsMoving (ReadMovementComponent w s).CachedMovementType →
      Event.OnStartMoving ∈ emitted s (ReadMovementComponent w s)) ∧
    (s.TimeSinceLastFootstep < s.MinimumSoundInterval →
      playCount (emitted s (ReadMovementComponent w s)) = 0 ∧
      edgeEvents (emitted s (ReadMovementComponent w s))
        = edgeOf s.CachedMovementType (ReadMovementComponent w s).CachedMovementType) ∧
    (∀ (Sound : Option USoundBase) (v : float),
      (Event.OnFootstep ∈ emitted s (PlaySound w Sound v s) ↔
        ∃ snd, Sound = some snd ∧ s.MinimumSoundInterval ≤ s.TimeSinceLastFootstep) ∧
      (playCount (emitted s (PlaySound w Sound v s)) = 1 ↔
        ∃ snd, Sound = some snd ∧ s.MinimumSoundInterval ≤ s.TimeSinceLastFootstep) ∧
      (playCount (emitted s (PlaySound w Sound v s)) = 0 ∨
        playCount (emitted s (PlaySound w Sound v s)) = 1)) ∧
    (∀ c : Call, (emitted s (c.apply s)).countP Event.isFootstepPlayed
      = playCount (emitted s (c.apply s))) := by
  have hedge := ReadMovementComponent_edgeEvents w s
  have hmem : ∀ e, e ∈ edgeEvents (emitted s (ReadMovementComponent w s)) →
      e ∈ emitted s (ReadMovementComponent w s) := fun e he => (List.mem_filter.mp he).1
  have hnew : (ReadMovementComponent w s).CachedMovementType = NewMovementType w s := rfl
  refine ⟨?_, ?_, ?_, ?_, ?_, fun c => (c.apply_paired s).2⟩
  · intro hp hn
    rw [hnew] at hn
    apply hmem
    rw [hedge, hp]
    rcases h : NewMovementType w s <;> simp_all [edgeOf]
  · intro hp hn
    rw [hnew] at hn
    apply hmem
    rw [hedge]
    rcases h : NewMovementType w s <;> rcases h' : s.CachedMovementType <;>
      simp_all [edgeOf, IsMoving]
  · intro hp hn
    rw [hnew] at hn
    apply hmem
    rw [hedge, hp]
    rcases h : NewMovementType w s <;> simp_all [edgeOf, IsMoving]
  · intro ht
    refine ⟨?_, hedge⟩
    obtain ⟨_, l, hl, hc | ⟨_, hge, _⟩⟩ := ReadMovementComponent_gated w s
    · rw [emitted_append s _ l hl]
      exact hc.1
    · exact absurd hge (not_le.mpr ht)
  · intro Sound v
    cases Sound with
    | none => simp [PlaySound, emitted, playCount]
    | some snd =>
      by_cases h : s.TimeSinceLastFootstep ≥ s.MinimumSoundInterval
      · have h' : s.MinimumSoundInterval ≤ s.TimeSinceLastFootstep := h
        simp [PlaySound, emitted, playCount, Event.isPlay, h, h']
      · have h' : ¬ s.MinimumSoundInterval ≤ s.TimeSinceLastFootstep := h
        simp [PlaySound, emitted, playCount, h, h']

/-- Claim C15 at a concrete input: a stopped component without any sound set,
its timer at 0, with the owner on the ground at speed 300, sends
`OnStartMoving`. -/
theorem edge_notification_without_sound_witness :
    Event.OnStartMoving ∈
      emitted stoppedComponent (ReadMovementComponent walkingWorld stoppedComponent) :=
  (edge_notification_without_sound walkingWorld stoppedComponent).2.2.1 rfl
    (Or.inl (by norm_num [ReadMovementComponent, NewMovementType, walkingWorld, exampleWorld,
      stoppedComponent, UE_SMALL_NUMBER_val, Fl.lt_def, Fl.le_def]))

/-! ## The first tick -/

/-- Claim C17, as stated, fails: a fresh component is ticked with the owner on
the ground at speed 300, and the tick sends `OnStartMoving`. -/
theorem first_tick_sends_startedMoving :
    Initial freshComponent ∧ strideWorld.IsMovingOnGround = true ∧
    Event.OnStartMoving ∈ emitted freshComponent (TickComponent strideWorld 1 freshComponent) := by
  have h := fresh_after_stride
  rw [run, run, Call.apply] at h
  refine ⟨by simp [Initial, freshComponent, SurfaceType_Default], rfl, ?_⟩
  rw [h]
  simp [emitted, freshComponent]

/-- Claim C17, amended: on the first tick of a fresh component (the previous
movement type is `Stopped`) no `OnLand` and no `OnStopMoving` is sent, for any
sample; no edge notification at all is sent when the owner is in the air or
its speed is below `UE_SMALL_NUMBER`; and when the owner is on the ground with
a speed of at least `UE_SMALL_NUMBER`, `OnStartMoving` is the one edge
notification sent. -/
theorem first_tick_edges (w : World) (dt : float) (s : UFootstepSoundComponent) (h : Initial s) :
    Event.OnLand ∉ emitted s (TickComponent w dt s) ∧
    Event.OnStopMoving ∉ emitted s (TickComponent w dt s) ∧
    (w.IsMovingOnGround = false ∨ w.Velocity.Size.toFloat < UE_SMALL_NUMBER →
      edgeEvents (emitted s (TickComponent w dt s)) = []) ∧
    (w.IsMovingOnGround = true → ¬ w.Velocity.Size.toFloat < UE_SMALL_NUMBER →
      edgeEvents (emitted s (TickComponent w dt s)) = [Event.OnStartMoving]) := by
  have he := TickComponent_edgeEvents w dt s
  rw [h.2.1] at he
  have hnot : ∀ e, e.isEdge = true → e ∉ edgeEvents (emitted s (TickComponent w dt s)) →
      e ∉ emitted s (TickComponent w dt s) :=
    fun e hedge hn hmem => hn (List.mem_filter.mpr ⟨hmem, hedge⟩)
  refine ⟨?_, ?_, ?_, ?_⟩
  · apply hnot Event.OnLand rfl
    rw [he]
    rcases hn : NewMovementType w (UpdateSpeed w s) <;> simp [edgeOf, IsMoving]
  · apply hnot Event.OnStopMoving rfl
    rw [he]
    rcases hn : NewMovementType w (UpdateSpeed w s) <;> simp [edgeOf, IsMoving]
  · intro hw
    rw [he]
    rcases hw with hw | hw <;> simp [NewMovementType, UpdateSpeed, hw, edgeOf, IsMoving]
    cases w.IsMovingOnGround <;> simp
  · intro hg hv
    rw [he]
    cases hc : w.IsCrouching <;> simp [NewMovementType, UpdateSpeed, hg, hv, hc, edgeOf, IsMoving]

/-- Claim C17 at a concrete input: the first tick of the fresh component with
the owner at rest on the ground sends no edge notification. -/
theorem first_tick_edges_witness :
    edgeEvents (emitted freshComponent (TickComponent standingWorld 1 freshComponent)) = [] :=
  (first_tick_edges standingWorld 1 freshComponent
    (by simp [Initial, freshComponent, SurfaceType_Default])).2.2.1
    (Or.inr (by norm_num [standingWorld, exampleWorld, Size_0, UE_SMALL_NUMBER_val,
      Fl.lt_def]))

/-! ## Lemmas: steps that play and steps that do not -/

theorem NextStepDistance_ne_zero (s : UFootstepSoundComponent) : NextStepDistance s ≠ 0 := by
  unfold NextStepDistance
  dsimp only
  split_ifs with h
  · exact twenty_pos.ne'
  · exact h

/-- A sound played by `PlayFootsteps` takes a step fired in that very call and
a timer at or above the minimum interval. -/
theorem PlayFootsteps_plays_only_on_step (w : World) (s : UFootstepSoundComponent)
    (h : 1 ≤ playCount (emitted s (PlayFootsteps w s))) :
    IsMoving s.CachedMovementType ∧
    s.StepDistanceRemaining - (w.ActorLocation - s.LastStepLocation).Size.toFloat ≤ 0 ∧
    s.MinimumSoundInterval ≤ s.TimeSinceLastFootstep := by
  by_cases hm : IsMoving s.CachedMovementType
  · by_cases hr : s.StepDistanceRemaining - (w.ActorLocation - s.LastStepLocation).Size.toFloat ≤ 0
    · refine ⟨hm, hr, ?_⟩
      rw [PlayFootsteps_step_eq w s hm hr] at h
      obtain ⟨_, l, hl, hc | ⟨_, hge, _⟩⟩ := RequestFootstep_gated w s
      · have e : emitted s { s with
            LastStepLocation := w.ActorLocation
            StepDistanceRemaining := NextStepDistance s
            log := (RequestFootstep w s).log
            TimeSinceLastFootstep := (RequestFootstep w s).TimeSinceLastFootstep } = l :=
          emitted_append s _ l hl
        rw [e] at h
        omega
      · exact hge
    · rw [PlayFootsteps_of_no_step w s hm (not_le.mp hr)] at h
      simp [emitted, playCount] at h
  · rw [PlayFootsteps_of_not_moving w s hm] at h
    simp [emitted, playCount] at h

/-- With the timer below the minimum interval a footstep request changes
nothing. -/
theorem RequestFootstep_of_cooldown (w : World) (s : UFootstepSoundComponent)
    (ht : s.TimeSinceLastFootstep < s.MinimumSoundInterval) : RequestFootstep w s = s := by
  have hn : ¬ s.TimeSinceLastFootstep ≥ s.MinimumSoundInterval := not_le.mpr ht
  unfold RequestFootstep PlaySound
  repeat' split
  all_goals first
    | rfl
    | exact absurd ‹_ ≥ _› hn

/-- The step fires when the cooling component strides 20 units. -/
theorem cooling_step_fires :
    coolingComponent.StepDistanceRemaining
      - (strideWorld.ActorLocation - coolingComponent.LastStepLocation).Size.toFloat ≤ 0 := by
  have hd : (strideWorld.ActorLocation - coolingComponent.LastStepLocation).Size.toFloat = 20 :=
    stride_from_origin
  rw [hd]
  norm_num [coolingComponent, Fl.le_def]

/-! ## Cancelled steps -/

/-- Claim C16, as stated, fails: the ready component (stopped, a second gone
since the last sound, 20 units remaining) is ticked for 1/100 with the owner
on the ground 20 units away at speed 300. `ReadMovementComponent` classifies
`Walking`, broadcasts `OnStartMoving` and plays the footstep of that edge,
which leaves the timer at 0. Then the cadence step fires in `PlayFootsteps`
with the timer below the minimum interval and is cancelled; yet the tick has
played a sound and broadcast `OnFootstep`. -/
theorem sound_in_tick_of_cancelled_step :
    ReadMovementComponent strideWorld
        (ThrottledSurface strideWorld (1 / 100) (UpdateSpeed strideWorld readyComponent))
      = readyAtCadence ∧
    IsMoving readyAtCadence.CachedMovementType ∧
    readyAtCadence.StepDistanceRemaining
      - (strideWorld.ActorLocation - readyAtCadence.LastStepLocation).Size.toFloat ≤ 0 ∧
    readyAtCadence.TimeSinceLastFootstep < readyAtCadence.MinimumSoundInterval ∧
    emitted readyAtCadence (PlayFootsteps strideWorld readyAtCadence) = [] ∧
    emitted readyComponent (TickComponent strideWorld (1 / 100) readyComponent)
      = [Event.OnStartMoving, Event.PlaySoundAtLocation 1 ⟨20, 0, 0⟩ 0.5,
         Event.OnFootstep] := by
  have h₁ : UpdateSpeed strideWorld readyComponent
      = { readyComponent with CachedSpeed := 300 } := by
    norm_num [UpdateSpeed, readyComponent, strideWorld, exampleWorld, Size_300]
  have h₃ : ThrottledSurface strideWorld (1 / 100) { readyComponent with CachedSpeed := 300 }
      = { readyComponent with CachedSpeed := 300, SurfaceAge := 1 / 100 } := by
    rw [ThrottledSurface, if_neg (fun h => hundredth_le_resampleInterval h.1)]
    norm_num [readyComponent, Fl.zero_add]
  have h₄ : ReadMovementComponent strideWorld
      { readyComponent with CachedSpeed := 300, SurfaceAge := 1 / 100 } = readyAtCadence := by
    norm_num [ReadMovementComponent, NewMovementType, OnStartMoving_Native, PlaySound,
      PickSoundSet, CalculateFootstepVolume, readyAtCadence, readyComponent, exampleSounds,
      strideWorld, exampleWorld, UE_SMALL_NUMBER_val, val_defaultInterval, Fl.lt_def, Fl.le_def]
  have hd : (strideWorld.ActorLocation - readyAtCadence.LastStepLocation).Size.toFloat = 20 :=
    stride_from_origin
  have hr : readyAtCadence.StepDistanceRemaining
      - (strideWorld.ActorLocation - readyAtCadence.LastStepLocation).Size.toFloat ≤ 0 := by
    rw [hd]
    norm_num [readyAtCadence, readyComponent, Fl.le_def]
  have ht : readyAtCadence.TimeSinceLastFootstep < readyAtCadence.MinimumSoundInterval :=
    defaultInterval_pos
  have h₅ : PlayFootsteps strideWorld readyAtCadence =
      { readyAtCadence with
        LastStepLocation := strideWorld.ActorLocation
        StepDistanceRemaining := NextStepDistance readyAtCadence } := by
    rw [PlayFootsteps_step_eq strideWorld readyAtCadence (Or.inl rfl) hr,
      RequestFootstep_of_cooldown strideWorld readyAtCadence ht]
  refine ⟨by rw [h₁, h₃, h₄], Or.inl rfl, hr, ht, ?_, ?_⟩
  · rw [h₅]
    simp [emitted]
  · rw [TickComponent_eq, h₁, h₃, h₄, h₅]
    simp [emitted, readyAtCadence, readyComponent]

/-- Claim C16, amended: when a cadence step fires in `PlayFootsteps` while
`TimeSinceLastFootstep` is below `MinimumSoundInterval`, that call sends
nothing (no sound, no `OnFootstep`), the timer is untouched, and
`StepDistanceRemaining` is set to the next interval all the same: the value of
the interval curve at the cached speed, or 20 when that is 0 or the curve is
unset. The component after the call is the one before with only
`LastStepLocation` and `StepDistanceRemaining` replaced, so nothing in it
records the cancelled step: whatever the timer is by then, the next call plays
nothing until the new interval has been travelled, and in any state
`PlayFootsteps` plays a sound only when a step fires in that very call with
the timer at or above the minimum interval. A whole tick begun with the timer
below the minimum interval plays nothing and broadcasts no `OnFootstep`; a tick
begun with the timer at or above it can play the sound of an edge before its
step is cancelled. -/
theorem cancelled_step_not_deferred :
    (∀ (w : World) (s : UFootstepSoundComponent), IsMoving s.CachedMovementType →
      s.StepDistanceRemaining - (w.ActorLocation - s.LastStepLocation).Size.toFloat ≤ 0 →
      s.TimeSinceLastFootstep < s.MinimumSoundInterval →
      PlayFootsteps w s =
        { s with LastStepLocation := w.ActorLocation
                 StepDistanceRemaining := NextStepDistance s } ∧
      emitted s (PlayFootsteps w s) = [] ∧
      (∀ curve, s.IntervalSpeedCurve = some curve → curve s.CachedSpeed ≠ 0 →
        (PlayFootsteps w s).StepDistanceRemaining = curve s.CachedSpeed) ∧
      (∀ curve, s.IntervalSpeedCurve = some curve → curve s.CachedSpeed = 0 →
        (PlayFootsteps w s).StepDistanceRemaining = 20) ∧
      (s.IntervalSpeedCurve = none → (PlayFootsteps w s).StepDistanceRemaining = 20) ∧
      (∀ (w₂ : World) (t : float),
        0 < NextStepDistance s - (w₂.ActorLocation - w.ActorLocation).Size.toFloat →
        emitted { PlayFootsteps w s with TimeSinceLastFootstep := t }
          (PlayFootsteps w₂ { PlayFootsteps w s with TimeSinceLastFootstep := t }) = [])) ∧
    (∀ (w : World) (s : UFootstepSoundComponent),
      1 ≤ playCount (emitted s (PlayFootsteps w s)) →
      IsMoving s.CachedMovementType ∧
      s.StepDistanceRemaining - (w.ActorLocation - s.LastStepLocation).Size.toFloat ≤ 0 ∧
      s.MinimumSoundInterval ≤ s.TimeSinceLastFootstep) ∧
    (∀ (w : World) (dt : float) (s : UFootstepSoundComponent),
      s.TimeSinceLastFootstep < s.MinimumSoundInterval →
      playCount (emitted s (TickComponent w dt s)) = 0 ∧
      Event.OnFootstep ∉ emitted s (TickComponent w dt s)) := by
  refine ⟨?_, PlayFootsteps_plays_only_on_step, ?_⟩
  · intro w s hm hr ht
    have e : PlayFootsteps w s =
        { s with LastStepLocation := w.ActorLocation
                 StepDistanceRemaining := NextStepDistance s } := by
      rw [PlayFootsteps_step_eq w s hm hr, RequestFootstep_of_cooldown w s ht]
    refine ⟨e, by rw [e]; simp [emitted], ?_, ?_, ?_, ?_⟩
    · intro curve hc h0
      rw [e]; simp [NextStepDistance, hc, h0]
    · intro curve hc h0
      rw [e]; simp [NextStepDistance, hc, h0]
    · intro hc
      rw [e]; simp [NextStepDistance, hc]
    · intro w₂ t hd
      rw [e]
      have hno := PlayFootsteps_of_no_step w₂
        ({ ({ s with LastStepLocation := w.ActorLocation
                     StepDistanceRemaining := NextStepDistance s } : UFootstepSoundComponent) with
           TimeSinceLastFootstep := t }) hm hd
      rw [hno]
      simp [emitted]
  · intro w dt s ht
    obtain ⟨_, l, hl, hc | ⟨_, hge, _⟩⟩ := (Call.Tick w dt).apply_effect s
    · have hp := ((Call.Tick w dt).apply_paired s).2
      have hl' : (TickComponent w dt s).log = s.log ++ l := hl
      have e : emitted s (TickComponent w dt s) = l := emitted_append s _ l hl'
      have hp' : (emitted s (TickComponent w dt s)).countP Event.isFootstepPlayed
          = playCount (emitted s (TickComponent w dt s)) := hp
      rw [e] at hp' ⊢
      refine ⟨hc.1, ?_⟩
      intro hmem
      have : 0 < l.countP Event.isFootstepPlayed := List.countP_pos_iff.mpr ⟨_, hmem, rfl⟩
      omega
    · exact absurd hge (not_le.mpr ht)

/-- Claim C16 at a concrete input: the walking component with its timer at 0
strides 20 units; the step fires, nothing is sent, and the remaining distance
is set to the next interval. -/
theorem cancelled_step_not_deferred_witness :
    PlayFootsteps strideWorld coolingComponent =
      { coolingComponent with LastStepLocation := strideWorld.ActorLocation
                              StepDistanceRemaining := NextStepDistance coolingComponent } ∧
    emitted coolingComponent (PlayFootsteps strideWorld coolingComponent) = [] :=
  ⟨(cancelled_step_not_deferred.1 strideWorld coolingComponent (Or.inl rfl)
      cooling_step_fires defaultInterval_pos).1,
   (cancelled_step_not_deferred.1 strideWorld coolingComponent (Or.inl rfl)
      cooling_step_fires defaultInterval_pos).2.1⟩

/-! ## The remaining distance is never 0 -/

theorem PlayFootsteps_remaining_ne_zero (w : World) (s : UFootstepSoundComponent)
    (h : s.StepDistanceRemaining ≠ 0) : (PlayFootsteps w s).StepDistanceRemaining ≠ 0 := by
  by_cases hm : IsMoving s.CachedMovementType
  · by_cases hr : s.StepDistanceRemaining - (w.ActorLocation - s.LastStepLocation).Size.toFloat ≤ 0
    · rw [PlayFootsteps_step_eq w s hm hr]
      exact NextStepDistance_ne_zero s
    · rw [PlayFootsteps_of_no_step w s hm (not_le.mp hr)]
      exact (not_le.mp hr).ne'
  · rw [PlayFootsteps_of_not_moving w s hm]
    exact h

theorem run_remaining_ne_zero (calls : List Call) (s : UFootstepSoundComponent)
    (h : s.StepDistanceRemaining ≠ 0) : (run s calls).StepDistanceRemaining ≠ 0 := by
  induction calls generalizing s with
  | nil => exact h
  | cons c cs ih =>
    apply ih
    cases c with
    | Tick w dt =>
      obtain ⟨s₄, h₄, _, hd⟩ := TickComponent_sameCadence_before w dt s
      show (TickComponent w dt s).StepDistanceRemaining ≠ 0
      rw [hd]
      exact PlayFootsteps_remaining_ne_zero w s₄ (by rw [h₄.2]; exact h)
    | Jump w =>
      show (OnJump_Native w s).StepDistanceRemaining ≠ 0
      rw [(OnJump_Native_sameCadence w s).2]
      exact h

/-- Claim C20: in every state reachable from a fresh component by ticks and
jumps, whatever the interval curve (unset, or of any value), the remaining
distance is not 0, and it is not 0 after `PlayFootsteps`; a step whose curve
value is 0, or whose curve is unset, sets it to 20. -/
theorem remaining_never_zero (s : UFootstepSoundComponent) (hr : Reachable s) (w : World) :
    s.StepDistanceRemaining ≠ 0 ∧
    (PlayFootsteps w s).StepDistanceRemaining ≠ 0 ∧
    (IsMoving s.CachedMovementType →
      s.StepDistanceRemaining - (w.ActorLocation - s.LastStepLocation).Size.toFloat ≤ 0 →
      (s.IntervalSpeedCurve = none ∨
        ∃ curve, s.IntervalSpeedCurve = some curve ∧ curve s.CachedSpeed = 0) →
      (PlayFootsteps w s).StepDistanceRemaining = 20) := by
  obtain ⟨s0, calls, hinit, rfl⟩ := hr
  have h0 : (run s0 calls).StepDistanceRemaining ≠ 0 :=
    run_remaining_ne_zero calls s0 (by rw [hinit.1]; exact twenty_pos.ne')
  refine ⟨h0, PlayFootsteps_remaining_ne_zero w _ h0, ?_⟩
  intro hm hstep hc
  rw [PlayFootsteps_step_eq w _ hm hstep]
  rcases hc with hc | ⟨curve, hc, hz⟩
  · simp [NextStepDistance, hc]
  · simp [NextStepDistance, hc, hz]

/-- Claim C20 at a concrete input: the fresh component whose interval curve is
worth 0 everywhere, after one tick with a stride of 20 units (a step whose
curve value is 0), and a further call of `PlayFootsteps`. -/
theorem remaining_never_zero_witness :
    (run freshZeroComponent [Call.Tick strideWorld 1]).StepDistanceRemaining ≠ 0 ∧
    (PlayFootsteps strideWorld
      (run freshZeroComponent [Call.Tick strideWorld 1])).StepDistanceRemaining ≠ 0 :=
  ⟨(remaining_never_zero (run freshZeroComponent [Call.Tick strideWorld 1])
      ⟨freshZeroComponent, [Call.Tick strideWorld 1],
        by simp [Initial, freshZeroComponent, SurfaceType_Default], rfl⟩ strideWorld).1,
   (remaining_never_zero (run freshZeroComponent [Call.Tick strideWorld 1])
      ⟨freshZeroComponent, [Call.Tick strideWorld 1],
        by simp [Initial, freshZeroComponent, SurfaceType_Default], rfl⟩ strideWorld).2.1⟩

/-! ## Lemmas: landing -/

/-- Leaving `Flying`, `ReadMovementComponent` is `OnLand_Native` followed by
the assignment of the new movement type. -/
theorem ReadMovementComponent_of_landing (w : World) (s : UFootstepSoundComponent)
    (hf : s.CachedMovementType = Flying) (hn : NewMovementType w s ≠ Flying) :
    ReadMovementComponent w s =
      { OnLand_Native w s with CachedMovementType := NewMovementType w s } := by
  have hne : s.CachedMovementType ≠ NewMovementType w s := by
    rw [hf]; exact fun h => hn h.symm
  unfold ReadMovementComponent
  dsimp only
  rw [if_pos hne, if_pos hf]

/-- The component `UpdateSurface` returns: the log grown by the line trace
(when the world is valid) and the cached surface replaced by the surface type
of the hit (when the trace hits something with a physical material). -/
theorem UpdateSurface_shape (w : World) (s : UFootstepSoundComponent) :
    ∃ (L : List Event) (K : EPhysicalSurface),
      UpdateSurface w s = { s with log := s.log ++ L, CachedPhysicalSurface := K } ∧
      (w.IsValidWorld = true →
        L = [Event.LineTraceSingleByChannel w.ActorLocation (w.ActorLocation -
          ⟨0, 0, (w.ScaledCapsuleHalfHeight + s.ActorOnGroundDistance).toDouble⟩)]) ∧
      (∀ (OutHit : FHitResult) (k : EPhysicalSurface), w.IsValidWorld = true →
        w.LineTrace w.ActorLocation (w.ActorLocation -
          ⟨0, 0, (w.ScaledCapsuleHalfHeight + s.ActorOnGroundDistance).toDouble⟩) = some OutHit →
        OutHit.PhysMaterial = some k → K = k) := by
  unfold UpdateSurface
  dsimp only
  cases hv : w.IsValidWorld
  · exact ⟨[], s.CachedPhysicalSurface, by simp, by simp, by simp⟩
  · simp only [Bool.not_true, Bool.false_eq_true, if_false]
    cases ht : w.LineTrace w.ActorLocation (w.ActorLocation -
        ⟨0, 0, (w.ScaledCapsuleHalfHeight + s.ActorOnGroundDistance).toDouble⟩) with
    | none => exact ⟨_, s.CachedPhysicalSurface, rfl, fun _ => rfl, by simp⟩
    | some OutHit =>
      obtain ⟨material⟩ := OutHit
      cases material with
      | none =>
        refine ⟨_, s.CachedPhysicalSurface, rfl, fun _ => rfl, ?_⟩
        intro OutHit' k _ h hk
        simp only [Option.some.injEq] at h
        subst h
        exact absurd hk (by simp)
      | some k =>
        refine ⟨_, k, rfl, fun _ => rfl, ?_⟩
        intro OutHit' k' _ h hk
        simp only [Option.some.injEq] at h
        subst h
        exact (Option.some.inj hk)

/-- What `PlaySound` sends: nothing, or the sound followed by `OnFootstep`. -/
theorem PlaySound_log (w : World) (Sound : Option USoundBase) (v : float)
    (s : UFootstepSoundComponent) :
    (PlaySound w Sound v s).log = s.log ∨
    ∃ snd, (PlaySound w Sound v s).log
      = s.log ++ [Event.PlaySoundAtLocation snd w.ActorLocation v, Event.OnFootstep] := by
  unfold PlaySound
  split
  · exact Or.inl rfl
  · split
    · exact Or.inr ⟨_, rfl⟩
    · exact Or.inl rfl

/-- What `OnLand_Native` sends: what its `UpdateSurface` sends, then `OnLand`,
then the land sound of the surface `UpdateSurface` cached, if it plays. -/
theorem OnLand_Native_emitted (w : World) (s : UFootstepSoundComponent) :
    (OnLand_Native w s).CachedPhysicalSurface = (UpdateSurface w s).CachedPhysicalSurface ∧
    (OnLand_Native w s).LastStepLocation = w.ActorLocation ∧
    (∃ sound, emitted s (OnLand_Native w s)
        = emitted s (UpdateSurface w s) ++ Event.OnLand :: sound ∧
      (sound = [] ∨ ∃ snd, sound =
        [Event.PlaySoundAtLocation snd w.ActorLocation (CalculateLandingVolume s),
         Event.OnFootstep])) ∧
    (∀ (SoundSet : UFootstepSoundSet) (snd : USoundBase),
      s.SoundSets (UpdateSurface w s).CachedPhysicalSurface = some (some SoundSet) →
      SoundSet.Land = some snd → s.MinimumSoundInterval ≤ s.TimeSinceLastFootstep →
      emitted s (OnLand_Native w s) = emitted s (UpdateSurface w s) ++
        [Event.OnLand,
         Event.PlaySoundAtLocation snd w.ActorLocation (CalculateLandingVolume s),
         Event.OnFootstep]) := by
  obtain ⟨L, K, hU, -, -⟩ := UpdateSurface_shape w s
  have hvol : CalculateLandingVolume
      { UpdateSurface w s with log := (UpdateSurface w s).log ++ [Event.OnLand] }
        = CalculateLandingVolume s := by
    rw [hU]; rfl
  have hUl : (UpdateSurface w s).log = s.log ++ L := by rw [hU]
  have hUe : emitted s (UpdateSurface w s) = L := emitted_append s _ L hUl
  refine ⟨?_, rfl, ?_, ?_⟩
  · unfold OnLand_Native
    dsimp only
    split
    · rw [PlaySound_frame]
    · rfl
  · have key : ∃ sound, (OnLand_Native w s).log = (UpdateSurface w s).log ++ Event.OnLand :: sound ∧
        (sound = [] ∨ ∃ snd, sound =
          [Event.PlaySoundAtLocation snd w.ActorLocation (CalculateLandingVolume s),
           Event.OnFootstep]) := by
      unfold OnLand_Native
      dsimp only
      split
      · rename_i SoundSet _
        rw [hvol]
        rcases PlaySound_log w SoundSet.Land (CalculateLandingVolume s)
          { UpdateSurface w s with log := (UpdateSurface w s).log ++ [Event.OnLand] }
          with h | ⟨snd, h⟩
        · exact ⟨[], h, Or.inl rfl⟩
        · exact ⟨_, by rw [h, List.append_assoc]; rfl, Or.inr ⟨snd, rfl⟩⟩
      · exact ⟨[], rfl, Or.inl rfl⟩
    obtain ⟨sound, hlog, hshape⟩ := key
    refine ⟨sound, ?_, hshape⟩
    rw [hUe]
    exact emitted_append s _ _ (by rw [hlog, hUl, List.append_assoc])
  · intro SoundSet snd hs hl ht
    rw [hUe]
    apply emitted_append
    rw [hU] at hs
    have hs' : s.SoundSets K = some (some SoundSet) := hs
    have ht' : s.TimeSinceLastFootstep ≥ s.MinimumSoundInterval := ht
    unfold OnLand_Native
    rw [hU]
    simp [PickSoundSet, PlaySound, CalculateLandingVolume, hs', hl, ht']

/-- The members the surface block of a tick can change are the log, the cached
surface and the surface age. -/
theorem ThrottledSurface_frame (w : World) (dt : float) (s : UFootstepSoundComponent) :
    ThrottledSurface w dt s =
      { s with
        log := (ThrottledSurface w dt s).log
        CachedPhysicalSurface := (ThrottledSurface w dt s).CachedPhysicalSurface
        SurfaceAge := (ThrottledSurface w dt s).SurfaceAge } := by
  unfold ThrottledSurface
  split
  · rw [UpdateSurface_frame]
  · rfl

theorem NewMovementType_of_ground (w : World) (s : UFootstepSoundComponent)
    (hg : w.IsMovingOnGround = true) : NewMovementType w s ≠ Flying := by
  unfold NewMovementType
  rw [if_pos hg]
  split_ifs <;> simp

/-! ## Landing -/

/-- Claim C18, as stated, fails: a stopped component whose last step was at the
origin, with the owner now 20 units away; `PlayFootsteps` returns at once and
`LastStepLocation` is not the current position. -/
theorem lastStepLocation_kept_when_stopped :
    stoppedComponent.CachedMovementType = Stopped ∧
    (PlayFootsteps strideWorld stoppedComponent).LastStepLocation
      ≠ strideWorld.ActorLocation := by
  refine ⟨rfl, ?_⟩
  rw [PlayFootsteps_of_not_moving strideWorld stoppedComponent
    (by simp [IsMoving, stoppedComponent])]
  norm_num [stoppedComponent, strideWorld, exampleWorld, FVector.ZeroVector, Fl.ext_iff]

/-- Claim C18, amended: in the movement types `Walking` and `CrouchWalking`
every call of `PlayFootsteps` sets `LastStepLocation` to the current position;
in `Stopped` and `Flying` it returns at once and changes nothing. When a
landing is detected `OnLand_Native` sets `LastStepLocation` to the current
position before the cadence runs, so after the tick of a landing
`LastStepLocation` is the current position and, with a positive remaining
distance, nothing was taken off `StepDistanceRemaining`. -/
theorem lastStepLocation_updates (w : World) (s : UFootstepSoundComponent) :
    (IsMoving s.CachedMovementType → (PlayFootsteps w s).LastStepLocation = w.ActorLocation) ∧
    (¬ IsMoving s.CachedMovementType → PlayFootsteps w s = s) ∧
    (s.CachedMovementType = Flying → NewMovementType w s ≠ Flying →
      (ReadMovementComponent w s).LastStepLocation = w.ActorLocation) ∧
    (∀ dt : float, s.CachedMovementType = Flying → w.IsMovingOnGround = true →
      (TickComponent w dt s).LastStepLocation = w.ActorLocation ∧
      (0 < s.StepDistanceRemaining →
        (TickComponent w dt s).StepDistanceRemaining = s.StepDistanceRemaining)) := by
  refine ⟨?_, PlayFootsteps_of_not_moving w s, ?_, ?_⟩
  · intro hm
    by_cases hr : s.StepDistanceRemaining - (w.ActorLocation - s.LastStepLocation).Size.toFloat ≤ 0
    · rw [PlayFootsteps_step_eq w s hm hr]
    · rw [PlayFootsteps_of_no_step w s hm (not_le.mp hr)]
  · intro hf hn
    rw [ReadMovementComponent_of_landing w s hf hn]
    rfl
  · intro dt hf hg
    have h₃m : (ThrottledSurface w dt (UpdateSpeed w s)).CachedMovementType = Flying := by
      rw [ThrottledSurface_frame]; exact hf
    have h₃d : (ThrottledSurface w dt (UpdateSpeed w s)).StepDistanceRemaining
        = s.StepDistanceRemaining := by
      rw [ThrottledSurface_frame]; rfl
    have h₄ := ReadMovementComponent_of_landing w (ThrottledSurface w dt (UpdateSpeed w s)) h₃m
      (NewMovementType_of_ground w _ hg)
    have h₄l : (ReadMovementComponent w (ThrottledSurface w dt (UpdateSpeed w s))).LastStepLocation
        = w.ActorLocation := by rw [h₄]; rfl
    have h₄d : (ReadMovementComponent w
        (ThrottledSurface w dt (UpdateSpeed w s))).StepDistanceRemaining
        = s.StepDistanceRemaining := by
      rw [ReadMovementComponent_frame]; exact h₃d
    have hd : (w.ActorLocation - (ReadMovementComponent w
        (ThrottledSurface w dt (UpdateSpeed w s))).LastStepLocation).Size.toFloat = 0 := by
      rw [h₄l]; exact FVector.Size_sub_self _
    rw [TickComponent_eq]
    show (PlayFootsteps w (ReadMovementComponent w
        (ThrottledSurface w dt (UpdateSpeed w s)))).LastStepLocation = w.ActorLocation ∧
      (0 < s.StepDistanceRemaining →
        (PlayFootsteps w (ReadMovementComponent w
          (ThrottledSurface w dt (UpdateSpeed w s)))).StepDistanceRemaining
          = s.StepDistanceRemaining)
    by_cases hm : IsMoving (ReadMovementComponent w
        (ThrottledSurface w dt (UpdateSpeed w s))).CachedMovementType
    · by_cases hr : (ReadMovementComponent w
          (ThrottledSurface w dt (UpdateSpeed w s))).StepDistanceRemaining
          - (w.ActorLocation - (ReadMovementComponent w
            (ThrottledSurface w dt (UpdateSpeed w s))).LastStepLocation).Size.toFloat ≤ 0
      · rw [PlayFootsteps_step_eq w _ hm hr]
        refine ⟨rfl, fun hpos => ?_⟩
        rw [hd, Fl.sub_zero, h₄d] at hr
        exact absurd hpos (not_lt.mpr hr)
      · rw [PlayFootsteps_of_no_step w _ hm (not_le.mp hr)]
        refine ⟨rfl, fun _ => ?_⟩
        show (ReadMovementComponent w
          (ThrottledSurface w dt (UpdateSpeed w s))).StepDistanceRemaining
          - (w.ActorLocation - (ReadMovementComponent w
            (ThrottledSurface w dt (UpdateSpeed w s))).LastStepLocation).Size.toFloat = _
        rw [hd, Fl.sub_zero, h₄d]
    · rw [PlayFootsteps_of_not_moving w _ hm]
      exact ⟨h₄l, fun _ => h₄d⟩

/-- Claim C18 at a concrete input: the component last seen in the air, whose
last step was at the origin, lands 20 units away at speed 300; after the tick
`LastStepLocation` is where the owner stands. -/
theorem lastStepLocation_updates_witness :
    (TickComponent strideWorld 1 airborneComponent).LastStepLocation
      = strideWorld.ActorLocation :=
  ((lastStepLocation_updates strideWorld airborneComponent).2.2.2 1 rfl rfl).1

/-- Claim C19: when `ReadMovementComponent` detects a landing, whatever the
surface age and the speed, the surface is sampled first: what is sent is what
`UpdateSurface` sends (the line trace, when the world is valid), then `OnLand`,
then the land sound if it plays, and the surface cached afterwards is the one
`UpdateSurface` cached. When the probe hits a surface, that surface is the
cached one and the land sound played is the one the sound sets give for it.
So after a tick in which the owner lands on a surface the probe hits, the
cached surface is that surface. -/
theorem landing_resamples_first :
    (∀ (w : World) (s : UFootstepSoundComponent), s.CachedMovementType = Flying →
      NewMovementType w s ≠ Flying →
      (ReadMovementComponent w s).CachedPhysicalSurface
        = (UpdateSurface w s).CachedPhysicalSurface ∧
      (∃ sound, emitted s (ReadMovementComponent w s)
          = emitted s (UpdateSurface w s) ++ Event.OnLand :: sound ∧
        (sound = [] ∨ ∃ snd, sound =
          [Event.PlaySoundAtLocation snd w.ActorLocation (CalculateLandingVolume s),
           Event.OnFootstep])) ∧
      (w.IsValidWorld = true → emitted s (UpdateSurface w s) =
        [Event.LineTraceSingleByChannel w.ActorLocation (w.ActorLocation -
          ⟨0, 0, (w.ScaledCapsuleHalfHeight + s.ActorOnGroundDistance).toDouble⟩)]) ∧
      (∀ (OutHit : FHitResult) (k : EPhysicalSurface), w.IsValidWorld = true →
        w.LineTrace w.ActorLocation (w.ActorLocation -
          ⟨0, 0, (w.ScaledCapsuleHalfHeight + s.ActorOnGroundDistance).toDouble⟩) = some OutHit →
        OutHit.PhysMaterial = some k →
        (ReadMovementComponent w s).CachedPhysicalSurface = k ∧
        (∀ (SoundSet : UFootstepSoundSet) (snd : USoundBase),
          s.SoundSets k = some (some SoundSet) → SoundSet.Land = some snd →
          s.MinimumSoundInterval ≤ s.TimeSinceLastFootstep →
          emitted s (ReadMovementComponent w s) =
            [Event.LineTraceSingleByChannel w.ActorLocation (w.ActorLocation -
               ⟨0, 0, (w.ScaledCapsuleHalfHeight + s.ActorOnGroundDistance).toDouble⟩),
             Event.OnLand,
             Event.PlaySoundAtLocation snd w.ActorLocation (CalculateLandingVolume s),
             Event.OnFootstep]))) ∧
    (∀ (w : World) (dt : float) (s : UFootstepSoundComponent) (OutHit : FHitResult)
      (k : EPhysicalSurface), s.CachedMovementType = Flying → w.IsMovingOnGround = true →
      w.IsValidWorld = true →
      w.LineTrace w.ActorLocation (w.ActorLocation -
        ⟨0, 0, (w.ScaledCapsuleHalfHeight + s.ActorOnGroundDistance).toDouble⟩) = some OutHit →
      OutHit.PhysMaterial = some k →
      (TickComponent w dt s).CachedPhysicalSurface = k) := by
  have main : ∀ (w : World) (s : UFootstepSoundComponent), s.CachedMovementType = Flying →
      NewMovementType w s ≠ Flying → ∀ (OutHit : FHitResult) (k : EPhysicalSurface),
      w.IsValidWorld = true →
      w.LineTrace w.ActorLocation (w.ActorLocation -
        ⟨0, 0, (w.ScaledCapsuleHalfHeight + s.ActorOnGroundDistance).toDouble⟩) = some OutHit →
      OutHit.PhysMaterial = some k →
      (ReadMovementComponent w s).CachedPhysicalSurface = k := by
    intro w s hf hn OutHit k hv ht hp
    obtain ⟨L, K, hU, -, hK⟩ := UpdateSurface_shape w s
    rw [ReadMovementComponent_of_landing w s hf hn]
    show (OnLand_Native w s).CachedPhysicalSurface = k
    rw [(OnLand_Native_emitted w s).1, hU]
    exact hK OutHit k hv ht hp
  refine ⟨?_, ?_⟩
  · intro w s hf hn
    obtain ⟨hsurf, -, hshape, hplay⟩ := OnLand_Native_emitted w s
    obtain ⟨L, K, hU, hL, hK⟩ := UpdateSurface_shape w s
    have hUe : emitted s (UpdateSurface w s) = L :=
      emitted_append s _ L (by rw [hU])
    have he : emitted s (ReadMovementComponent w s) = emitted s (OnLand_Native w s) := by
      rw [ReadMovementComponent_of_landing w s hf hn]
      rfl
    refine ⟨?_, ?_, ?_, ?_⟩
    · rw [ReadMovementComponent_of_landing w s hf hn]
      exact hsurf
    · rw [he]
      exact hshape
    · intro hv
      rw [hUe, hL hv]
    · intro OutHit k hv ht hp
      refine ⟨main w s hf hn OutHit k hv ht hp, ?_⟩
      intro SoundSet snd hs hl hge
      have hk : (UpdateSurface w s).CachedPhysicalSurface = k := by
        rw [hU]; exact hK OutHit k hv ht hp
      rw [he, hplay SoundSet snd (by rw [hk]; exact hs) hl hge, hUe, hL hv]
      rfl
  · intro w dt s OutHit k hf hg hv ht hp
    have h₃m : (ThrottledSurface w dt (UpdateSpeed w s)).CachedMovementType = Flying := by
      rw [ThrottledSurface_frame]; exact hf
    have h₃a : (ThrottledSurface w dt (UpdateSpeed w s)).ActorOnGroundDistance
        = s.ActorOnGroundDistance := by
      rw [ThrottledSurface_frame]; rfl
    rw [TickComponent_eq]
    show (PlayFootsteps w (ReadMovementComponent w
      (ThrottledSurface w dt (UpdateSpeed w s)))).CachedPhysicalSurface = k
    rw [PlayFootsteps_frame]
    exact main w _ h₃m (NewMovementType_of_ground w _ hg) OutHit k hv (by rw [h₃a]; exact ht) hp

/-- Claim C19 at a concrete input: the owner lands at rest on a surface of type
4 with a fresh surface age; the sound sets have an entry for surface 4 only,
the cached surface was the default one, and the land sound 9 of surface 4 is
what is played, after the line trace and `OnLand`. -/
theorem landing_resamples_first_witness :
    emitted airborneOverGravelComponent
        (ReadMovementComponent gravelWorld airborneOverGravelComponent)
      = [Event.LineTraceSingleByChannel gravelWorld.ActorLocation (gravelWorld.ActorLocation -
           ⟨0, 0, (gravelWorld.ScaledCapsuleHalfHeight
             + airborneOverGravelComponent.ActorOnGroundDistance).toDouble⟩),
         Event.OnLand,
         Event.PlaySoundAtLocation 9 gravelWorld.ActorLocation
           (CalculateLandingVolume airborneOverGravelComponent),
         Event.OnFootstep] :=
  ((landing_resamples_first.1 gravelWorld airborneOverGravelComponent rfl
      (NewMovementType_of_ground gravelWorld airborneOverGravelComponent rfl)).2.2.2
      ⟨some 4⟩ 4 rfl rfl rfl).2
    ⟨some 7, some 8, some 9⟩ 9 (by simp [airborneOverGravelComponent]) rfl
    (by norm_num [airborneOverGravelComponent, Fl.le_def, val_defaultInterval])

end FirstPersonFootsteps
